import Mathlib

/-!
# Solid-fuel boiler controller (ATmega8)

A shallow embedding of `core.h` and `boiler.c` and the properties proved about it.

Conventions of the embedding.

* `u8`, `u32` and `i8` values are natural numbers (integers for `i8`); every place where the
  C arithmetic can leave the range of its type carries an explicit `%`.
* Module-level variables and function-local `static` variables are the fields of `Ctx`;
  a C function that mutates them is a function `Ctx → ... → Ctx`.
* What the hardware returns (pin samples, the result of the 1-Wire reset handshake, the value
  of the `volatile` tick counter `s_ticks` at each place where it is read) is an argument of
  the function that reads it.
* Pure pin wiggling (`gpio_*`, `_delay_us`, the display multiplexer in the timer-0 interrupt,
  the digit-select lines `PB2`/`PB3`) has no influence on the controller state and is left out.
-/

namespace Boiler

/-! ## `core.h`: time -/

/-- `SECONDS(value)`: `((u32)value * 1000UL)`. -/
def SECONDS (value : Nat) : Nat := (value * 1000) % 2 ^ 32

/-- `MINUTES(value)`: `((u32)value * 60UL * 1000UL)`. -/
def MINUTES (value : Nat) : Nat := (value * 60 * 1000) % 2 ^ 32

/-- `struct Timer32`. -/
structure Timer32 where
  wait_done : Bool
  sleep_pending : Bool
  ticks : Nat
deriving DecidableEq, Repr

/-- `timer_reset`: `memset(timer, 0, sizeof(Timer32))`. -/
def timer_reset (_timer : Timer32) : Timer32 :=
  { wait_done := false, sleep_pending := false, ticks := 0 }

/-- `timer_expired_ext`. Every call site passes the address of a static object, so the
`self == 0` guard is never taken and is not modelled. The sums are `u32` sums. -/
def timer_expired_ext (self : Timer32) (wait period sleep_duration now_ticks : Nat) :
    Timer32 × Bool :=
  if self.wait_done = false ∧ self.ticks = 0 then
    ({ self with ticks := (now_ticks + wait) % 2 ^ 32 }, false)
  else if self.wait_done = false ∧ now_ticks < self.ticks then
    (self, false)
  else
    let s1 : Timer32 :=
      if self.wait_done = false then
        { self with wait_done := true, ticks := (now_ticks + period) % 2 ^ 32 }
      else self
    if s1.sleep_pending = true ∧ now_ticks ≤ s1.ticks then
      (s1, false)
    else
      let s2 : Timer32 :=
        if s1.sleep_pending = true then
          { s1 with sleep_pending := false, ticks := (now_ticks + period) % 2 ^ 32 }
        else s1
      if s2.ticks ≥ now_ticks then
        (s2, true)
      else
        ({ s2 with sleep_pending := true,
                   ticks := (now_ticks + sleep_duration) % 2 ^ 32 }, false)

/-- A timer polled at each tick of a list in turn, with fixed parameters: the final timer and
the results of the polls in order. -/
def timer_polls (wait period sleep_duration : Nat) : Timer32 → List Nat → Timer32 × List Bool
  | self, [] => (self, [])
  | self, now :: rest =>
    let r := timer_expired_ext self wait period sleep_duration now
    let rs := timer_polls wait period sleep_duration r.1 rest
    (rs.1, r.2 :: rs.2)

/-! ## `core.h`: `CLAMP` -/

/-- The constant `UINT8_MAX` of `<stdint.h>` (the header `builtin.h` that brings in the fixed
width types is not among the sources). -/
def UINT8_MAX : Int := 255

/-- The expression `CLAMP(cur + value == UINT8_MAX ? 0 : cur + value, min, max)` with `cur`,
`min`, `max` of type `u8` and `value` of type `i8`, as the preprocessor expands it:
`((A == UINT8_MAX ? 0 : A <= min) ? min : (A == UINT8_MAX ? 0 : A >= max) ? max :
   A == UINT8_MAX ? 0 : A)` where `A` is `cur + value`, computed in `int`. The macro does not
parenthesise its argument, so each comparison binds inside the `else` arm of the argument's
conditional. The result is stored in a `u8`. -/
def clamp_adjust (cur : Nat) (value : Int) (min max : Nat) : Nat :=
  let a : Int := (cur : Int) + value
  if (if a = UINT8_MAX then False else a ≤ (min : Int)) then min
  else if (if a = UINT8_MAX then False else a ≥ (max : Int)) then max
  else ((if a = UINT8_MAX then 0 else a) % 256).toNat

/-! ## `boiler.c`: 1-Wire byte framing and checksum -/

/-- The loop of `ow_read`: `p` iterations left, `k` the index of the next sample of
`ow_read_bit()`, `r` the byte being assembled. -/
def ow_read_loop (bit : Nat → Bool) : Nat → Nat → Nat → Nat
  | 0, _, r => r
  | p + 1, k, r =>
    let r1 := r >>> 1
    ow_read_loop bit p (k + 1) (if bit k then r1 ||| 0x80 else r1)

/-- `ow_read`: eight calls of `ow_read_bit()`; `bit k` tells whether the `k`-th sample of the
transaction is non-zero, and the byte is assembled from the samples `k .. k + 7`. -/
def ow_read (bit : Nat → Bool) (k : Nat) : Nat := ow_read_loop bit 8 k 0

/-- The loop of `ow_send`: the arguments given to `ow_send_bit`, in order. -/
def ow_send_loop : Nat → Nat → List Nat
  | 0, _ => []
  | p + 1, byte => (byte &&& 1) :: ow_send_loop p (byte >>> 1)

/-- `ow_send`: the eight bits handed to `ow_send_bit`, in order. -/
def ow_send (byte : Nat) : List Nat := ow_send_loop 8 byte

/-- The loop of `ow_crc_update` with `p` iterations left. -/
def ow_crc_loop : Nat → Nat → Nat → Nat
  | 0, crc, _ => crc
  | p + 1, crc, byte =>
    ow_crc_loop p
      (if (crc ^^^ byte) &&& 1 ≠ 0 then (crc >>> 1) ^^^ 0b10001100 else crc >>> 1)
      (byte >>> 1)

/-- `ow_crc_update`. For `u8` arguments every intermediate value is below 256
(`ow_crc_update_lt`), so no reduction is needed. -/
def ow_crc_update (crc byte : Nat) : Nat := ow_crc_loop 8 crc byte

/-! ## `boiler.c`: temperature acquisition -/

/-- `enum Temp_Step`. -/
inductive Temp_Step where
  | Convert
  | Read
  | Done
deriving DecidableEq, Repr

/-- `struct Temp_Ctx`. -/
structure Temp_Ctx where
  last_temp : Nat
  temp : Nat
  step : Temp_Step
  timer : Timer32
deriving DecidableEq, Repr

/-- The eight scratchpad bytes read by the `for` loop of `get_temp`. -/
def read_scratchpad (bit : Nat → Bool) : List Nat :=
  (List.range 8).map (fun i => ow_read bit (8 * i))

/-- The checksum the `for` loop of `get_temp` folds over the bytes it reads. -/
def scratchpad_crc (scratchpad : List Nat) : Nat := scratchpad.foldl ow_crc_update 0

/-- The value stored by `self->temp = ((scratchpad[1] << 4) & 0x70) | (scratchpad[0] >> 4)`. -/
def decode_temp (b0 b1 : Nat) : Nat := ((b1 <<< 4) &&& 0x70) ||| (b0 >>> 4)

/-- The test `ow_read() == crc` of `get_temp`: the ninth byte read against the checksum folded
over the eight scratchpad bytes. -/
def crc_matches (scratchpad : List Nat) (ninth : Nat) : Bool :=
  ninth == scratchpad_crc scratchpad

/-- The test of `get_temp` on a frame of nine bytes in the order they are read: the first eight
are the scratchpad, the ninth is compared with their checksum. -/
def scratchpad_check (frame : List Nat) : Bool :=
  crc_matches (frame.take 8) (frame.getD 8 0)

/-- `get_temp`. `reset` is the result of the call of `ow_reset()` (when one is made), `bit` the
samples of `ow_read_bit()` in the order they are taken, `s_ticks` the tick counter read by the
timer poll. The commands written to the bus (`0xCC 0x44`, `0xCC 0xBE`) do not change the
context. -/
def get_temp (self : Temp_Ctx) (reset : Bool) (bit : Nat → Bool) (s_ticks : Nat) :
    Temp_Ctx × Bool :=
  let self := { self with last_temp := self.temp }
  let self := { self with step := if self.step = Temp_Step.Done then Temp_Step.Convert
                                  else self.step }
  match self.step with
  | Temp_Step.Convert =>
    if reset then
      ({ self with timer := timer_reset self.timer, step := Temp_Step.Read }, false)
    else (self, false)
  | Temp_Step.Read =>
    let r := timer_expired_ext self.timer (SECONDS 1) 0 0 s_ticks
    let self := { self with timer := r.1 }
    if r.2 then
      if reset then
        let scratchpad := read_scratchpad bit
        if crc_matches scratchpad (ow_read bit 64) then
          ({ self with temp := decode_temp (scratchpad.getD 0 0) (scratchpad.getD 1 0),
                       step := Temp_Step.Done }, true)
        else ({ self with step := Temp_Step.Done }, false)
      else ({ self with step := Temp_Step.Done }, false)
    else (self, false)
  | Temp_Step.Done => (self, false)

/-! ## `boiler.c`: controller state -/

/-- `enum Error`: the bits of `error_flags`. -/
def Error_None : Nat := 0

/-- `Error_Temp_Sensor = 1 << 0`. -/
def Error_Temp_Sensor : Nat := 1

/-- `Error_Low_Temperature = 1 << 1`. -/
def Error_Low_Temperature : Nat := 2

/-- `Error_High_Temperature = 1 << 2`. -/
def Error_High_Temperature : Nat := 4

/-- `enum Mode`. -/
inductive Mode where
  | MODE_STOP
  | MODE_RASTOPKA
  | MODE_CONTROL
deriving DecidableEq, Repr

/-- `enum State`. -/
inductive State where
  | STATE_HOME
  | STATE_MENU
  | STATE_MENU_TEMP_CHANGE
  | STATE_MENU_PARAMETERS
  | STATE_ALARM
deriving DecidableEq, Repr

/-- `enum Button` (without the counter `BUTTON_COUNT`). -/
inductive Button where
  | BUTTON_UP
  | BUTTON_MENU
  | BUTTON_DOWN
deriving DecidableEq, Repr

/-- `enum Leds`: the six indicators, the indices of `leds_list`. -/
inductive Leds where
  | Leds_Stop
  | Leds_Rastopka
  | Leds_Control
  | Leds_Alarm
  | Leds_Pump
  | Leds_Fan
deriving DecidableEq, Repr

/-- `struct Option`: three `u8` fields. -/
structure Opt where
  value : Nat
  min : Nat
  max : Nat
deriving DecidableEq, Repr

/-- `union Options`: the array view `e[OPTIONS_MAX]`; the named members are the accessors
below. -/
structure Options where
  e : Fin 10 → Opt

/-- `enum Parameters`. -/
abbrev CP : Fin 10 := 0
/-- `PP`. -/
abbrev PP : Fin 10 := 1
/-- `OB`. -/
abbrev OB : Fin 10 := 2
/-- `OP`. -/
abbrev OP : Fin 10 := 3
/-- `TP`. -/
abbrev TP : Fin 10 := 4
/-- `HI`. -/
abbrev HI : Fin 10 := 5
/-- `TO`. -/
abbrev TO : Fin 10 := 6
/-- `TU`. -/
abbrev TU : Fin 10 := 7
/-- `BU`. -/
abbrev BU : Fin 10 := 8
/-- `UF`. -/
abbrev UF : Fin 10 := 9

/-- Member `fan_work_duration` (CP). -/
def Options.fan_work_duration (o : Options) : Opt := o.e CP
/-- Member `fan_pause_duration` (PP). -/
def Options.fan_pause_duration (o : Options) : Opt := o.e PP
/-- Member `fan_speed` (Ob). -/
def Options.fan_speed (o : Options) : Opt := o.e OB
/-- Member `fan_power_during_ventilation` (OP). -/
def Options.fan_power_during_ventilation (o : Options) : Opt := o.e OP
/-- Member `pump_connection_temperature` (TP). -/
def Options.pump_connection_temperature (o : Options) : Opt := o.e TP
/-- Member `hysteresis` (HI). -/
def Options.hysteresis (o : Options) : Opt := o.e HI
/-- Member `fan_power_reduction` (tO). -/
def Options.fan_power_reduction (o : Options) : Opt := o.e TO
/-- Member `controller_shutdown_temperature` (tU). -/
def Options.controller_shutdown_temperature (o : Options) : Opt := o.e TU
/-- Member `sound_signal_enabled` (bU). -/
def Options.sound_signal_enabled (o : Options) : Opt := o.e BU
/-- Member `factory_settings` (Uf). -/
def Options.factory_settings (o : Options) : Opt := o.e UF

/-- The module-level variables of `boiler.c`, the function-local statics, and the two pieces
of hardware state the controller drives: the PWM output enable (bit `COM1A1` of `TCCR1A`),
the duty register `OCR1A` and the indicator pins of `PORTC`. -/
structure Ctx where
  display_enable : Bool
  menu_idx : Nat
  timer_out_menu_enabled : Bool
  error_flags : Nat
  mode : Mode
  last_state : State
  state : State
  options : Options
  option_temp_target : Opt
  temp_ctx : Temp_Ctx
  buttons : Button → Bool
  last_buttons : Button → Bool
  leds_list : Leds → Bool
  timer_cp : Timer32
  timer_pp : Timer32
  timer_controller_shutdown_temperature : Timer32
  timer_menu : Timer32
  timer_temp_alarm : Timer32
  timer_ow_alarm : Timer32
  timer_in_menu : Timer32
  timer_out_menu : Timer32
  /-- `static Timer32 timer` of `menu_button`. -/
  menu_button_timer : Timer32
  /-- `static Timer32 timer` of `menu_parameters_button`. -/
  menu_parameters_button_timer : Timer32
  /-- `static Timer32 timer` of `menu_change_temp_button`. -/
  menu_change_temp_button_timer : Timer32
  /-- `static u8 rep` of the boot loop. -/
  boot_rep : Nat
  /-- `static u8 rep` of the main loop. -/
  loop_rep : Nat
  /-- `static Timer32 timer` of the indicator refresh block of the main loop. -/
  leds_timer : Timer32
  /-- Bit `COM1A1` of `TCCR1A`: the PWM output drives the fan pin. -/
  pwm_on : Bool
  /-- Register `OCR1A`. -/
  ocr1a : Nat
  /-- The six indicator pins of `PORTC`. -/
  led_port : Leds → Bool

open Mode State Button Leds

/-- `change_state`. -/
def change_state (s : Ctx) (new_state : State) : Ctx :=
  { s with last_state := s.state, state := new_state }

/-- `leds_change`. -/
def leds_change (s : Ctx) (led : Leds) (enable : Bool) : Ctx :=
  { s with leds_list := Function.update s.leds_list led enable }

/-- `leds_off`. -/
def leds_off (s : Ctx) : Ctx :=
  { s with leds_list := fun _ => false }

/-- `leds_init`. -/
def leds_init (s : Ctx) : Ctx :=
  leds_change (leds_off s) Leds_Stop true

/-- `leds_display`. -/
def leds_display (s : Ctx) (led : Leds) : Ctx :=
  { s with led_port := Function.update s.led_port led (s.leds_list led) }

/-- `fan_start`. -/
def fan_start (s : Ctx) : Ctx :=
  let s := leds_change s Leds_Control false
  let s := leds_change s Leds_Rastopka true
  let s := leds_change s Leds_Fan true
  { s with pwm_on := true }

/-- `fan_stop`. -/
def fan_stop (s : Ctx) : Ctx :=
  let s := leds_change s Leds_Fan false
  { s with pwm_on := false }

/-- `start_alarm`. -/
def start_alarm (s : Ctx) : Ctx :=
  let s := { s with mode := MODE_STOP }
  let s := change_state s STATE_ALARM
  let s := leds_off s
  let s := leds_change s Leds_Stop true
  let s := leds_change s Leds_Alarm true
  let s := { s with
    timer_cp := timer_reset s.timer_cp
    timer_pp := timer_reset s.timer_pp
    timer_controller_shutdown_temperature := timer_reset s.timer_controller_shutdown_temperature
    timer_menu := timer_reset s.timer_menu
    timer_temp_alarm := timer_reset s.timer_temp_alarm
    timer_ow_alarm := timer_reset s.timer_ow_alarm
    timer_in_menu := timer_reset s.timer_in_menu
    timer_out_menu := timer_reset s.timer_out_menu }
  let s := fan_stop s
  { s with timer_out_menu_enabled := false, display_enable := true }

/-- `stop_alarm`. -/
def stop_alarm (s : Ctx) : Ctx :=
  let s := { s with error_flags := Error_None, mode := MODE_STOP }
  let s := change_state s STATE_HOME
  let s := leds_change s Leds_Stop true
  let s := leds_change s Leds_Rastopka false
  let s := leds_change s Leds_Control false
  let s := leds_change s Leds_Alarm false
  let s := leds_change s Leds_Pump false
  leds_change s Leds_Fan false

/-- The factory values written by `options_default` into the ten members of `options`. -/
def default_options : Options :=
  ⟨![⟨10, 5, 95⟩, ⟨3, 1, 99⟩, ⟨99, 30, 99⟩, ⟨90, 30, 99⟩, ⟨40, 25, 70⟩,
     ⟨3, 1, 9⟩, ⟨5, 0, 10⟩, ⟨30, 25, 50⟩, ⟨1, 0, 1⟩, ⟨0, 0, 1⟩]⟩

/-- The factory value written by `options_default` into `option_temp_target`. -/
def default_temp_target : Opt := ⟨60, 35, 80⟩

/-- `options_default`. -/
def options_default (s : Ctx) : Ctx :=
  { s with options := default_options, option_temp_target := default_temp_target }

/-- `options_change_params`. An index outside `0..9` would access `options.e` out of bounds;
the model leaves the block unchanged there (`menu_button` only ever stores an index in
`0..9`, see `clamp_adjust_idx`). -/
def options_change_params (s : Ctx) (value : Int) : Ctx :=
  if h : s.menu_idx < 10 then
    let o := s.options.e ⟨s.menu_idx, h⟩
    { s with options :=
        ⟨Function.update s.options.e ⟨s.menu_idx, h⟩
          { o with value := clamp_adjust o.value value o.min o.max }⟩ }
  else s

/-- `options_save`: the function returns at its first statement. -/
def options_save (s : Ctx) : Ctx := s

/-- `options_load`: the function returns at its first statement. -/
def options_load (s : Ctx) : Ctx := s

/-- `button_pressed`. -/
def button_pressed (s : Ctx) (code : Button) : Bool :=
  !s.last_buttons code && s.buttons code

/-- `button_released`. -/
def button_released (s : Ctx) (code : Button) : Bool :=
  s.last_buttons code && !s.buttons code

/-- `button_down`. -/
def button_down (s : Ctx) (code : Button) : Bool :=
  s.last_buttons code && s.buttons code

/-! ## `boiler.c`: button handlers -/

/-- `menu_button`; `s_ticks` is the tick counter read by its timer poll. -/
def menu_button (s : Ctx) (code : Button) (value : Int) (s_ticks : Nat) : Ctx :=
  let s :=
    if button_pressed s code then
      { s with timer_out_menu := timer_reset s.timer_out_menu,
               menu_idx := clamp_adjust s.menu_idx value 0 9 }
    else s
  let s :=
    if button_released s code then
      { s with menu_button_timer := timer_reset s.menu_button_timer }
    else s
  if button_down s code then
    let s := { s with timer_out_menu := timer_reset s.timer_out_menu }
    let r := timer_expired_ext s.menu_button_timer 500 0 50 s_ticks
    let s := { s with menu_button_timer := r.1 }
    if r.2 then { s with menu_idx := clamp_adjust s.menu_idx value 0 9 } else s
  else s

/-- `menu_parameters_button`. -/
def menu_parameters_button (s : Ctx) (code : Button) (value : Int) (s_ticks : Nat) : Ctx :=
  let s :=
    if button_pressed s code then
      options_change_params { s with timer_out_menu := timer_reset s.timer_out_menu } value
    else s
  let s :=
    if button_released s code then
      { s with menu_parameters_button_timer := timer_reset s.menu_parameters_button_timer }
    else s
  if button_down s code then
    let s := { s with timer_out_menu := timer_reset s.timer_out_menu }
    let r := timer_expired_ext s.menu_parameters_button_timer 500 0 10 s_ticks
    let s := { s with menu_parameters_button_timer := r.1 }
    if r.2 then options_change_params s value else s
  else s

/-- The assignment `option_temp_target.value = CLAMP(...)` of `menu_change_temp_button`. -/
def temp_target_adjust (s : Ctx) (value : Int) : Ctx :=
  { s with option_temp_target :=
      { s.option_temp_target with
        value := clamp_adjust s.option_temp_target.value value
                   s.option_temp_target.min s.option_temp_target.max } }

/-- `menu_change_temp_button`. -/
def menu_change_temp_button (s : Ctx) (code : Button) (value : Int) (s_ticks : Nat) : Ctx :=
  let s :=
    if button_pressed s code then
      let s := { s with timer_out_menu := timer_reset s.timer_out_menu }
      change_state (temp_target_adjust s value) STATE_MENU_TEMP_CHANGE
    else s
  let s :=
    if button_released s code then
      { s with menu_change_temp_button_timer := timer_reset s.menu_change_temp_button_timer }
    else s
  if button_down s code then
    let s := { s with timer_out_menu := timer_reset s.timer_out_menu }
    let r := timer_expired_ext s.menu_change_temp_button_timer 500 0 10 s_ticks
    let s := { s with menu_change_temp_button_timer := r.1 }
    if r.2 then temp_target_adjust s value else s
  else s

/-- The block `display_enable = false; ...; options_save(); display_enable = true;`. -/
def save_with_blank_display (s : Ctx) : Ctx :=
  let s := { s with display_enable := false }
  let s := options_save s
  { s with display_enable := true }

/-- What one call of `handle_buttons` reads from the hardware: the three button samples and
the tick counter at the (at most three) timer polls it makes. -/
structure ButtonsIn where
  /-- The samples `PIN_BUTTON_READ & (1 << pin)`, as "non-zero". -/
  pins : Button → Bool
  /-- The value of `s_ticks` at the poll of `timer_in_menu`. -/
  t_in_menu : Nat
  /-- The value of `s_ticks` at the poll made by the handler of `BUTTON_UP`. -/
  t_up : Nat
  /-- The value of `s_ticks` at the poll made by the handler of `BUTTON_DOWN`. -/
  t_down : Nat

/-- The two calls that end `case STATE_HOME` of `handle_buttons`. -/
def home_up_down (s : Ctx) (i : ButtonsIn) : Ctx :=
  let s := menu_change_temp_button s BUTTON_UP 1 i.t_up
  menu_change_temp_button s BUTTON_DOWN (-1) i.t_down

/-- `handle_buttons`. -/
def handle_buttons (s : Ctx) (i : ButtonsIn) : Ctx :=
  let s := { s with last_buttons := s.buttons, buttons := i.pins }
  match s.state with
  | STATE_HOME =>
    if button_pressed s BUTTON_MENU then
      home_up_down s i
    else if button_down s BUTTON_MENU then
      let r := timer_expired_ext s.timer_in_menu (SECONDS 2) 0 0 i.t_in_menu
      let s := { s with timer_in_menu := r.1 }
      let s :=
        if r.2 then
          let s := change_state s STATE_MENU
          { s with timer_in_menu := timer_reset s.timer_in_menu }
        else s
      home_up_down s i
    else if button_released s BUTTON_MENU then
      let s := { s with timer_in_menu := timer_reset s.timer_in_menu,
                        timer_temp_alarm := timer_reset s.timer_temp_alarm }
      if s.last_state = STATE_HOME ∨ s.last_state = STATE_ALARM then
        if s.mode = MODE_STOP then
          let s := { s with mode := MODE_RASTOPKA }
          fan_stop (leds_change (leds_off s) Leds_Rastopka true)
        else
          let s := { s with mode := MODE_STOP }
          fan_stop (leds_change (leds_off s) Leds_Stop true)
      else
        let s :=
          if s.last_state = STATE_MENU_TEMP_CHANGE ∨ s.last_state = STATE_ALARM
              ∨ s.last_state = STATE_MENU_PARAMETERS ∨ s.last_state = STATE_MENU then
            { s with last_state := STATE_HOME }
          else s
        home_up_down s i
    else home_up_down s i
  | STATE_MENU =>
    let s := { s with timer_out_menu_enabled := true }
    if button_pressed s BUTTON_MENU then
      let s := { s with timer_out_menu := timer_reset s.timer_out_menu }
      change_state s STATE_MENU_PARAMETERS
    else
      let s := menu_button s BUTTON_UP 1 i.t_up
      menu_button s BUTTON_DOWN (-1) i.t_down
  | STATE_MENU_PARAMETERS =>
    if button_pressed s BUTTON_MENU then
      let s := { s with timer_out_menu := timer_reset s.timer_out_menu }
      change_state s STATE_MENU
    else
      let s := menu_parameters_button s BUTTON_UP 1 i.t_up
      menu_parameters_button s BUTTON_DOWN (-1) i.t_down
  | STATE_MENU_TEMP_CHANGE =>
    let s := { s with timer_out_menu_enabled := true }
    if button_pressed s BUTTON_MENU then
      let s := { s with timer_out_menu_enabled := false,
                        timer_out_menu := timer_reset s.timer_out_menu }
      let s := change_state s STATE_HOME
      save_with_blank_display s
    else
      let s := menu_change_temp_button s BUTTON_UP 1 i.t_up
      menu_change_temp_button s BUTTON_DOWN (-1) i.t_down
  | STATE_ALARM =>
    if button_released s BUTTON_MENU then stop_alarm s else s

/-! ## `boiler.c`: `main` -/

/-- The assignment `OCR1A = (options.fan_speed.value - 0) * (255 - 0) / (99 - 0) + 0`
(`int` arithmetic; the product stays below `2 ^ 15` for every value up to 128). -/
def set_pwm_duty (s : Ctx) : Ctx :=
  { s with ocr1a := s.options.fan_speed.value * 255 / 99 }

/-- The escalation shared by both probing loops:
`if (rep >= 5) { rep = 0; if (!ow_reset()) { error_flags = Error_Temp_Sensor; start_alarm();
timer_reset(&timer_ow_alarm); } }`, for a counter `rep`; the result is the context and the
counter. `reset2` is the result of the second `ow_reset()`. -/
def probe_escalate (s : Ctx) (rep : Nat) (reset2 : Bool) : Ctx × Nat :=
  if rep ≥ 5 then
    if reset2 = false then
      let s := { s with error_flags := Error_Temp_Sensor }
      let s := start_alarm s
      ({ s with timer_ow_alarm := timer_reset s.timer_ow_alarm }, 0)
    else (s, 0)
  else (s, rep)

/-- What one iteration of the boot loop reads: the two bus resets and the tick counter at the
two timer polls. -/
structure BootIn where
  reset1 : Bool
  t_alarm : Nat
  reset2 : Bool
  t_while : Nat

/-- The body of the `do { ... } while` loop of `main`. `rep -= 1` is a `u8` decrement. -/
def boot_body (s : Ctx) (i : BootIn) : Ctx :=
  if i.reset1 = false then
    let r := timer_expired_ext s.timer_ow_alarm (SECONDS 1) 0 0 i.t_alarm
    let s := { s with timer_ow_alarm := r.1 }
    if r.2 then
      let e := probe_escalate s s.boot_rep i.reset2
      { e.1 with boot_rep := (e.2 + 255) % 256 }
    else s
  else
    { s with boot_rep := 0, timer_ow_alarm := timer_reset s.timer_ow_alarm }

/-- One iteration of the boot loop: the body, then the loop condition
`timer_expired_ext(&timer_ow_alarm, 0, SECONDS(1), 0, s_ticks)`; the flag tells whether the
loop goes round again. -/
def boot_iter (s : Ctx) (i : BootIn) : Ctx × Bool :=
  let s := boot_body s i
  let r := timer_expired_ext s.timer_ow_alarm 0 (SECONDS 1) 0 i.t_while
  ({ s with timer_ow_alarm := r.1 }, r.2)

/-- `timer_reset(&timer_ow_alarm)` between the boot loop and the main loop. -/
def boot_exit (s : Ctx) : Ctx :=
  { s with timer_ow_alarm := timer_reset s.timer_ow_alarm }

/-- The bus-health block that opens the main loop. -/
def loop_probe (s : Ctx) (s_ticks : Nat) (reset1 reset2 : Bool) : Ctx :=
  let r := timer_expired_ext s.timer_ow_alarm 0 0 (SECONDS 1) s_ticks
  let s := { s with timer_ow_alarm := r.1 }
  if r.2 then
    if reset1 = false ∧ s.state ≠ STATE_ALARM then
      let e := probe_escalate s s.loop_rep reset2
      { e.1 with loop_rep := (e.2 + 255) % 256 }
    else
      { s with loop_rep := 0, timer_ow_alarm := timer_reset s.timer_ow_alarm }
  else s

/-- The menu time-out block of the main loop. The timer is polled only when
`timer_out_menu_enabled` holds, and the state is tested after the poll. -/
def menu_timeout (s : Ctx) (s_ticks : Nat) : Ctx :=
  if s.timer_out_menu_enabled then
    let r := timer_expired_ext s.timer_out_menu (SECONDS 5) 0 0 s_ticks
    let s := { s with timer_out_menu := r.1 }
    if r.2 = true ∧ s.state ≠ STATE_HOME then
      let s := change_state s STATE_HOME
      let s :=
        if s.last_state = STATE_MENU_TEMP_CHANGE ∨ s.last_state = STATE_MENU_PARAMETERS
            ∨ s.last_state = STATE_MENU then
          { s with last_state := STATE_HOME }
        else s
      let s := { s with timer_out_menu_enabled := false,
                        timer_out_menu := timer_reset s.timer_out_menu }
      set_pwm_duty (save_with_blank_display s)
    else s
  else s

/-- The tick counter at the four timer polls of the thermostat. -/
structure ThermoIn where
  t_temp_alarm : Nat
  t_shutdown : Nat
  t_pp : Nat
  t_cp : Nat

/-- The high-temperature guard; the flag tells that the alarm was raised (`continue`). -/
def high_temp_guard (s : Ctx) (s_ticks : Nat) : Ctx × Bool :=
  if s.temp_ctx.temp > 90 then
    let r := timer_expired_ext s.timer_temp_alarm (SECONDS 5) 0 0 s_ticks
    let s := { s with timer_temp_alarm := r.1 }
    if r.2 then
      let s := { s with error_flags := Error_High_Temperature }
      let s := start_alarm s
      ({ s with timer_temp_alarm := timer_reset s.timer_temp_alarm }, true)
    else (s, false)
  else if s.temp_ctx.temp < 90 then
    ({ s with timer_temp_alarm := timer_reset s.timer_temp_alarm }, false)
  else (s, false)

/-- The shutdown-temperature guard; the flag tells that the alarm was raised (`continue`). -/
def low_temp_guard (s : Ctx) (s_ticks : Nat) : Ctx × Bool :=
  let r : Ctx × Bool :=
    if s.options.controller_shutdown_temperature.value > s.temp_ctx.temp then
      let r := timer_expired_ext s.timer_controller_shutdown_temperature (MINUTES 5) 0 0 s_ticks
      let s := { s with timer_controller_shutdown_temperature := r.1 }
      if r.2 then
        let s := { s with error_flags := Error_Low_Temperature }
        let s := start_alarm s
        ({ s with timer_controller_shutdown_temperature :=
                    timer_reset s.timer_controller_shutdown_temperature }, true)
      else (s, false)
    else (s, false)
  if r.2 then r
  else
    let s := r.1
    if s.options.controller_shutdown_temperature.value < s.temp_ctx.temp then
      ({ s with timer_controller_shutdown_temperature :=
                  timer_reset s.timer_controller_shutdown_temperature }, false)
    else (s, false)

/-- The work burst shared by both thermostat branches:
`if (timer_expired_ext(&timer_cp, 0, SECONDS(work), SECONDS(work), s_ticks)) fan_start();
else fan_stop();`. -/
def fan_burst (s : Ctx) (s_ticks : Nat) : Ctx :=
  let w := SECONDS s.options.fan_work_duration.value
  let r := timer_expired_ext s.timer_cp 0 w w s_ticks
  let s := { s with timer_cp := r.1 }
  if r.2 then fan_start s else fan_stop s

/-- The block under the comment "Алгоритм работы": ignition rule and thermostatic rule. The
sum and the difference of the two `u8` values are `int`s and are converted to `u32` for the
comparison with `temp_ctx.temp`; only the difference can be negative. -/
def fan_rule (s : Ctx) (t_pp t_cp : Nat) : Ctx :=
  let temp := s.temp_ctx.temp
  let target := s.option_temp_target.value
  let hyst := s.options.hysteresis.value
  if temp < 35 then
    let s := { s with mode := MODE_RASTOPKA }
    let s := fan_start s
    { s with timer_cp := timer_reset s.timer_cp, timer_pp := timer_reset s.timer_pp }
  else if temp ≥ target + hyst then
    let s := { s with mode := MODE_CONTROL }
    let s := leds_change s Leds_Control true
    let s := leds_change s Leds_Rastopka false
    let s :=
      if s.timer_pp.wait_done = false ∧ s.timer_cp.wait_done = true then
        { s with timer_cp := timer_reset s.timer_cp }
      else s
    let p := MINUTES s.options.fan_pause_duration.value
    let r := timer_expired_ext s.timer_pp p p p t_pp
    let s := { s with timer_pp := r.1 }
    if r.2 then fan_burst s t_cp else fan_stop s
  else if (temp : Int) ≤ ((target : Int) - (hyst : Int)) % 2 ^ 32 then
    let s := { s with mode := MODE_RASTOPKA }
    let s := leds_change s Leds_Rastopka true
    let s := leds_change s Leds_Control false
    let s :=
      if s.timer_pp.wait_done = true then
        { s with timer_cp := timer_reset s.timer_cp, timer_pp := timer_reset s.timer_pp }
      else s
    fan_burst s t_cp
  else s

/-- The pump rule that ends the thermostat block. -/
def pump_rule (s : Ctx) : Ctx :=
  if s.temp_ctx.temp ≥ s.options.pump_connection_temperature.value then
    leds_change s Leds_Pump true
  else leds_change s Leds_Pump false

/-- The block `if (mode != MODE_STOP) { ... }` of the main loop: one thermostat evaluation.
The flag tells that one of the guards raised an alarm and left the iteration by `continue`. -/
def thermostat (s : Ctx) (i : ThermoIn) : Ctx × Bool :=
  if s.mode ≠ MODE_STOP then
    let s := leds_change s Leds_Stop false
    let h := high_temp_guard s i.t_temp_alarm
    if h.2 then h
    else
      let l := low_temp_guard h.1 i.t_shutdown
      if l.2 then l
      else (pump_rule (fan_rule l.1 i.t_pp i.t_cp), false)
  else (s, false)

/-- The block `if (state != STATE_ALARM) { ... }` of the main loop: display blinking while the
target temperature is edited, the factory-reset rule, the thermostat. -/
def control_step (s : Ctx) (t_menu : Nat) (i : ThermoIn) : Ctx × Bool :=
  if s.state ≠ STATE_ALARM then
    let s :=
      if s.state = STATE_MENU_TEMP_CHANGE then
        let r := timer_expired_ext s.timer_menu 0 0 250 t_menu
        let s := { s with timer_menu := r.1 }
        if r.2 then { s with display_enable := !s.display_enable } else s
      else s
    let s :=
      if s.state = STATE_HOME ∧ s.options.factory_settings.value = 1 then
        set_pwm_duty (save_with_blank_display (options_default s))
      else s
    thermostat s i
  else (s, false)

/-- The indicator refresh block that ends the main loop. -/
def leds_refresh (s : Ctx) (s_ticks : Nat) : Ctx :=
  let r := timer_expired_ext s.leds_timer 0 0 (SECONDS 1) s_ticks
  let s := { s with leds_timer := r.1 }
  if r.2 then
    let s := leds_display s Leds_Stop
    let s := leds_display s Leds_Rastopka
    let s := leds_display s Leds_Control
    let s := leds_display s Leds_Alarm
    let s := leds_display s Leds_Pump
    leds_display s Leds_Fan
  else s

/-- What one iteration of the main loop reads from the hardware, in program order. -/
structure LoopIn where
  /-- The tick counter at the poll of `timer_ow_alarm`. -/
  t_ow : Nat
  /-- The result of the periodic `ow_reset()` probe. -/
  reset1 : Bool
  /-- The result of the confirming `ow_reset()` probe. -/
  reset2 : Bool
  /-- What `handle_buttons` reads. -/
  buttons : ButtonsIn
  /-- The tick counter at the poll of `timer_out_menu`. -/
  t_out_menu : Nat
  /-- The result of the `ow_reset()` of `get_temp`. -/
  temp_reset : Bool
  /-- The bit samples of the scratchpad read of `get_temp`. -/
  temp_bit : Nat → Bool
  /-- The tick counter at the timer poll of `get_temp`. -/
  t_temp : Nat
  /-- The tick counter at the poll of `timer_menu`. -/
  t_menu : Nat
  /-- The tick counter at the polls of the thermostat. -/
  thermo : ThermoIn
  /-- The tick counter at the poll of the indicator refresh timer. -/
  t_leds : Nat

/-- The statement `get_temp(&temp_ctx);` of the main loop (the result is discarded). -/
def poll_temp (s : Ctx) (reset : Bool) (bit : Nat → Bool) (s_ticks : Nat) : Ctx :=
  { s with temp_ctx := (get_temp s.temp_ctx reset bit s_ticks).1 }

/-- The statement `if (state == STATE_HOME && last_state == STATE_ALARM) stop_alarm();`. -/
def alarm_cleanup (s : Ctx) : Ctx :=
  if s.state = STATE_HOME ∧ s.last_state = STATE_ALARM then stop_alarm s else s

/-- The part of a main-loop iteration after `handle_buttons`. -/
def loop_after_buttons (s : Ctx) (i : LoopIn) : Ctx :=
  let s := menu_timeout s i.t_out_menu
  let s := poll_temp s i.temp_reset i.temp_bit i.t_temp
  let s := alarm_cleanup s
  let r := control_step s i.t_menu i.thermo
  if r.2 then r.1 else leds_refresh r.1 i.t_leds

/-- One iteration of `for (;;) { ... }` of `main`. -/
def main_loop_iter (s : Ctx) (i : LoopIn) : Ctx :=
  let s := loop_probe s i.t_ow i.reset1 i.reset2
  let s := handle_buttons s i.buttons
  loop_after_buttons s i

/-- The static initialisers of the module-level variables (zero where none is written) and the
reset state of the registers, with `OCR1A = 255` from `system_tick_init`. The options are
filled in by `options_default` below. -/
def zero_ctx : Ctx :=
  { display_enable := true
    menu_idx := 0
    timer_out_menu_enabled := false
    error_flags := Error_None
    mode := MODE_STOP
    last_state := STATE_HOME
    state := STATE_HOME
    options := ⟨fun _ => ⟨0, 0, 0⟩⟩
    option_temp_target := ⟨0, 0, 0⟩
    temp_ctx := ⟨0, 0, Temp_Step.Convert, ⟨false, false, 0⟩⟩
    buttons := fun _ => false
    last_buttons := fun _ => false
    leds_list := fun _ => false
    timer_cp := ⟨false, false, 0⟩
    timer_pp := ⟨false, false, 0⟩
    timer_controller_shutdown_temperature := ⟨false, false, 0⟩
    timer_menu := ⟨false, false, 0⟩
    timer_temp_alarm := ⟨false, false, 0⟩
    timer_ow_alarm := ⟨false, false, 0⟩
    timer_in_menu := ⟨false, false, 0⟩
    timer_out_menu := ⟨false, false, 0⟩
    menu_button_timer := ⟨false, false, 0⟩
    menu_parameters_button_timer := ⟨false, false, 0⟩
    menu_change_temp_button_timer := ⟨false, false, 0⟩
    boot_rep := 0
    loop_rep := 0
    leds_timer := ⟨false, false, 0⟩
    pwm_on := false
    ocr1a := 255
    led_port := fun _ => false }

/-- The context when `main` reaches its boot loop:
`system_tick_init(); init_io(); leds_init(); options_default(); options_load();`. -/
def init_ctx : Ctx := options_load (options_default (leds_init zero_ctx))

/-- The contexts at the top of an iteration of the boot loop. -/
inductive BootReach : Ctx → Prop where
  | start : BootReach init_ctx
  | again (s : Ctx) (i : BootIn) :
      BootReach s → (boot_iter s i).2 = true → BootReach (boot_iter s i).1

/-- The contexts at the top of an iteration of the main loop. -/
inductive Reach : Ctx → Prop where
  | enter (s : Ctx) (i : BootIn) :
      BootReach s → (boot_iter s i).2 = false → Reach (boot_exit (boot_iter s i).1)
  | iter (s : Ctx) (i : LoopIn) : Reach s → Reach (main_loop_iter s i)

/-! ## Reference definitions and auxiliary functions used in the statements -/

/-- One shift of the checksum register with the input already folded in: the update of
`ow_crc_update` as a function of `crc ^ byte`. -/
def crc_shift (x : Nat) : Nat :=
  if x &&& 1 ≠ 0 then (x >>> 1) ^^^ 0b10001100 else x >>> 1

/-- The inverse of `crc_shift` on bytes. -/
def crc_unshift (y : Nat) : Nat :=
  if y &&& 0x80 ≠ 0 then ((y ^^^ 0b10001100) <<< 1) ||| 1 else y <<< 1

/-- The bit-serial Dallas/Maxim CRC-8 step as the specification words it: shift the register
right by one and XOR it with `0x8C` exactly when the XOR of the register's low bit and the
input bit is 1. -/
def crc8_maxim_bit (reg : Nat) (inbit : Bool) : Nat :=
  if (reg.testBit 0 ^^ inbit) = true then (reg >>> 1) ^^^ 0x8C else reg >>> 1

/-- The bit-serial reference for one input byte: the bits 0, 1, ..., 7 of the byte are fed to
`crc8_maxim_bit` in this order; no initial value is imposed and no final XOR applied. -/
def crc8_maxim_ref (reg byte : Nat) : Nat :=
  (List.range 8).foldl (fun r i => crc8_maxim_bit r (byte.testBit i)) reg

/-- A frame with bit `j` of its byte `i` flipped. -/
def flip_bit (frame : List Nat) (i j : Nat) : List Nat :=
  frame.set i (frame.getD i 0 ^^^ 2 ^ j)

/-- The mode after one thermostat evaluation as claim C2 words it: Control if
`r ≥ target + hysteresis`, Kindling if `r ≤ target - hysteresis`, the prior mode otherwise. -/
def mode_by_band (target hyst r : Nat) (prior : Mode) : Mode :=
  if r ≥ target + hyst then MODE_CONTROL
  else if (r : Int) ≤ (target : Int) - (hyst : Int) then MODE_RASTOPKA
  else prior

/-- A context in Control mode with target 35, hysteresis 9 and a reading of 30 degrees. -/
def low_band_ctx : Ctx :=
  { init_ctx with
    mode := MODE_CONTROL
    temp_ctx := { init_ctx.temp_ctx with temp := 30 }
    options := ⟨Function.update default_options.e HI ⟨9, 1, 9⟩⟩
    option_temp_target := ⟨35, 35, 80⟩ }

/-- A context in Kindling mode with the factory target 60 and hysteresis 3 and a reading of 60
degrees, inside the dead band. -/
def dead_band_ctx : Ctx :=
  { init_ctx with
    mode := MODE_RASTOPKA
    temp_ctx := { init_ctx.temp_ctx with temp := 60 } }

/-- The fan is off: the Fan indicator is off and the PWM output is disabled. -/
def fan_off (s : Ctx) : Prop :=
  s.leds_list Leds_Fan = false ∧ s.pwm_on = false

/-- The latch that holds in every Alarm state the program reaches: the mode is Stopped, the fan
is off and the menu time-out is disarmed. -/
def AlarmLatched (s : Ctx) : Prop :=
  s.state = STATE_ALARM →
    s.mode = MODE_STOP ∧ fan_off s ∧ s.timer_out_menu_enabled = false

/-- The iteration with input `i` entered in context `s` samples a release edge of the Menu
button: the previous sample was non-zero and the new one is zero. -/
def menu_release_edge (s : Ctx) (i : LoopIn) : Prop :=
  s.buttons BUTTON_MENU = true ∧ i.buttons.pins BUTTON_MENU = false

/-- Consecutive main-loop iterations, one per input. -/
def main_loop_run (s : Ctx) (is : List LoopIn) : Ctx := is.foldl main_loop_iter s

/-- None of the consecutive iterations with inputs `is`, started in `s`, samples a release
edge of the Menu button. -/
def no_menu_release : Ctx → List LoopIn → Prop
  | _, [] => True
  | s, i :: is => ¬ menu_release_edge s i ∧ no_menu_release (main_loop_iter s i) is

/-- Two contexts agree on the operating state: UI state and remembered state, mode, error
flags, indicators, PWM enable, menu time-out flag, configuration and menu index. They may
differ in timers, counters, button samples, the temperature context and the pins. -/
def same_control (a b : Ctx) : Prop :=
  a.state = b.state ∧ a.last_state = b.last_state ∧ a.mode = b.mode
  ∧ a.error_flags = b.error_flags ∧ a.leds_list = b.leds_list ∧ a.pwm_on = b.pwm_on
  ∧ a.timer_out_menu_enabled = b.timer_out_menu_enabled
  ∧ a.options = b.options ∧ a.option_temp_target = b.option_temp_target
  ∧ a.menu_idx = b.menu_idx

/-- A boot iteration in which the sensor answers the reset. -/
def boot_in_present : BootIn := ⟨true, 0, true, 5⟩

/-- A main-loop input with no button down, every tick read equal to `t`, both bus-health
probes giving `probe`, and an acquisition in which the sensor does not answer. -/
def idle_in (t : Nat) (probe : Bool) : LoopIn :=
  { t_ow := t
    reset1 := probe
    reset2 := probe
    buttons := ⟨fun _ => false, t, t, t⟩
    t_out_menu := t
    temp_reset := false
    temp_bit := fun _ => false
    t_temp := t
    t_menu := t
    thermo := ⟨t, t, t, t⟩
    t_leds := t }

/-- The context on entry to the main loop after one boot iteration with the sensor present. -/
def entry_ctx : Ctx := boot_exit (boot_iter init_ctx boot_in_present).1

/-- The context after four main-loop iterations at ticks 5, 6, 7 and 1008 in which the sensor
has stopped answering: the second probe that fails raises the sensor-fault alarm. -/
def sensor_alarm_ctx : Ctx :=
  main_loop_iter
    (main_loop_iter
      (main_loop_iter (main_loop_iter entry_ctx (idle_in 5 true)) (idle_in 6 false))
      (idle_in 7 false))
    (idle_in 1008 false)

/-- Two contexts hold the same configuration: the ten Options, the target temperature Option
and the selected menu index. -/
def same_config (a b : Ctx) : Prop :=
  a.options = b.options ∧ a.option_temp_target = b.option_temp_target
  ∧ a.menu_idx = b.menu_idx

/-- The configuration invariant: every Configuration Option has the bounds that
`options_default` gives it and a value within them, the target temperature Option has the
bounds 35 and 80 and a value within them, and the menu index is at most 9. -/
def config_ok (s : Ctx) : Prop :=
  (∀ i : Fin 10,
      (s.options.e i).min = (default_options.e i).min
      ∧ (s.options.e i).max = (default_options.e i).max
      ∧ (s.options.e i).min ≤ (s.options.e i).value
      ∧ (s.options.e i).value ≤ (s.options.e i).max)
  ∧ s.option_temp_target.min = 35 ∧ s.option_temp_target.max = 80
  ∧ 35 ≤ s.option_temp_target.value ∧ s.option_temp_target.value ≤ 80
  ∧ s.menu_idx ≤ 9

/-- The events after start-up that can touch the configuration: an iteration of the boot loop,
the exit from the boot loop, a button poll, a main-loop iteration. -/
inductive Step where
  | boot (i : BootIn)
  | enter
  | buttons (i : ButtonsIn)
  | loop (i : LoopIn)

/-- The context after one event. -/
def run_step (s : Ctx) : Step → Ctx
  | Step.boot i => (boot_iter s i).1
  | Step.enter => boot_exit s
  | Step.buttons i => handle_buttons s i
  | Step.loop i => main_loop_iter s i

/-- The context after a sequence of events. -/
def run_steps (s : Ctx) (steps : List Step) : Ctx := steps.foldl run_step s

/-- The main-loop bus-health block makes its periodic probe in the iteration with input `i`
entered in context `s`: the poll of `timer_ow_alarm` fires, so `ow_reset()` is called. -/
def loop_probe_made (s : Ctx) (i : LoopIn) : Bool :=
  (timer_expired_ext s.timer_ow_alarm 0 0 (SECONDS 1) i.t_ow).2

/-- A boot iteration in which the sensor does not answer, with both tick reads equal to `t`. -/
def boot_in_absent (t : Nat) : BootIn := ⟨false, t, false, t⟩

/-- Button samples with only the Menu button down (`menu = true`) or none down. -/
def menu_pins (menu : Bool) : Button → Bool
  | BUTTON_MENU => menu
  | _ => false

/-- What a button poll reads with only the Menu button down or none down, every tick read
equal to `t`. -/
def menu_buttons_in (menu : Bool) (t : Nat) : ButtonsIn := ⟨menu_pins menu, t, t, t⟩

/-- Exactly one indicator is on. -/
def only_led (s : Ctx) (led : Leds) : Prop :=
  ∀ l : Leds, s.leds_list l = decide (l = led)

/-- Two contexts agree on what the user sees of the operating state: UI state and remembered
state, mode, error flags and indicators. -/
def same_status (a b : Ctx) : Prop :=
  a.state = b.state ∧ a.last_state = b.last_state ∧ a.mode = b.mode
  ∧ a.error_flags = b.error_flags ∧ a.leds_list = b.leds_list

/-- A main-loop input with only the Menu button down (`menu = true`) or none down, every tick
read equal to `t`, both bus-health probes answered, and an acquisition in which the sensor
does not answer. -/
def menu_in (menu : Bool) (t : Nat) : LoopIn :=
  { idle_in t true with buttons := menu_buttons_in menu t }

/-- The value claim C19 gives an Option after one step up (`up = true`) or down: one more
unless it is at `max`, one less unless it is at `min`. -/
def stepped_value (o : Opt) (up : Bool) : Nat :=
  if up = true then (if o.value < o.max then o.value + 1 else o.max)
  else (if o.value > o.min then o.value - 1 else o.min)

/-- The button stepped by claim C19 and the other adjustment button. -/
def step_button (up : Bool) : Button := if up = true then BUTTON_UP else BUTTON_DOWN

/-- The adjustment button that is not `step_button up`. -/
def other_button (up : Bool) : Button := if up = true then BUTTON_DOWN else BUTTON_UP

/-- A context in MenuParameters with the factory configuration, the fan work duration selected
and set to its maximum 95, no button down. -/
def parameters_ctx : Ctx :=
  { init_ctx with
    state := STATE_MENU_PARAMETERS
    last_state := STATE_MENU
    timer_out_menu_enabled := true
    options := ⟨Function.update default_options.e CP ⟨95, 5, 95⟩⟩ }

/-- Button samples with only the Up button down. -/
def up_pins : Button → Bool
  | BUTTON_UP => true
  | _ => false

/-- The samples `ow_read_bit()` returns while the sensor sends the bytes of `frame`, each byte
least-significant bit first. -/
def frame_bits (frame : List Nat) (k : Nat) : Bool := (frame.getD (k / 8) 0).testBit (k % 8)

/-- The power-on scratchpad of a DS18B20 (85 °C) followed by its checksum. -/
def power_on_frame : List Nat := [0x50, 0x05, 0x4B, 0x46, 0x7F, 0xFF, 0x0C, 0x10, 0x1C]

/-- A main-loop input with no button down, every tick read equal to `t`, the bus-health probes
answered, and an acquisition in which the sensor answers and sends `power_on_frame`. -/
def sensor_in (t : Nat) : LoopIn :=
  { idle_in t true with temp_reset := true, temp_bit := frame_bits power_on_frame }

/-- The context after three main-loop iterations at ticks 5, 6 and 1006 with the sensor
answering: conversion started, completion timer armed, scratchpad read. -/
def reading_85_ctx : Ctx :=
  main_loop_run entry_ctx [sensor_in 5, sensor_in 6, sensor_in 1006]

/-- Button samples given button by button. -/
def pins_of (up menu down : Bool) : Button → Bool
  | BUTTON_UP => up
  | BUTTON_MENU => menu
  | BUTTON_DOWN => down

/-- A main-loop input with the given button samples, every tick read equal to `t`, the
bus-health probes answered, and an acquisition in which the sensor does not answer. -/
def keys_in (up menu down : Bool) (t : Nat) : LoopIn :=
  { idle_in t true with buttons := ⟨pins_of up menu down, t, t, t⟩ }

/-- The inputs of a run in which the Menu button is held briefly in Home, Up is pressed while
it is held (the UI goes to the target-temperature edit), both buttons are released, and about
three seconds later Menu is pressed again and held. -/
def stale_hold_inputs : List LoopIn :=
  [keys_in false true false 5, keys_in false true false 6, keys_in true true false 7,
   keys_in false false false 8, keys_in false false false 2990,
   keys_in false true false 3000]

/-- The sensor-fault alarm as the operator sees it: UiState = Alarm, the error flags equal to
SensorFault, Mode = Stopped, the fan off, the Stop and Alarm indicators on and the other four
off. -/
def sensor_alarm_shape (s : Ctx) : Prop :=
  s.state = STATE_ALARM ∧ s.error_flags = Error_Temp_Sensor ∧ s.mode = MODE_STOP ∧ fan_off s
  ∧ ∀ l : Leds, s.leds_list l = decide (l = Leds_Stop ∨ l = Leds_Alarm)

/-- Both bus resets of a boot iteration fail. -/
def boot_silent (i : BootIn) : Prop := i.reset1 = false ∧ i.reset2 = false

/-- Every bus reset of a main-loop iteration fails and no button is down. -/
def loop_silent (i : LoopIn) : Prop :=
  i.reset1 = false ∧ i.reset2 = false ∧ i.temp_reset = false
  ∧ ∀ b : Button, i.buttons.pins b = false

/-- A one-second probe fails in the boot iteration with input `i`: the bus reset has failed
and the one-second timer of the loop fires. -/
def boot_strike (s : Ctx) (i : BootIn) : Nat :=
  if i.reset1 = false ∧ (timer_expired_ext s.timer_ow_alarm (SECONDS 1) 0 0 i.t_alarm).2 = true
  then 1 else 0

/-- A one-second probe fails in the main-loop iteration with input `i`: the one-second timer
fires and the bus reset it triggers fails. -/
def loop_strike (s : Ctx) (i : LoopIn) : Nat :=
  if loop_probe_made s i = true ∧ i.reset1 = false then 1 else 0

/-- The boot loop run on the inputs of its iterations: the context on entry to the main loop
when the loop condition holds after every iteration but the last and fails after the last. -/
def boot_loop (s : Ctx) : List BootIn → Option Ctx
  | [] => none
  | i :: is =>
    if (boot_iter s i).2 = true then boot_loop (boot_iter s i).1 is
    else if is.isEmpty then some (boot_exit (boot_iter s i).1) else none

/-- The number of failed one-second probes in consecutive boot iterations. -/
def boot_strikes (s : Ctx) : List BootIn → Nat
  | [] => 0
  | i :: is => boot_strike s i + boot_strikes (boot_iter s i).1 is

/-- The number of failed one-second probes in consecutive main-loop iterations. -/
def loop_strikes (s : Ctx) : List LoopIn → Nat
  | [] => 0
  | i :: is => loop_strike s i + loop_strikes (main_loop_iter s i) is

/-- What holds of the context after `n` failed probes while the sensor is silent and no button
is touched: either the sensor-fault alarm is up, or the UI is in Home, each probe counter is 0
or 255 and every failed probe so far has moved one of them from 0 to 255. -/
def silent_inv (s : Ctx) (n : Nat) : Prop :=
  (∀ b : Button, s.buttons b = false) ∧ s.mode = MODE_STOP
  ∧ s.timer_out_menu_enabled = false ∧ s.options.factory_settings.value = 0
  ∧ (sensor_alarm_shape s
      ∨ (s.state = STATE_HOME ∧ s.last_state = STATE_HOME
          ∧ (s.boot_rep = 0 ∨ s.boot_rep = 255) ∧ (s.loop_rep = 0 ∨ s.loop_rep = 255)
          ∧ n ≤ (if s.boot_rep = 255 then 1 else 0) + (if s.loop_rep = 255 then 1 else 0)))

/-- Two contexts agree on the operating state, the button samples and the probe counters. -/
def silent_frame (a b : Ctx) : Prop :=
  same_control a b ∧ a.buttons = b.buttons ∧ a.boot_rep = b.boot_rep
  ∧ a.loop_rep = b.loop_rep

/-- The inputs of twelve main-loop iterations with the sensor silent and no button down. -/
def silent_inputs : List LoopIn :=
  [idle_in 5 false, idle_in 6 false, idle_in 7 false, idle_in 1008 false,
   idle_in 1009 false, idle_in 1010 false, idle_in 1011 false, idle_in 1012 false,
   idle_in 1013 false, idle_in 1014 false, idle_in 1015 false, idle_in 1016 false]

/-- The context on entry to the main loop after one boot iteration with the sensor silent. -/
def silent_entry_ctx : Ctx := boot_exit (boot_iter init_ctx (boot_in_absent 5)).1

/-- The pause length of the Control-mode cycle in ticks: `MINUTES(fan_pause_duration)`. -/
def pause_ticks (s : Ctx) : Nat := MINUTES s.options.fan_pause_duration.value

/-- The burst length of the fan cycle in ticks: `SECONDS(fan_work_duration)`. -/
def work_ticks (s : Ctx) : Nat := SECONDS s.options.fan_work_duration.value

/-- One thermostat evaluation with the tick counter equal to `t` at every timer poll. -/
def thermo_tick (s : Ctx) (t : Nat) : Ctx := (thermostat s ⟨t, t, t, t⟩).1

/-- The readings and thresholds under which a thermostat evaluation takes the Control branch
and neither guard interferes: the mode is not Stopped, the reading is at least 35, at least
target + hysteresis, at most 90 and not below the shutdown temperature. -/
def control_band (s : Ctx) : Prop :=
  s.mode ≠ MODE_STOP ∧ 35 ≤ s.temp_ctx.temp
  ∧ s.option_temp_target.value + s.options.hysteresis.value ≤ s.temp_ctx.temp
  ∧ s.temp_ctx.temp ≤ 90
  ∧ s.options.controller_shutdown_temperature.value ≤ s.temp_ctx.temp

/-- Consecutive thermostat evaluations, one per tick: the context after the evaluations at
ticks `t0`, `t0 + 1`, ..., `t0 + n - 1`. The reading is the one held in the context. -/
def thermo_ticks (s : Ctx) (t0 : Nat) : Nat → Ctx
  | 0 => s
  | n + 1 => thermo_tick (thermo_ticks s t0 n) (t0 + n)

/-- The fan is on: the Fan indicator is on and the PWM output is enabled. -/
def fan_on (s : Ctx) : Prop :=
  s.leds_list Leds_Fan = true ∧ s.pwm_on = true

/-- The state of the cycle timers and of the fan in context `c`, reached by the evaluation at
tick `t0 + n` of a run entered in `s` at tick `t0` with both cycle timers reset. With `P` the
pause length and `W` the burst length: the pause timer waits until `t0 + P`, reports its
period until `t0 + 2 * P` and sleeps until `t0 + 3 * P + 1`; inside the period the work timer
is armed at `t0 + P` and then alternates `W + 1` ticks of period with `W + 1` ticks of sleep,
a new burst starting at each offset `b = P + 1 + k * (2 * W + 2)`. -/
def cycle_inv (s : Ctx) (t0 n : Nat) (c : Ctx) : Prop :=
  control_band c ∧ c.options = s.options
  ∧ (n < pause_ticks s →
      c.timer_pp = ⟨false, false, t0 + pause_ticks s⟩ ∧ c.timer_cp = ⟨false, false, 0⟩
      ∧ fan_off c)
  ∧ (n = pause_ticks s →
      c.timer_pp = ⟨true, false, t0 + 2 * pause_ticks s⟩
      ∧ c.timer_cp = ⟨false, false, t0 + pause_ticks s⟩ ∧ fan_off c)
  ∧ (pause_ticks s < n → n ≤ 2 * pause_ticks s →
      c.timer_pp = ⟨true, false, t0 + 2 * pause_ticks s⟩
      ∧ ∃ b k : Nat, b = pause_ticks s + 1 + k * (2 * work_ticks s + 2) ∧ b ≤ n
        ∧ n < b + (2 * work_ticks s + 2)
        ∧ (n ≤ b + work_ticks s →
            c.timer_cp = ⟨true, false, t0 + b + work_ticks s⟩ ∧ fan_on c)
        ∧ (b + work_ticks s < n →
            c.timer_cp = ⟨true, true, t0 + b + 2 * work_ticks s + 1⟩ ∧ fan_off c))
  ∧ (2 * pause_ticks s < n → n ≤ 3 * pause_ticks s + 1 →
      c.timer_pp = ⟨true, true, t0 + 3 * pause_ticks s + 1⟩ ∧ fan_off c)

/-- A context in Kindling mode with the factory configuration (target 60, hysteresis 3, burst
10 s, pause 3 min), both cycle timers reset and a reading of 65 degrees. -/
def control_ctx : Ctx :=
  { init_ctx with
    mode := MODE_RASTOPKA
    temp_ctx := { init_ctx.temp_ctx with temp := 65 } }

/-- The tick delta `(now - t0) mod 2^32` of two values of the `u32` tick counter. -/
def tick_delta (now t0 : Nat) : Nat := (now + 2 ^ 32 - t0 % 2 ^ 32) % 2 ^ 32

/-- A timer polled once per tick from tick `t0` on with fixed parameters: the timer after the
poll at tick `t0 + n` and the result of that poll. -/
def timer_tick_run (wait period sleep_duration : Nat) (self : Timer32) (t0 : Nat) :
    Nat → Timer32 × Bool
  | 0 => timer_expired_ext self wait period sleep_duration t0
  | n + 1 =>
    timer_expired_ext (timer_tick_run wait period sleep_duration self t0 n).1 wait period
      sleep_duration (t0 + (n + 1))

/-- The samples a reader takes of the bits `ow_send` emits for a byte: the `i`-th sample is
non-zero exactly when the `i`-th argument given to `ow_send_bit` is. -/
def sent_bits (byte : Nat) (i : Nat) : Bool := decide ((ow_send byte).getD i 0 ≠ 0)

/-- The bits of a string as samples: the `i`-th sample is the `i`-th entry, zero past the
end. -/
def sample_bits (bits : List Bool) (i : Nat) : Bool := bits.getD i false

/-- No fan output is on in `b` that was not on in `a`: going from `a` to `b` neither enables
the PWM output nor sets the Fan indicator. -/
def fan_not_started (a b : Ctx) : Prop :=
  (b.pwm_on = true → a.pwm_on = true)
  ∧ (b.leds_list Leds_Fan = true → a.leds_list Leds_Fan = true)

/-- The context `b` is as `start_alarm` leaves it when called in `a`: Alarm state with the
state of `a` remembered, mode Stopped, fan off, menu time-out disarmed. -/
def alarm_raised (a b : Ctx) : Prop :=
  b.state = STATE_ALARM ∧ b.last_state = a.state ∧ b.mode = MODE_STOP ∧ fan_off b
  ∧ b.timer_out_menu_enabled = false

/-- The invariant at the top of the loops: the alarm latch, Stopped implies fan off, and the
remembered state is not Alarm. -/
def stop_inv (s : Ctx) : Prop :=
  AlarmLatched s ∧ (s.mode = MODE_STOP → fan_off s) ∧ s.last_state ≠ STATE_ALARM

/-- The invariant between `handle_buttons` and the clean-up statement of an iteration: the
remembered state is Alarm only right after the acknowledgement of an alarm. -/
def ack_inv (s : Ctx) : Prop :=
  AlarmLatched s ∧ (s.mode = MODE_STOP → fan_off s)
  ∧ (s.last_state = STATE_ALARM → s.state = STATE_HOME ∧ s.mode = MODE_STOP)

/-- What a button handler outside the Alarm state leaves alone: mode, PWM enable and
indicators; and it neither enters nor remembers the Alarm state. -/
def ui_quiet (a b : Ctx) : Prop :=
  b.mode = a.mode ∧ b.pwm_on = a.pwm_on ∧ b.leds_list = a.leds_list
  ∧ (a.state ≠ STATE_ALARM →
      b.state ≠ STATE_ALARM ∧ (a.last_state ≠ STATE_ALARM → b.last_state ≠ STATE_ALARM))

/-! # Theorems -/

/-! ## Checksum -/

theorem shiftRight_one_xor (a b : Nat) : (a ^^^ b) >>> 1 = (a >>> 1) ^^^ (b >>> 1) := by
  apply Nat.eq_of_testBit_eq
  intro i
  simp [Nat.testBit_shiftRight, Nat.testBit_xor]

theorem and_one_ne_zero_iff (x : Nat) : x &&& 1 ≠ 0 ↔ x.testBit 0 = true := by
  rw [Nat.and_one_is_mod, Nat.testBit_zero]
  simp

/-- One iteration of the loop of `ow_crc_update` is `crc_shift` on `crc ^ byte`. -/
theorem crc_step_xor (crc byte : Nat) :
    (if (crc ^^^ byte) &&& 1 ≠ 0 then (crc >>> 1) ^^^ 0b10001100 else crc >>> 1)
      ^^^ (byte >>> 1) = crc_shift (crc ^^^ byte) := by
  unfold crc_shift
  rw [shiftRight_one_xor]
  split
  · rw [Nat.xor_assoc, Nat.xor_assoc, Nat.xor_comm (0b10001100)]
  · rfl

/-- The loop of `ow_crc_update` in closed form. -/
theorem ow_crc_loop_eq (p : Nat) : ∀ crc byte : Nat,
    ow_crc_loop p crc byte = (crc_shift^[p] (crc ^^^ byte)) ^^^ (byte >>> p) := by
  induction p with
  | zero =>
    intro crc byte
    simp [ow_crc_loop, Nat.xor_assoc]
  | succ p ih =>
    intro crc byte
    rw [ow_crc_loop, ih, crc_step_xor, Function.iterate_succ_apply, ← Nat.shiftRight_add,
      Nat.add_comm 1 p]

theorem ow_crc_update_eq (crc byte : Nat) (hb : byte < 256) :
    ow_crc_update crc byte = crc_shift^[8] (crc ^^^ byte) := by
  have h0 : byte >>> 8 = 0 := by
    rw [Nat.shiftRight_eq_div_pow]
    exact Nat.div_eq_of_lt hb
  rw [ow_crc_update, ow_crc_loop_eq, h0, Nat.xor_zero]

set_option maxRecDepth 100000 in
theorem crc_shift_byte : ∀ x < 256, crc_unshift (crc_shift x) = x ∧ crc_shift x < 256 := by
  decide

theorem crc_shift_iter_lt (n : Nat) : ∀ x < 256, crc_shift^[n] x < 256 := by
  induction n with
  | zero => intro x hx; simpa using hx
  | succ n ih =>
    intro x hx
    rw [Function.iterate_succ_apply]
    exact ih _ (crc_shift_byte x hx).2

theorem crc_shift_iter_inj (n : Nat) : ∀ x < 256, ∀ y < 256,
    crc_shift^[n] x = crc_shift^[n] y → x = y := by
  induction n with
  | zero => intro x _ y _ h; simpa using h
  | succ n ih =>
    intro x hx y hy h
    rw [Function.iterate_succ_apply, Function.iterate_succ_apply] at h
    have h1 := ih _ (crc_shift_byte x hx).2 _ (crc_shift_byte y hy).2 h
    have h2 := congrArg crc_unshift h1
    rwa [(crc_shift_byte x hx).1, (crc_shift_byte y hy).1] at h2

/-- For `u8` arguments the result of `ow_crc_update` is a `u8`. -/
theorem ow_crc_update_lt (crc byte : Nat) (hc : crc < 256) (hb : byte < 256) :
    ow_crc_update crc byte < 256 := by
  rw [ow_crc_update_eq crc byte hb]
  exact crc_shift_iter_lt 8 _ (Nat.xor_lt_two_pow (n := 8) hc hb)

/-- Two different running checksums stay different after the same byte. -/
theorem ow_crc_update_inj_crc (c c' b : Nat) (hc : c < 256) (hc' : c' < 256) (hb : b < 256)
    (h : ow_crc_update c b = ow_crc_update c' b) : c = c' := by
  rw [ow_crc_update_eq c b hb, ow_crc_update_eq c' b hb] at h
  have h1 := crc_shift_iter_inj 8 _ (Nat.xor_lt_two_pow (n := 8) hc hb) _
    (Nat.xor_lt_two_pow (n := 8) hc' hb) h
  have h2 := congrArg (fun z => z ^^^ b) h1
  simpa [Nat.xor_assoc] using h2

/-- Two different bytes give different checksums from the same running checksum. -/
theorem ow_crc_update_inj_byte (c b b' : Nat) (hc : c < 256) (hb : b < 256) (hb' : b' < 256)
    (h : ow_crc_update c b = ow_crc_update c b') : b = b' := by
  rw [ow_crc_update_eq c b hb, ow_crc_update_eq c b' hb'] at h
  have h1 := crc_shift_iter_inj 8 _ (Nat.xor_lt_two_pow (n := 8) hc hb) _
    (Nat.xor_lt_two_pow (n := 8) hc hb') h
  exact Nat.xor_right_injective h1

theorem foldl_crc_lt (l : List Nat) : ∀ c < 256, (∀ b ∈ l, b < 256) →
    l.foldl ow_crc_update c < 256 := by
  induction l with
  | nil => intro c hc _; simpa using hc
  | cons x xs ih =>
    intro c hc hl
    rw [List.foldl_cons]
    exact ih _ (ow_crc_update_lt c x hc (hl x (List.mem_cons_self x xs)))
      (fun b hb => hl b (List.mem_cons_of_mem x hb))

/-- Different running checksums stay different over the same bytes. -/
theorem foldl_crc_ne (l : List Nat) : ∀ c < 256, ∀ c' < 256, (∀ b ∈ l, b < 256) → c ≠ c' →
    l.foldl ow_crc_update c ≠ l.foldl ow_crc_update c' := by
  induction l with
  | nil => intro c _ c' _ _ h; simpa using h
  | cons x xs ih =>
    intro c hc c' hc' hl h
    have hx : x < 256 := hl x (List.mem_cons_self x xs)
    rw [List.foldl_cons, List.foldl_cons]
    exact ih _ (ow_crc_update_lt c x hc hx) _ (ow_crc_update_lt c' x hc' hx)
      (fun b hb => hl b (List.mem_cons_of_mem x hb))
      (fun e => h (ow_crc_update_inj_crc c c' x hc hc' hx e))

theorem xor_two_pow_ne (x j : Nat) : x ^^^ 2 ^ j ≠ x := by
  intro h
  have h1 := congrArg (fun z => x ^^^ z) h
  simp only [Nat.xor_cancel_left, Nat.xor_self] at h1
  exact absurd h1 (Nat.pos_iff_ne_zero.mp (Nat.two_pow_pos j))

theorem xor_two_pow_lt (x j : Nat) (hx : x < 256) (hj : j < 8) : x ^^^ 2 ^ j < 256 :=
  Nat.xor_lt_two_pow (n := 8) hx (Nat.pow_lt_pow_right (by decide) hj)

/-- Flipping one bit of one byte changes the checksum folded over the bytes. -/
theorem foldl_crc_flip_ne (l : List Nat) : ∀ c < 256, (∀ b ∈ l, b < 256) →
    ∀ i < l.length, ∀ j < 8,
      (flip_bit l i j).foldl ow_crc_update c ≠ l.foldl ow_crc_update c := by
  induction l with
  | nil => intro c _ _ i hi; simp at hi
  | cons x xs ih =>
    intro c hc hl i hi j hj
    have hx : x < 256 := hl x (List.mem_cons_self x xs)
    have hxs : ∀ b ∈ xs, b < 256 := fun b hb => hl b (List.mem_cons_of_mem x hb)
    cases i with
    | zero =>
      simp only [flip_bit, List.set_cons_zero, List.foldl_cons, List.getD_cons_zero]
      apply foldl_crc_ne xs _ (ow_crc_update_lt c _ hc (xor_two_pow_lt x j hx hj)) _
        (ow_crc_update_lt c x hc hx) hxs
      intro e
      exact xor_two_pow_ne x j
        (ow_crc_update_inj_byte c _ _ hc (xor_two_pow_lt x j hx hj) hx e)
    | succ i =>
      have hi' : i < xs.length := by simpa using hi
      have := ih _ (ow_crc_update_lt c x hc hx) hxs i hi' j hj
      simpa [flip_bit] using this

set_option maxRecDepth 100000 in
theorem scratchpad_crc_zero : scratchpad_crc [0, 0, 0, 0, 0, 0, 0, 0] = 0x00 := by decide

set_option maxRecDepth 100000 in
theorem scratchpad_crc_power_on :
    scratchpad_crc [0x50, 0x05, 0x4B, 0x46, 0x7F, 0xFF, 0x0C, 0x10] = 0x1C := by decide

/-- Claim C4. For every 8-byte payload, with `c` the checksum that the loop of `get_temp` folds
from 0 over the payload, the 9-byte frame `payload ++ [c]` passes the test of `get_temp`
(checksum of the first eight bytes equals the ninth), every frame obtained from it by flipping
one bit of one of its nine bytes fails the test, and the checksum of the all-zero payload is
`0x00`. -/
theorem scratchpad_check_single_bit (payload : List Nat) (hlen : payload.length = 8)
    (hbytes : ∀ b ∈ payload, b < 256) :
    scratchpad_check (payload ++ [scratchpad_crc payload]) = true
    ∧ (∀ i < 9, ∀ j < 8,
        scratchpad_check (flip_bit (payload ++ [scratchpad_crc payload]) i j) = false)
    ∧ scratchpad_crc [0, 0, 0, 0, 0, 0, 0, 0] = 0x00 := by
  have htake : (payload ++ [scratchpad_crc payload]).take 8 = payload := by
    rw [List.take_append_of_le_length (by omega), List.take_of_length_le (by omega)]
  have hget : (payload ++ [scratchpad_crc payload]).getD 8 0 = scratchpad_crc payload := by
    rw [List.getD_append_right _ _ _ _ (by omega), hlen]
    rfl
  refine ⟨?_, ?_, scratchpad_crc_zero⟩
  · simp only [scratchpad_check, crc_matches, htake, hget, beq_self_eq_true]
  · intro i hi j hj
    by_cases h8 : i < 8
    · -- the flipped bit lies in the payload
      have hflip : flip_bit (payload ++ [scratchpad_crc payload]) i j
          = flip_bit payload i j ++ [scratchpad_crc payload] := by
        unfold flip_bit
        rw [List.set_append_left _ _ (by omega), List.getD_append _ _ _ _ (by omega)]
      have hlen' : (flip_bit payload i j).length = 8 := by simp [flip_bit, hlen]
      have htake' : (flip_bit payload i j ++ [scratchpad_crc payload]).take 8
          = flip_bit payload i j := by
        rw [List.take_append_of_le_length (by omega), List.take_of_length_le (by omega)]
      have hget' : (flip_bit payload i j ++ [scratchpad_crc payload]).getD 8 0
          = scratchpad_crc payload := by
        rw [List.getD_append_right _ _ _ _ (by omega), hlen']
        rfl
      have hne := foldl_crc_flip_ne payload 0 (by decide) hbytes i (by omega) j hj
      rw [hflip]
      simp only [scratchpad_check, crc_matches, htake', hget', beq_eq_false_iff_ne]
      exact fun e => hne e.symm
    · -- the flipped bit lies in the checksum byte
      have hi8 : i = 8 := by omega
      subst hi8
      have hflip : flip_bit (payload ++ [scratchpad_crc payload]) 8 j
          = payload ++ [scratchpad_crc payload ^^^ 2 ^ j] := by
        unfold flip_bit
        rw [hget, List.set_append_right _ _ (by omega), hlen]
        rfl
      have htake' : (payload ++ [scratchpad_crc payload ^^^ 2 ^ j]).take 8 = payload := by
        rw [List.take_append_of_le_length (by omega), List.take_of_length_le (by omega)]
      have hget' : (payload ++ [scratchpad_crc payload ^^^ 2 ^ j]).getD 8 0
          = scratchpad_crc payload ^^^ 2 ^ j := by
        rw [List.getD_append_right _ _ _ _ (by omega), hlen]
        rfl
      rw [hflip]
      simp only [scratchpad_check, crc_matches, htake', hget', beq_eq_false_iff_ne]
      exact xor_two_pow_ne _ j

set_option maxRecDepth 100000 in
theorem power_on_bytes_lt :
    ∀ b ∈ [0x50, 0x05, 0x4B, 0x46, 0x7F, 0xFF, 0x0C, 0x10], b < 256 := by decide

/-- Witness of C4 on the power-on scratchpad of a DS18B20 (85 °C, checksum `0x1C`): the frame
passes, and fails with bit 0 of byte 0 or bit 7 of the checksum byte flipped. -/
theorem scratchpad_check_single_bit_witness :
    scratchpad_crc [0x50, 0x05, 0x4B, 0x46, 0x7F, 0xFF, 0x0C, 0x10] = 0x1C
    ∧ scratchpad_check ([0x50, 0x05, 0x4B, 0x46, 0x7F, 0xFF, 0x0C, 0x10]
        ++ [scratchpad_crc [0x50, 0x05, 0x4B, 0x46, 0x7F, 0xFF, 0x0C, 0x10]]) = true
    ∧ scratchpad_check (flip_bit ([0x50, 0x05, 0x4B, 0x46, 0x7F, 0xFF, 0x0C, 0x10]
        ++ [scratchpad_crc [0x50, 0x05, 0x4B, 0x46, 0x7F, 0xFF, 0x0C, 0x10]]) 0 0) = false
    ∧ scratchpad_check (flip_bit ([0x50, 0x05, 0x4B, 0x46, 0x7F, 0xFF, 0x0C, 0x10]
        ++ [scratchpad_crc [0x50, 0x05, 0x4B, 0x46, 0x7F, 0xFF, 0x0C, 0x10]]) 8 7) = false :=
  have h := scratchpad_check_single_bit [0x50, 0x05, 0x4B, 0x46, 0x7F, 0xFF, 0x0C, 0x10]
    rfl power_on_bytes_lt
  ⟨scratchpad_crc_power_on, h.1, h.2.1 0 (by decide) 0 (by decide),
    h.2.1 8 (by decide) 7 (by decide)⟩

theorem crc_step_eq_maxim_bit (crc byte k : Nat) :
    (if (crc ^^^ (byte >>> k)) &&& 1 ≠ 0 then (crc >>> 1) ^^^ 0b10001100 else crc >>> 1)
      = crc8_maxim_bit crc (byte.testBit k) := by
  have h : ((crc ^^^ (byte >>> k)) &&& 1 ≠ 0) ↔ ((crc.testBit 0 ^^ byte.testBit k) = true) := by
    rw [and_one_ne_zero_iff, Nat.testBit_xor, Nat.testBit_shiftRight, Nat.add_zero]
  unfold crc8_maxim_bit
  by_cases hc : (crc.testBit 0 ^^ byte.testBit k) = true
  · rw [if_pos (h.mpr hc), if_pos hc]
  · rw [if_neg (fun e => hc (h.mp e)), if_neg hc]

theorem ow_crc_loop_eq_ref (byte : Nat) (p : Nat) : ∀ k crc : Nat,
    ow_crc_loop p crc (byte >>> k)
      = (List.range' k p).foldl (fun r i => crc8_maxim_bit r (byte.testBit i)) crc := by
  induction p with
  | zero => intro k crc; rfl
  | succ p ih =>
    intro k crc
    rw [ow_crc_loop, crc_step_eq_maxim_bit, ← Nat.shiftRight_add, ih (k + 1)]
    rfl

set_option maxRecDepth 100000 in
theorem crc_check_value :
    [0x31, 0x32, 0x33, 0x34, 0x35, 0x36, 0x37, 0x38, 0x39].foldl ow_crc_update 0 = 0xA1 := by
  decide

/-- Claim C5. `ow_crc_update crc byte` equals the bit-serial Dallas/Maxim CRC-8 reference
(register shifted right once per input bit, bits taken from bit 0 to bit 7, XOR with `0x8C`
exactly when the register's low bit differs from the input bit, initial value supplied by the
caller, no final XOR); folded from 0 over the ASCII bytes of "123456789" it gives `0xA1`. -/
theorem ow_crc_update_eq_maxim_ref (crc byte : Nat) :
    ow_crc_update crc byte = crc8_maxim_ref crc byte
    ∧ [0x31, 0x32, 0x33, 0x34, 0x35, 0x36, 0x37, 0x38, 0x39].foldl ow_crc_update 0 = 0xA1 := by
  refine ⟨?_, crc_check_value⟩
  have h := ow_crc_loop_eq_ref byte 8 0 crc
  rw [Nat.shiftRight_zero] at h
  rw [ow_crc_update, h, crc8_maxim_ref, List.range_eq_range']

/-! ## Temperature decoding -/

set_option maxRecDepth 100000 in
theorem shl4_and_70 : ∀ x < 256, ((x <<< 4) &&& 0x70) = (x % 8) * 16 := by decide

set_option maxRecDepth 100000 in
theorem nibble_or : ∀ h < 8, ∀ l < 16, (h * 16) ||| l = h * 16 + l := by decide

theorem decode_temp_eq (b0 b1 : Nat) (h0 : b0 < 256) (h1 : b1 < 256) :
    decode_temp b0 b1 = (b1 % 8) * 16 + b0 / 16 := by
  unfold decode_temp
  rw [shl4_and_70 b1 h1, Nat.shiftRight_eq_div_pow]
  exact nibble_or (b1 % 8) (Nat.mod_lt _ (by decide)) (b0 / 2 ^ 4) (by omega)

/-- Claim C6. For every pair of scratchpad bytes the stored reading
`((b1 << 4) & 0x70) | (b0 >> 4)` equals `floor((256 * b1 + b0) / 16) mod 128`, lies in
`0..127`, and for `b1 ≤ 0x07` equals the whole-degree part `floor(raw / 16)` of the raw value
`raw = 256 * b1 + b0`. -/
theorem decode_temp_whole_degrees (b0 b1 : Nat) (h0 : b0 < 256) (h1 : b1 < 256) :
    decode_temp b0 b1 = (256 * b1 + b0) / 16 % 128
    ∧ decode_temp b0 b1 ≤ 127
    ∧ (b1 ≤ 0x07 → decode_temp b0 b1 = (256 * b1 + b0) / 16) := by
  rw [decode_temp_eq b0 b1 h0 h1]
  refine ⟨by omega, by omega, fun h => by omega⟩

/-- Witness of C6 at the raw value `0x0191` (25.0625 °C): the reading is 25. -/
theorem decode_temp_whole_degrees_witness :
    decode_temp 0x91 0x01 = (256 * 0x01 + 0x91) / 16 % 128
    ∧ decode_temp 0x91 0x01 ≤ 127
    ∧ decode_temp 0x91 0x01 = (256 * 0x01 + 0x91) / 16 :=
  have h := decode_temp_whole_degrees 0x91 0x01 (by decide) (by decide)
  ⟨h.1, h.2.1, h.2.2 (by decide)⟩

/-! ## Software timer -/

/-- While the wait phase of an armed timer has not elapsed, polls return false and leave the
timer as it is. -/
theorem timer_polls_waiting (wait period sleep_duration d : Nat) (hd : d ≠ 0)
    (early rest : List Nat) (hearly : ∀ n ∈ early, n < d) :
    timer_polls wait period sleep_duration ⟨false, false, d⟩ (early ++ rest)
      = ((timer_polls wait period sleep_duration ⟨false, false, d⟩ rest).1,
         List.replicate early.length false
           ++ (timer_polls wait period sleep_duration ⟨false, false, d⟩ rest).2) := by
  induction early with
  | nil => simp
  | cons n ns ih =>
    have hn : n < d := hearly n (List.mem_cons_self n ns)
    have hstep : timer_expired_ext ⟨false, false, d⟩ wait period sleep_duration n
        = (⟨false, false, d⟩, false) := by
      simp [timer_expired_ext, hd, hn]
    have ih' := ih (fun m hm => hearly m (List.mem_cons_of_mem n hm))
    rw [List.cons_append, timer_polls, hstep]
    simp only [ih', List.length_cons, List.replicate_succ, List.cons_append]

/-- Claim C3. A freshly reset timer polled with fixed `(wait, period, sleep)`, first at tick
`n0` with `n0 + wait > 0`, then at any ticks `early` that are all below `n0 + wait`, then at a
tick `t ≥ n0 + wait` (no deadline sum above `2^32 - 1`): the first poll returns false and
arms the deadline `n0 + wait`, every poll of `early` returns false, and the poll at `t` returns
true. (The ticks need not even be non-decreasing.) -/
theorem timer_wait_phase (tm : Timer32) (wait period sleep_duration n0 t : Nat)
    (early : List Nat) (hpos : 0 < n0 + wait) (hdead : n0 + wait ≤ 2 ^ 32 - 1)
    (hdead' : t + period ≤ 2 ^ 32 - 1) (hearly : ∀ n ∈ early, n < n0 + wait)
    (ht : n0 + wait ≤ t) :
    timer_expired_ext (timer_reset tm) wait period sleep_duration n0
      = ({ wait_done := false, sleep_pending := false, ticks := n0 + wait }, false)
    ∧ (timer_polls wait period sleep_duration (timer_reset tm) (n0 :: (early ++ [t]))).2
      = false :: (List.replicate early.length false ++ [true]) := by
  have hfirst : timer_expired_ext (timer_reset tm) wait period sleep_duration n0
      = (⟨false, false, n0 + wait⟩, false) := by
    have h0 : (n0 + wait) % 4294967296 = n0 + wait := by omega
    simp [timer_expired_ext, timer_reset, h0]
  have hlast : (timer_expired_ext ⟨false, false, n0 + wait⟩ wait period sleep_duration t).2
      = true := by
    have h1 : (t + period) % 4294967296 = t + period := by omega
    have h2 : ¬ (t < n0 + wait) := by omega
    have h3 : n0 + wait ≠ 0 := by omega
    simp [timer_expired_ext, h1, h2, h3]
  refine ⟨hfirst, ?_⟩
  rw [timer_polls, hfirst]
  simp only
  rw [timer_polls_waiting wait period sleep_duration (n0 + wait) (by omega) early [t] hearly]
  simp only [timer_polls, hlast]

/-- Witness of C3: `wait = 1000`, first poll at tick 7, polls at 7, 500 and 1006 before the
deadline 1007, then a poll at 1007. -/
theorem timer_wait_phase_witness :
    timer_expired_ext (timer_reset ⟨true, true, 5⟩) 1000 0 0 7
      = ({ wait_done := false, sleep_pending := false, ticks := 1007 }, false)
    ∧ (timer_polls 1000 0 0 (timer_reset ⟨true, true, 5⟩) [7, 7, 500, 1006, 1007]).2
      = [false, false, false, false, true] :=
  timer_wait_phase ⟨true, true, 5⟩ 1000 0 0 7 1007 [7, 500, 1006] (by decide) (by decide)
    (by decide) (by decide) (by decide)

/-! ## Temperature acquisition -/

theorem read_scratchpad_bytes (bit : Nat → Bool) :
    (read_scratchpad bit).getD 0 0 = ow_read bit 0
    ∧ (read_scratchpad bit).getD 1 0 = ow_read bit 8 := by
  constructor <;> rfl

/-- Claim C7. `get_temp` returns true exactly when it is entered in the Read step, the
one-second completion timer fires at this poll, the bus reset succeeds and the checksum folded
over the eight scratchpad bytes read equals the ninth byte read; the stored temperature is then
the value decoded from bytes 0 and 1, and whenever `get_temp` returns false the stored
temperature is the one it had on entry. -/
theorem get_temp_result (self : Temp_Ctx) (reset : Bool) (bit : Nat → Bool) (s_ticks : Nat) :
    ((get_temp self reset bit s_ticks).2 = true ↔
      (self.step = Temp_Step.Read
        ∧ (timer_expired_ext self.timer (SECONDS 1) 0 0 s_ticks).2 = true
        ∧ reset = true
        ∧ ow_read bit 64 = scratchpad_crc (read_scratchpad bit)))
    ∧ (get_temp self reset bit s_ticks).1.temp
        = if (get_temp self reset bit s_ticks).2 = true
          then decode_temp (ow_read bit 0) (ow_read bit 8)
          else self.temp := by
  obtain ⟨h0, h1⟩ := read_scratchpad_bytes bit
  rcases self with ⟨last_temp, temp, step, timer⟩
  cases step <;> cases reset <;>
    by_cases ht : (timer_expired_ext timer (SECONDS 1) 0 0 s_ticks).2 = true <;>
    by_cases hc : ow_read bit 64 = scratchpad_crc (read_scratchpad bit) <;>
    simp [-List.getD_eq_getElem?_getD, get_temp, crc_matches, ht, hc, h0, h1]

/-- Claim C8. One call of `get_temp` moves the step from Convert, and from Done (treated as
Convert), to Read when the bus reset succeeds and to Convert otherwise; from Read it stays in
Read while the completion timer does not fire and goes to Done when it fires, whatever the
bus reset and the checksum comparison give. -/
theorem get_temp_step (self : Temp_Ctx) (reset : Bool) (bit : Nat → Bool) (s_ticks : Nat) :
    (get_temp self reset bit s_ticks).1.step =
      match self.step with
      | Temp_Step.Convert => if reset = true then Temp_Step.Read else Temp_Step.Convert
      | Temp_Step.Done => if reset = true then Temp_Step.Read else Temp_Step.Convert
      | Temp_Step.Read =>
        if (timer_expired_ext self.timer (SECONDS 1) 0 0 s_ticks).2 = true
        then Temp_Step.Done else Temp_Step.Read := by
  rcases self with ⟨last_temp, temp, step, timer⟩
  cases step <;> cases reset <;>
    by_cases ht : (timer_expired_ext timer (SECONDS 1) 0 0 s_ticks).2 = true <;>
    by_cases hc : crc_matches (read_scratchpad bit) (ow_read bit 64) = true <;>
    simp [get_temp, ht, hc]

/-! ## Clamped adjustment -/

/-- Away from the sum 255 the expansion of `CLAMP` does clamp: for `u8` bounds with
`min ≤ max` the stored value lies in `[min, max]`. -/
theorem clamp_adjust_bounds (cur : Nat) (value : Int) (min max : Nat) (hmm : min ≤ max)
    (hmax : max ≤ 255) (hne : (cur : Int) + value ≠ 255) :
    min ≤ clamp_adjust cur value min max ∧ clamp_adjust cur value min max ≤ max := by
  unfold clamp_adjust UINT8_MAX
  simp only [hne, if_false]
  split
  · exact ⟨le_refl _, hmm⟩
  · split
    · exact ⟨hmm, le_refl _⟩
    · omega

/-- Without an alarm the high-temperature guard changes nothing but its timer. -/
theorem high_temp_guard_quiet (s : Ctx) (t : Nat) (h : (high_temp_guard s t).2 = false) :
    (high_temp_guard s t).1
      = { s with timer_temp_alarm := (high_temp_guard s t).1.timer_temp_alarm } := by
  unfold high_temp_guard at h ⊢
  by_cases h90 : s.temp_ctx.temp > 90
  · by_cases hr : (timer_expired_ext s.timer_temp_alarm (SECONDS 5) 0 0 t).2 = true
    · simp [h90, hr] at h
    · simp [h90, hr]
  · by_cases hlt : s.temp_ctx.temp < 90 <;> simp [h90, hlt]

/-- Without an alarm the shutdown-temperature guard changes nothing but its timer. -/
theorem low_temp_guard_quiet (s : Ctx) (t : Nat) (h : (low_temp_guard s t).2 = false) :
    (low_temp_guard s t).1
      = { s with timer_controller_shutdown_temperature :=
            (low_temp_guard s t).1.timer_controller_shutdown_temperature } := by
  unfold low_temp_guard at h ⊢
  by_cases hlow : s.options.controller_shutdown_temperature.value > s.temp_ctx.temp
  · by_cases hr : (timer_expired_ext s.timer_controller_shutdown_temperature (MINUTES 5) 0 0
        t).2 = true
    · simp [hlow, hr] at h
    · have hnot : ¬ (s.options.controller_shutdown_temperature.value < s.temp_ctx.temp) := by
        omega
      simp [hlow, hr, hnot]
  · by_cases hhigh : s.options.controller_shutdown_temperature.value < s.temp_ctx.temp <;>
      simp [hlow, hhigh]

/-- The mode chosen by the ignition and thermostatic rules. -/
theorem fan_rule_mode (s : Ctx) (t_pp t_cp : Nat) :
    (fan_rule s t_pp t_cp).mode =
      if s.temp_ctx.temp < 35 then MODE_RASTOPKA
      else if s.temp_ctx.temp ≥ s.option_temp_target.value + s.options.hysteresis.value
        then MODE_CONTROL
      else if (s.temp_ctx.temp : Int)
          ≤ ((s.option_temp_target.value : Int) - (s.options.hysteresis.value : Int)) % 2 ^ 32
        then MODE_RASTOPKA
      else s.mode := by
  unfold fan_rule
  simp only
  split_ifs <;> simp [fan_burst, fan_start, fan_stop, leds_change] <;> split_ifs <;> rfl

theorem pump_rule_mode (s : Ctx) : (pump_rule s).mode = s.mode := by
  unfold pump_rule
  split <;> rfl

/-- Without an alarm a thermostat evaluation in a running mode ends with the pump rule applied
to the result of the fan rule, on a context that differs from the entry context only in the
Stop indicator and the two guard timers. -/
theorem thermostat_quiet (s : Ctx) (i : ThermoIn) (hrun : s.mode ≠ MODE_STOP)
    (hquiet : (thermostat s i).2 = false) :
    ∃ ta tb : Timer32,
      (thermostat s i).1
        = pump_rule (fan_rule
            { leds_change s Leds_Stop false with
              timer_temp_alarm := ta, timer_controller_shutdown_temperature := tb }
            i.t_pp i.t_cp) := by
  unfold thermostat at hquiet ⊢
  simp only [hrun, ne_eq, not_false_eq_true, if_true] at hquiet ⊢
  by_cases hh : (high_temp_guard (leds_change s Leds_Stop false) i.t_temp_alarm).2 = true
  · simp [hh] at hquiet
  · have hh' := Bool.eq_false_iff.mpr hh
    by_cases hl : (low_temp_guard (high_temp_guard (leds_change s Leds_Stop false)
        i.t_temp_alarm).1 i.t_shutdown).2 = true
    · simp [hh, hl] at hquiet
    · have hl' := Bool.eq_false_iff.mpr hl
      have e1 := high_temp_guard_quiet _ _ hh'
      have e2 := low_temp_guard_quiet _ _ hl'
      refine ⟨(high_temp_guard (leds_change s Leds_Stop false)
          i.t_temp_alarm).1.timer_temp_alarm,
        (low_temp_guard (high_temp_guard (leds_change s Leds_Stop false)
          i.t_temp_alarm).1 i.t_shutdown).1.timer_controller_shutdown_temperature, ?_⟩
      simp only [hh, hl, if_false]
      have e3 : ∀ tb0 : Timer32,
          ({ (high_temp_guard (leds_change s Leds_Stop false) i.t_temp_alarm).1 with
              timer_controller_shutdown_temperature := tb0 } : Ctx)
          = { leds_change s Leds_Stop false with
              timer_temp_alarm := (high_temp_guard (leds_change s Leds_Stop false)
                i.t_temp_alarm).1.timer_temp_alarm,
              timer_controller_shutdown_temperature := tb0 } := by
        intro tb0
        rw [e1]
      exact congrArg (fun c => pump_rule (fan_rule c i.t_pp i.t_cp)) (e2.trans (e3 _))

/-- Claim C2, as stated, fails: with target 35 and hysteresis 9, in Control mode, a reading of
30 is neither `≥ target + hysteresis` nor `≤ target - hysteresis`, and no alarm fires, yet the
thermostat evaluation leaves Kindling instead of the prior mode Control. -/
theorem thermostat_band_counterexample :
    35 ≤ low_band_ctx.option_temp_target.value ∧ low_band_ctx.option_temp_target.value ≤ 80
    ∧ 1 ≤ low_band_ctx.options.hysteresis.value ∧ low_band_ctx.options.hysteresis.value ≤ 9
    ∧ low_band_ctx.mode = MODE_CONTROL
    ∧ low_band_ctx.temp_ctx.temp = 30
    ∧ (thermostat low_band_ctx ⟨0, 0, 0, 0⟩).2 = false
    ∧ (thermostat low_band_ctx ⟨0, 0, 0, 0⟩).1.mode = MODE_RASTOPKA
    ∧ mode_by_band 35 9 30 MODE_CONTROL = MODE_CONTROL
    ∧ (thermostat low_band_ctx ⟨0, 0, 0, 0⟩).1.mode
        ≠ mode_by_band low_band_ctx.option_temp_target.value
            low_band_ctx.options.hysteresis.value low_band_ctx.temp_ctx.temp
            low_band_ctx.mode := by
  decide

/-- Claim C2, amended. For every target in `[35, 80]`, hysteresis in `[1, 9]`, reading `r` and
prior mode Kindling or Control, a thermostat evaluation in which no alarm fires leaves
Mode = Control if `r ≥ target + hysteresis`, Mode = Kindling if `r ≤ target - hysteresis` or
`r < 35`, and the prior mode otherwise; with target 60 and hysteresis 3 this is Control for
`r ≥ 63`, Kindling for `r ≤ 57` and the prior mode for `r` in `[58, 62]`. -/
theorem thermostat_mode_decision (s : Ctx) (i : ThermoIn)
    (hprior : s.mode = MODE_RASTOPKA ∨ s.mode = MODE_CONTROL)
    (htarget : 35 ≤ s.option_temp_target.value ∧ s.option_temp_target.value ≤ 80)
    (hhyst : 1 ≤ s.options.hysteresis.value ∧ s.options.hysteresis.value ≤ 9)
    (hquiet : (thermostat s i).2 = false) :
    (thermostat s i).1.mode
      = (if s.temp_ctx.temp ≥ s.option_temp_target.value + s.options.hysteresis.value
          then MODE_CONTROL
         else if s.temp_ctx.temp ≤ s.option_temp_target.value - s.options.hysteresis.value
              ∨ s.temp_ctx.temp < 35
          then MODE_RASTOPKA
         else s.mode)
    ∧ (s.option_temp_target.value = 60 → s.options.hysteresis.value = 3 →
        (thermostat s i).1.mode
          = if s.temp_ctx.temp ≥ 63 then MODE_CONTROL
            else if s.temp_ctx.temp ≤ 57 then MODE_RASTOPKA
            else s.mode) := by
  have hrun : s.mode ≠ MODE_STOP := by rcases hprior with h | h <;> simp [h]
  obtain ⟨ta, tb, e⟩ := thermostat_quiet s i hrun hquiet
  have hmode : (thermostat s i).1.mode
      = (if s.temp_ctx.temp < 35 then MODE_RASTOPKA
         else if s.temp_ctx.temp ≥ s.option_temp_target.value + s.options.hysteresis.value
          then MODE_CONTROL
         else if (s.temp_ctx.temp : Int)
            ≤ ((s.option_temp_target.value : Int) - (s.options.hysteresis.value : Int)) % 2 ^ 32
          then MODE_RASTOPKA
         else s.mode) := by
    rw [e, pump_rule_mode, fan_rule_mode]
    rfl
  obtain ⟨ht1, ht2⟩ := htarget
  obtain ⟨hh1, hh2⟩ := hhyst
  have hmod : ((s.option_temp_target.value : Int) - (s.options.hysteresis.value : Int)) % 2 ^ 32
      = (s.option_temp_target.value : Int) - (s.options.hysteresis.value : Int) := by
    norm_num
    omega
  rw [hmode, hmod]
  constructor
  · split_ifs <;> first | rfl | omega
  · intro h60 h3
    rw [h60, h3]
    split_ifs <;> first | rfl | omega

/-- Witness of the amended C2: factory target 60 and hysteresis 3, Kindling, reading 60: the
evaluation raises no alarm and holds Kindling. -/
theorem thermostat_mode_decision_witness :
    (thermostat dead_band_ctx ⟨0, 0, 0, 0⟩).2 = false
    ∧ (thermostat dead_band_ctx ⟨0, 0, 0, 0⟩).1.mode
        = (if dead_band_ctx.temp_ctx.temp ≥ 63 then MODE_CONTROL
           else if dead_band_ctx.temp_ctx.temp ≤ 57 then MODE_RASTOPKA
           else dead_band_ctx.mode) :=
  have h := thermostat_mode_decision dead_band_ctx ⟨0, 0, 0, 0⟩ (by decide) (by decide)
    (by decide) (by decide)
  ⟨by decide, h.2 (by decide) (by decide)⟩

/-! ## Alarm latch -/

theorem start_alarm_latched (s : Ctx) :
    (start_alarm s).state = STATE_ALARM ∧ (start_alarm s).mode = MODE_STOP
    ∧ fan_off (start_alarm s) ∧ (start_alarm s).timer_out_menu_enabled = false := by
  simp [start_alarm, fan_off, fan_stop, leds_change, leds_off, change_state]

theorem stop_alarm_state (s : Ctx) : (stop_alarm s).state = STATE_HOME := by
  simp [stop_alarm, leds_change, change_state]

theorem probe_escalate_latched (s : Ctx) (rep : Nat) (reset2 : Bool) (h : AlarmLatched s) :
    AlarmLatched (probe_escalate s rep reset2).1 := by
  unfold probe_escalate
  split_ifs
  · intro _
    obtain ⟨_, h2, h3, h4⟩ := start_alarm_latched { s with error_flags := Error_Temp_Sensor }
    exact ⟨h2, h3, h4⟩
  · exact h
  · exact h

theorem boot_iter_latched (s : Ctx) (i : BootIn) (h : AlarmLatched s) :
    AlarmLatched (boot_iter s i).1 := by
  have key : ∀ (c : Ctx) (t : Timer32) (n : Nat), AlarmLatched c →
      AlarmLatched { c with timer_ow_alarm := t, boot_rep := n } := fun c t n hc => hc
  unfold boot_iter boot_body
  simp only
  split_ifs
  · exact key _ _ _ (probe_escalate_latched _ _ _ (key _ _ _ h))
  · exact key _ _ _ h
  · exact key _ _ _ h

theorem boot_exit_latched (s : Ctx) (h : AlarmLatched s) : AlarmLatched (boot_exit s) := h

theorem loop_probe_latched (s : Ctx) (t : Nat) (r1 r2 : Bool) (h : AlarmLatched s) :
    AlarmLatched (loop_probe s t r1 r2) := by
  have key : ∀ (c : Ctx) (t : Timer32) (n : Nat), AlarmLatched c →
      AlarmLatched { c with timer_ow_alarm := t, loop_rep := n } := fun c t n hc => hc
  unfold loop_probe
  simp only
  split_ifs
  · exact key _ _ _ (probe_escalate_latched _ _ _ (key _ _ _ h))
  · exact key _ _ _ h
  · exact key _ _ _ h

theorem menu_change_temp_button_not_alarm (s : Ctx) (code : Button) (value : Int) (t : Nat)
    (h : s.state ≠ STATE_ALARM) :
    (menu_change_temp_button s code value t).state ≠ STATE_ALARM := by
  unfold menu_change_temp_button
  simp only
  split_ifs <;> simp [change_state, temp_target_adjust, h]

theorem menu_button_state (s : Ctx) (code : Button) (value : Int) (t : Nat) :
    (menu_button s code value t).state = s.state := by
  unfold menu_button
  simp only
  split_ifs <;> rfl

theorem options_change_params_state (s : Ctx) (value : Int) :
    (options_change_params s value).state = s.state := by
  unfold options_change_params
  split <;> rfl

theorem menu_parameters_button_state (s : Ctx) (code : Button) (value : Int) (t : Nat) :
    (menu_parameters_button s code value t).state = s.state := by
  unfold menu_parameters_button
  simp only
  split_ifs <;> simp [options_change_params_state]

theorem home_up_down_not_alarm (s : Ctx) (i : ButtonsIn) (h : s.state ≠ STATE_ALARM) :
    (home_up_down s i).state ≠ STATE_ALARM :=
  menu_change_temp_button_not_alarm _ _ _ _ (menu_change_temp_button_not_alarm _ _ _ _ h)

/-- `handle_buttons` never enters the Alarm state. -/
theorem handle_buttons_not_alarm (s : Ctx) (i : ButtonsIn) (h : s.state ≠ STATE_ALARM) :
    (handle_buttons s i).state ≠ STATE_ALARM := by
  unfold handle_buttons
  simp only
  split
  · split_ifs <;>
      first
      | (apply home_up_down_not_alarm; simp_all [change_state])
      | simp_all [fan_stop, leds_change, leds_off]
  · split_ifs
    · simp [change_state]
    · rw [menu_button_state, menu_button_state]; simp_all
  · split_ifs
    · simp [change_state]
    · rw [menu_parameters_button_state, menu_parameters_button_state]; simp_all
  · split_ifs
    · simp [change_state, save_with_blank_display, options_save]
    · exact menu_change_temp_button_not_alarm _ _ _ _
        (menu_change_temp_button_not_alarm _ _ _ _ (by simp_all))
  · simp_all

/-- In the Alarm state `handle_buttons` only records the samples, unless it sees a release
edge of the Menu button, on which it calls `stop_alarm`. -/
theorem handle_buttons_alarm (s : Ctx) (i : ButtonsIn) (h : s.state = STATE_ALARM) :
    handle_buttons s i
      = if s.buttons BUTTON_MENU = true ∧ i.pins BUTTON_MENU = false
        then stop_alarm { s with last_buttons := s.buttons, buttons := i.pins }
        else { s with last_buttons := s.buttons, buttons := i.pins } := by
  unfold handle_buttons
  simp only [h, button_released]
  by_cases h1 : s.buttons BUTTON_MENU = true <;> by_cases h2 : i.pins BUTTON_MENU = true <;>
    simp [h1, h2]

theorem handle_buttons_latched (s : Ctx) (i : ButtonsIn) (h : AlarmLatched s) :
    AlarmLatched (handle_buttons s i) := by
  by_cases hs : s.state = STATE_ALARM
  · rw [handle_buttons_alarm s i hs]
    split_ifs
    · intro hc
      rw [stop_alarm_state] at hc
      exact absurd hc (by decide)
    · exact h
  · intro hc
    exact absurd hc (handle_buttons_not_alarm s i hs)

theorem menu_timeout_latched (s : Ctx) (t : Nat) (h : AlarmLatched s) :
    AlarmLatched (menu_timeout s t) := by
  unfold menu_timeout
  by_cases he : s.timer_out_menu_enabled = true
  · have hs : s.state ≠ STATE_ALARM := by
      intro hc
      have := (h hc).2.2
      simp [he] at this
    simp only [he, if_true]
    split_ifs <;> intro hc <;>
      simp [change_state, save_with_blank_display, options_save, set_pwm_duty, hs] at hc
  · simpa [he] using h

/-- With the menu time-out disarmed the time-out block does nothing. -/
theorem menu_timeout_disarmed (s : Ctx) (t : Nat) (h : s.timer_out_menu_enabled = false) :
    menu_timeout s t = s := by
  simp [menu_timeout, h]

/-- When the high-temperature guard raises its alarm it leaves the latched Alarm state. -/
theorem high_temp_guard_fired (s : Ctx) (t : Nat) (h : (high_temp_guard s t).2 = true) :
    (high_temp_guard s t).1.state = STATE_ALARM ∧ (high_temp_guard s t).1.mode = MODE_STOP
    ∧ fan_off (high_temp_guard s t).1
    ∧ (high_temp_guard s t).1.timer_out_menu_enabled = false
    ∧ (high_temp_guard s t).1.error_flags = Error_High_Temperature := by
  unfold high_temp_guard at h ⊢
  by_cases h90 : s.temp_ctx.temp > 90
  · by_cases hr : (timer_expired_ext s.timer_temp_alarm (SECONDS 5) 0 0 t).2 = true
    · simp only [h90, hr, if_true]
      obtain ⟨h1, h2, h3, h4⟩ := start_alarm_latched
        { s with timer_temp_alarm := (timer_expired_ext s.timer_temp_alarm (SECONDS 5) 0 0 t).1,
                 error_flags := Error_High_Temperature }
      exact ⟨h1, h2, h3, h4, rfl⟩
    · simp [h90, hr] at h
  · by_cases hlt : s.temp_ctx.temp < 90 <;> simp [h90, hlt] at h

theorem high_temp_guard_latched (s : Ctx) (t : Nat) (h : s.state ≠ STATE_ALARM) :
    AlarmLatched (high_temp_guard s t).1
    ∧ ((high_temp_guard s t).2 = false → (high_temp_guard s t).1.state ≠ STATE_ALARM) := by
  by_cases hq : (high_temp_guard s t).2 = false
  · have e := high_temp_guard_quiet s t hq
    have hst : (high_temp_guard s t).1.state = s.state := by rw [e]
    exact ⟨fun hc => absurd (hst ▸ hc) h, fun _ => hst ▸ h⟩
  · refine ⟨?_, fun hc => absurd hc hq⟩
    obtain ⟨_, h2, h3, h4, _⟩ := high_temp_guard_fired s t (by simpa using hq)
    exact fun _ => ⟨h2, h3, h4⟩

/-- When the shutdown-temperature guard raises its alarm it leaves the latched Alarm state. -/
theorem low_temp_guard_fired (s : Ctx) (t : Nat) (h : (low_temp_guard s t).2 = true) :
    (low_temp_guard s t).1.state = STATE_ALARM ∧ (low_temp_guard s t).1.mode = MODE_STOP
    ∧ fan_off (low_temp_guard s t).1
    ∧ (low_temp_guard s t).1.timer_out_menu_enabled = false
    ∧ (low_temp_guard s t).1.error_flags = Error_Low_Temperature := by
  unfold low_temp_guard at h ⊢
  by_cases hlow : s.options.controller_shutdown_temperature.value > s.temp_ctx.temp
  · by_cases hr : (timer_expired_ext s.timer_controller_shutdown_temperature (MINUTES 5) 0 0
        t).2 = true
    · simp only [hlow, hr, if_true]
      obtain ⟨h1, h2, h3, h4⟩ := start_alarm_latched
        { s with
          timer_controller_shutdown_temperature :=
            (timer_expired_ext s.timer_controller_shutdown_temperature (MINUTES 5) 0 0 t).1,
          error_flags := Error_Low_Temperature }
      exact ⟨h1, h2, h3, h4, rfl⟩
    · have hnot : ¬ (s.options.controller_shutdown_temperature.value < s.temp_ctx.temp) := by
        omega
      simp [hlow, hr, hnot] at h
  · by_cases hhigh : s.options.controller_shutdown_temperature.value < s.temp_ctx.temp <;>
      simp [hlow, hhigh] at h

theorem low_temp_guard_latched (s : Ctx) (t : Nat) (h : s.state ≠ STATE_ALARM) :
    AlarmLatched (low_temp_guard s t).1
    ∧ ((low_temp_guard s t).2 = false → (low_temp_guard s t).1.state ≠ STATE_ALARM) := by
  by_cases hq : (low_temp_guard s t).2 = false
  · have e := low_temp_guard_quiet s t hq
    have hst : (low_temp_guard s t).1.state = s.state := by rw [e]
    exact ⟨fun hc => absurd (hst ▸ hc) h, fun _ => hst ▸ h⟩
  · refine ⟨?_, fun hc => absurd hc hq⟩
    obtain ⟨_, h2, h3, h4, _⟩ := low_temp_guard_fired s t (by simpa using hq)
    exact fun _ => ⟨h2, h3, h4⟩

theorem fan_burst_state (s : Ctx) (t : Nat) : (fan_burst s t).state = s.state := by
  unfold fan_burst
  simp only
  split_ifs <;> rfl

theorem fan_rule_state (s : Ctx) (t_pp t_cp : Nat) : (fan_rule s t_pp t_cp).state = s.state := by
  unfold fan_rule
  simp only
  split_ifs <;> simp [fan_burst_state, fan_start, fan_stop, leds_change]

theorem pump_rule_state (s : Ctx) : (pump_rule s).state = s.state := by
  unfold pump_rule
  split <;> rfl

/-- The three ways a thermostat evaluation ends. -/
theorem thermostat_cases (s : Ctx) (i : ThermoIn) :
    (s.mode = MODE_STOP ∧ thermostat s i = (s, false))
    ∨ (s.mode ≠ MODE_STOP
        ∧ (high_temp_guard (leds_change s Leds_Stop false) i.t_temp_alarm).2 = true
        ∧ thermostat s i = high_temp_guard (leds_change s Leds_Stop false) i.t_temp_alarm)
    ∨ (s.mode ≠ MODE_STOP
        ∧ (high_temp_guard (leds_change s Leds_Stop false) i.t_temp_alarm).2 = false
        ∧ (low_temp_guard (high_temp_guard (leds_change s Leds_Stop false) i.t_temp_alarm).1
            i.t_shutdown).2 = true
        ∧ thermostat s i
            = low_temp_guard (high_temp_guard (leds_change s Leds_Stop false) i.t_temp_alarm).1
                i.t_shutdown)
    ∨ (s.mode ≠ MODE_STOP ∧ (thermostat s i).2 = false
        ∧ (high_temp_guard (leds_change s Leds_Stop false) i.t_temp_alarm).2 = false
        ∧ (low_temp_guard (high_temp_guard (leds_change s Leds_Stop false) i.t_temp_alarm).1
            i.t_shutdown).2 = false
        ∧ thermostat s i
            = (pump_rule (fan_rule
                (low_temp_guard (high_temp_guard (leds_change s Leds_Stop false)
                  i.t_temp_alarm).1 i.t_shutdown).1 i.t_pp i.t_cp), false)) := by
  by_cases hm : s.mode = MODE_STOP
  · left
    exact ⟨hm, by simp [thermostat, hm]⟩
  · right
    by_cases hh : (high_temp_guard (leds_change s Leds_Stop false) i.t_temp_alarm).2 = true
    · left
      exact ⟨hm, hh, by simp [thermostat, hm, hh]⟩
    · right
      by_cases hl : (low_temp_guard (high_temp_guard (leds_change s Leds_Stop false)
          i.t_temp_alarm).1 i.t_shutdown).2 = true
      · left
        exact ⟨hm, by simpa using hh, hl, by simp [thermostat, hm, hh, hl]⟩
      · right
        exact ⟨hm, by simp [thermostat, hm, hh, hl], by simpa using hh, by simpa using hl,
          by simp [thermostat, hm, hh, hl]⟩

theorem thermostat_latched (s : Ctx) (i : ThermoIn) (h : s.state ≠ STATE_ALARM) :
    AlarmLatched (thermostat s i).1 := by
  have h0 : (leds_change s Leds_Stop false).state ≠ STATE_ALARM := h
  rcases thermostat_cases s i with ⟨_, e⟩ | ⟨_, _, e⟩ | ⟨_, hh, _, e⟩ | ⟨_, _, hh, hl, e⟩
  · rw [e]
    exact fun hc => absurd hc h
  · rw [e]
    exact (high_temp_guard_latched _ _ h0).1
  · rw [e]
    exact (low_temp_guard_latched _ _ ((high_temp_guard_latched _ _ h0).2 hh)).1
  · rw [e]
    intro hc
    have h2 := (low_temp_guard_latched _ i.t_shutdown ((high_temp_guard_latched _ _ h0).2 hh)).2 hl
    simp only [pump_rule_state, fan_rule_state] at hc
    exact absurd hc h2

theorem same_control_refl (a : Ctx) : same_control a a :=
  ⟨rfl, rfl, rfl, rfl, rfl, rfl, rfl, rfl, rfl, rfl⟩

theorem same_control_trans {a b c : Ctx} (h1 : same_control a b) (h2 : same_control b c) :
    same_control a c := by
  unfold same_control at *
  obtain ⟨a1, a2, a3, a4, a5, a6, a7, a8, a9, a10⟩ := h1
  obtain ⟨b1, b2, b3, b4, b5, b6, b7, b8, b9, b10⟩ := h2
  exact ⟨a1.trans b1, a2.trans b2, a3.trans b3, a4.trans b4, a5.trans b5, a6.trans b6,
    a7.trans b7, a8.trans b8, a9.trans b9, a10.trans b10⟩

/-- The alarm latch only looks at the operating state. -/
theorem alarm_latched_of_same {c s : Ctx} (hc : same_control c s) (h : AlarmLatched s) :
    AlarmLatched c := by
  obtain ⟨h1, _, h3, _, h5, h6, h7, _⟩ := hc
  unfold AlarmLatched fan_off at *
  rw [h1, h3, h5, h6, h7]
  exact h

theorem leds_refresh_same (s : Ctx) (t : Nat) : same_control (leds_refresh s t) s := by
  unfold leds_refresh same_control
  by_cases hr : (timer_expired_ext s.leds_timer 0 0 (SECONDS 1) t).2 = true
  · rw [if_pos hr]
    simp only [leds_display, and_self]
  · rw [if_neg hr]
    simp only [and_self]

theorem poll_temp_same (s : Ctx) (reset : Bool) (bit : Nat → Bool) (t : Nat) :
    same_control (poll_temp s reset bit t) s :=
  same_control_refl s

/-- The context on which `control_step` runs the thermostat outside the Alarm state: after
the blink block and the factory-reset rule. -/
theorem control_step_not_alarm (s : Ctx) (t : Nat) (i : ThermoIn) (h : s.state ≠ STATE_ALARM) :
    ∃ c : Ctx, c.state = s.state ∧ control_step s t i = thermostat c i := by
  unfold control_step
  simp only [h, ne_eq, not_false_eq_true, if_true]
  refine ⟨_, ?_, rfl⟩
  by_cases h1 : s.state = STATE_MENU_TEMP_CHANGE
  · have h2 : s.state ≠ STATE_HOME := by rw [h1]; decide
    by_cases h3 : (timer_expired_ext s.timer_menu 0 0 250 t).2 = true <;> simp [h1, h3]
  · by_cases h2 : s.state = STATE_HOME ∧ s.options.factory_settings.value = 1
    · simp [h1, h2, set_pwm_duty, save_with_blank_display, options_save, options_default]
    · simp only [h1, if_false, h2]

/-- In the Alarm state the control block is skipped. -/
theorem control_step_alarm (s : Ctx) (t : Nat) (i : ThermoIn) (h : s.state = STATE_ALARM) :
    control_step s t i = (s, false) := by
  simp [control_step, h]

theorem control_step_latched (s : Ctx) (t : Nat) (i : ThermoIn) (h : AlarmLatched s) :
    AlarmLatched (control_step s t i).1 := by
  by_cases hs : s.state = STATE_ALARM
  · rw [control_step_alarm s t i hs]
    exact h
  · obtain ⟨c, hc, e⟩ := control_step_not_alarm s t i hs
    rw [e]
    exact thermostat_latched c i (by rw [hc]; exact hs)

theorem alarm_cleanup_latched (s : Ctx) (h : AlarmLatched s) :
    AlarmLatched (alarm_cleanup s) := by
  unfold alarm_cleanup
  by_cases hx : s.state = STATE_HOME ∧ s.last_state = STATE_ALARM
  · rw [if_pos hx]
    intro hy
    rw [stop_alarm_state] at hy
    exact absurd hy (by decide)
  · rw [if_neg hx]
    exact h

theorem loop_after_buttons_latched (s : Ctx) (i : LoopIn) (h : AlarmLatched s) :
    AlarmLatched (loop_after_buttons s i) := by
  have h1 := menu_timeout_latched s i.t_out_menu h
  have h2 := alarm_latched_of_same
    (poll_temp_same (menu_timeout s i.t_out_menu) i.temp_reset i.temp_bit i.t_temp) h1
  have h4 := control_step_latched _ i.t_menu i.thermo (alarm_cleanup_latched _ h2)
  unfold loop_after_buttons
  simp only
  split
  · exact h4
  · exact alarm_latched_of_same (leds_refresh_same _ _) h4

theorem main_loop_iter_latched (s : Ctx) (i : LoopIn) (h : AlarmLatched s) :
    AlarmLatched (main_loop_iter s i) :=
  loop_after_buttons_latched _ _ (handle_buttons_latched _ _ (loop_probe_latched _ _ _ _ h))

theorem init_ctx_latched : AlarmLatched init_ctx := by
  intro h
  exact absurd h (by decide)

theorem boot_reach_latched (s : Ctx) (h : BootReach s) : AlarmLatched s := by
  induction h with
  | start => exact init_ctx_latched
  | again s i _ _ ih => exact boot_iter_latched s i ih

/-- Every context at the top of the main loop satisfies the alarm latch. -/
theorem reach_latched (s : Ctx) (h : Reach s) : AlarmLatched s := by
  induction h with
  | enter s i hb _ => exact boot_exit_latched _ (boot_iter_latched s i (boot_reach_latched s hb))
  | iter s i _ ih => exact main_loop_iter_latched s i ih

/-- In the Alarm state the bus-health block changes only its timer and its counter. -/
theorem loop_probe_alarm (s : Ctx) (t : Nat) (r1 r2 : Bool) (h : s.state = STATE_ALARM) :
    same_control (loop_probe s t r1 r2) s ∧ (loop_probe s t r1 r2).buttons = s.buttons := by
  unfold loop_probe same_control
  by_cases hr : (timer_expired_ext s.timer_ow_alarm 0 0 (SECONDS 1) t).2 = true
  · simp [hr, h]
  · simp [hr]

/-- One main-loop iteration entered in a latched Alarm state without a release edge of the
Menu button leaves the operating state as it is. -/
theorem main_loop_iter_alarm_same (s : Ctx) (i : LoopIn) (hs : s.state = STATE_ALARM)
    (hl : AlarmLatched s) (hrel : ¬ menu_release_edge s i) :
    same_control (main_loop_iter s i) s := by
  obtain ⟨p1, p2⟩ := loop_probe_alarm s i.t_ow i.reset1 i.reset2 hs
  have q0 : (loop_probe s i.t_ow i.reset1 i.reset2).state = STATE_ALARM := p1.1.trans hs
  -- handle_buttons
  have q1 : same_control (handle_buttons (loop_probe s i.t_ow i.reset1 i.reset2) i.buttons) s := by
    have hrel' : ¬ (s.buttons BUTTON_MENU = true ∧ i.buttons.pins BUTTON_MENU = false) := hrel
    rw [handle_buttons_alarm _ _ q0, p2, if_neg hrel']
    exact p1
  have q1s : (handle_buttons (loop_probe s i.t_ow i.reset1 i.reset2) i.buttons).state
      = STATE_ALARM := q1.1.trans hs
  have q1e : (handle_buttons (loop_probe s i.t_ow i.reset1 i.reset2)
      i.buttons).timer_out_menu_enabled = false :=
    q1.2.2.2.2.2.2.1.trans (hl hs).2.2
  unfold main_loop_iter loop_after_buttons
  simp only
  rw [menu_timeout_disarmed _ _ q1e]
  have q2 : same_control (poll_temp (handle_buttons (loop_probe s i.t_ow i.reset1 i.reset2)
      i.buttons) i.temp_reset i.temp_bit i.t_temp) s :=
    same_control_trans (poll_temp_same _ _ _ _) q1
  have q3 : alarm_cleanup (poll_temp (handle_buttons (loop_probe s i.t_ow i.reset1 i.reset2)
      i.buttons) i.temp_reset i.temp_bit i.t_temp)
      = poll_temp (handle_buttons (loop_probe s i.t_ow i.reset1 i.reset2)
      i.buttons) i.temp_reset i.temp_bit i.t_temp := by
    unfold alarm_cleanup
    rw [if_neg]
    rw [q2.1, hs]
    simp
  rw [q3, control_step_alarm _ _ _ (q2.1.trans hs)]
  simp only [Bool.false_eq_true, if_false]
  exact same_control_trans (leds_refresh_same _ _) q2

theorem entry_ctx_reach : Reach entry_ctx :=
  Reach.enter init_ctx boot_in_present BootReach.start (by decide)

theorem sensor_alarm_ctx_reach : Reach sensor_alarm_ctx :=
  Reach.iter _ _ (Reach.iter _ _ (Reach.iter _ _ (Reach.iter _ _ entry_ctx_reach)))

theorem sensor_alarm_ctx_state :
    sensor_alarm_ctx.state = STATE_ALARM ∧ sensor_alarm_ctx.error_flags = Error_Temp_Sensor := by
  decide

/-- Claim C1. For every context at the top of the main loop with UiState = Alarm and every
sequence of main-loop iterations from it none of which samples a release edge of the Menu
button, whatever the readings, the bus-probe results and the tick values are, the run ends
with UiState still Alarm, Mode = Stopped, the fan off (Fan indicator off and PWM output
disabled) and the error flags unchanged; a single iteration is the run of length one. -/
theorem alarm_latch (s : Ctx) (is : List LoopIn) (hreach : Reach s)
    (hs : s.state = STATE_ALARM) (hrel : no_menu_release s is) :
    (main_loop_run s is).state = STATE_ALARM
    ∧ (main_loop_run s is).mode = MODE_STOP
    ∧ fan_off (main_loop_run s is)
    ∧ (main_loop_run s is).error_flags = s.error_flags := by
  induction is generalizing s with
  | nil =>
    obtain ⟨h1, h2, _⟩ := reach_latched s hreach hs
    exact ⟨hs, h1, h2, rfl⟩
  | cons i is ih =>
    obtain ⟨hrel1, hrel2⟩ := hrel
    have hsame := main_loop_iter_alarm_same s i hs (reach_latched s hreach) hrel1
    have hs' : (main_loop_iter s i).state = STATE_ALARM := hsame.1.trans hs
    obtain ⟨r1, r2, r3, r4⟩ := ih (main_loop_iter s i) (Reach.iter s i hreach) hs' hrel2
    exact ⟨r1, r2, r3, r4.trans hsame.2.2.2.1⟩

/-- Witness of C1: from the sensor-fault alarm, two further iterations in which the sensor
answers again and no button is touched leave the alarm latched. -/
theorem alarm_latch_witness :
    (main_loop_run sensor_alarm_ctx [idle_in 2000 true, idle_in 3001 true]).state = STATE_ALARM
    ∧ (main_loop_run sensor_alarm_ctx [idle_in 2000 true, idle_in 3001 true]).mode = MODE_STOP
    ∧ fan_off (main_loop_run sensor_alarm_ctx [idle_in 2000 true, idle_in 3001 true])
    ∧ (main_loop_run sensor_alarm_ctx [idle_in 2000 true, idle_in 3001 true]).error_flags
        = sensor_alarm_ctx.error_flags :=
  alarm_latch sensor_alarm_ctx [idle_in 2000 true, idle_in 3001 true] sensor_alarm_ctx_reach
    sensor_alarm_ctx_state.1
    ⟨fun h => absurd h.1 (by decide), fun h => absurd h.1 (by decide), trivial⟩

theorem same_config_refl (a : Ctx) : same_config a a := ⟨rfl, rfl, rfl⟩

theorem same_config_trans {a b c : Ctx} (h1 : same_config a b) (h2 : same_config b c) :
    same_config a c :=
  ⟨h1.1.trans h2.1, h1.2.1.trans h2.2.1, h1.2.2.trans h2.2.2⟩

theorem same_config_of_control {a b : Ctx} (h : same_control a b) : same_config a b :=
  ⟨h.2.2.2.2.2.2.2.1, h.2.2.2.2.2.2.2.2.1, h.2.2.2.2.2.2.2.2.2⟩

theorem config_ok_of_same {c s : Ctx} (hc : same_config c s) (h : config_ok s) :
    config_ok c := by
  obtain ⟨h1, h2, h3⟩ := hc
  unfold config_ok at *
  rw [h1, h2, h3]
  exact h

theorem start_alarm_config (s : Ctx) : same_config (start_alarm s) s := by
  simp [same_config, start_alarm, fan_stop, leds_change, leds_off, change_state]

theorem stop_alarm_config (s : Ctx) : same_config (stop_alarm s) s := by
  simp [same_config, stop_alarm, leds_change, change_state]

theorem probe_escalate_config (s : Ctx) (rep : Nat) (reset2 : Bool) :
    same_config (probe_escalate s rep reset2).1 s := by
  unfold probe_escalate
  by_cases h1 : rep ≥ 5
  · by_cases h2 : reset2 = false
    · rw [if_pos h1, if_pos h2]
      exact start_alarm_config _
    · rw [if_pos h1, if_neg h2]
      exact same_config_refl s
  · rw [if_neg h1]
    exact same_config_refl s

theorem boot_iter_config (s : Ctx) (i : BootIn) : same_config (boot_iter s i).1 s := by
  have e := probe_escalate_config
    { s with timer_ow_alarm := (timer_expired_ext s.timer_ow_alarm (SECONDS 1) 0 0 i.t_alarm).1 }
    s.boot_rep i.reset2
  unfold same_config at e ⊢
  unfold boot_iter boot_body
  by_cases h1 : i.reset1 = false
  · by_cases h2 : (timer_expired_ext s.timer_ow_alarm (SECONDS 1) 0 0 i.t_alarm).2 = true
    · simpa [h1, h2] using e
    · simp [h1, h2]
  · simp [h1]

theorem boot_exit_config (s : Ctx) : same_config (boot_exit s) s := ⟨rfl, rfl, rfl⟩

theorem loop_probe_config (s : Ctx) (t : Nat) (r1 r2 : Bool) :
    same_config (loop_probe s t r1 r2) s := by
  have e := probe_escalate_config
    { s with timer_ow_alarm := (timer_expired_ext s.timer_ow_alarm 0 0 (SECONDS 1) t).1 }
    s.loop_rep r2
  unfold same_config at e ⊢
  unfold loop_probe
  by_cases h1 : (timer_expired_ext s.timer_ow_alarm 0 0 (SECONDS 1) t).2 = true
  · by_cases h2 : r1 = false ∧ s.state ≠ STATE_ALARM
    · simpa [h1, h2] using e
    · simp only [h1, if_true, h2, if_false, and_self]
  · simp [h1]

theorem menu_timeout_config (s : Ctx) (t : Nat) : same_config (menu_timeout s t) s := by
  unfold same_config menu_timeout
  by_cases h1 : s.timer_out_menu_enabled = true <;>
    by_cases hr : (timer_expired_ext s.timer_out_menu (SECONDS 5) 0 0 t).2 = true <;>
    by_cases hh : s.state = STATE_HOME <;>
    by_cases h3 : s.state = STATE_MENU_TEMP_CHANGE ∨ s.state = STATE_MENU_PARAMETERS
      ∨ s.state = STATE_MENU <;>
    simp [set_pwm_duty, save_with_blank_display, options_save, change_state, h1, hr, hh, h3]

theorem alarm_cleanup_config (s : Ctx) : same_config (alarm_cleanup s) s := by
  unfold alarm_cleanup
  split
  · exact stop_alarm_config s
  · exact same_config_refl s

theorem fan_burst_config (s : Ctx) (t : Nat) : same_config (fan_burst s t) s := by
  unfold same_config fan_burst
  by_cases h : (timer_expired_ext s.timer_cp 0 (SECONDS s.options.fan_work_duration.value)
      (SECONDS s.options.fan_work_duration.value) t).2 = true
  · simp [h, fan_start, leds_change]
  · simp [h, fan_stop, leds_change]

theorem fan_rule_config (s : Ctx) (t_pp t_cp : Nat) :
    same_config (fan_rule s t_pp t_cp) s := by
  unfold fan_rule
  simp only
  split_ifs <;>
    first
    | exact same_config_refl s
    | exact same_config_trans (fan_burst_config _ _) ⟨rfl, rfl, rfl⟩

theorem pump_rule_config (s : Ctx) : same_config (pump_rule s) s := by
  unfold pump_rule
  split <;> exact ⟨rfl, rfl, rfl⟩

theorem high_temp_guard_config (s : Ctx) (t : Nat) :
    same_config (high_temp_guard s t).1 s := by
  unfold same_config high_temp_guard
  have e := start_alarm_config
    { s with timer_temp_alarm := (timer_expired_ext s.timer_temp_alarm (SECONDS 5) 0 0 t).1,
             error_flags := Error_High_Temperature }
  unfold same_config at e
  by_cases h90 : s.temp_ctx.temp > 90
  · by_cases hr : (timer_expired_ext s.timer_temp_alarm (SECONDS 5) 0 0 t).2 = true
    · simpa [h90, hr] using e
    · simp [h90, hr]
  · by_cases hlt : s.temp_ctx.temp < 90 <;> simp [h90, hlt]

theorem low_temp_guard_config (s : Ctx) (t : Nat) :
    same_config (low_temp_guard s t).1 s := by
  unfold same_config low_temp_guard
  have e := start_alarm_config
    { s with
      timer_controller_shutdown_temperature :=
        (timer_expired_ext s.timer_controller_shutdown_temperature (MINUTES 5) 0 0 t).1,
      error_flags := Error_Low_Temperature }
  unfold same_config at e
  by_cases hlow : s.options.controller_shutdown_temperature.value > s.temp_ctx.temp
  · by_cases hr : (timer_expired_ext s.timer_controller_shutdown_temperature (MINUTES 5) 0 0
        t).2 = true
    · simpa [hlow, hr] using e
    · have hnot : ¬ (s.options.controller_shutdown_temperature.value < s.temp_ctx.temp) := by
        omega
      simp [hlow, hr, hnot]
  · by_cases hhigh : s.options.controller_shutdown_temperature.value < s.temp_ctx.temp <;>
      simp [hlow, hhigh]

theorem thermostat_config (s : Ctx) (i : ThermoIn) : same_config (thermostat s i).1 s := by
  have h0 : same_config (leds_change s Leds_Stop false) s := ⟨rfl, rfl, rfl⟩
  rcases thermostat_cases s i with ⟨_, e⟩ | ⟨_, _, e⟩ | ⟨_, _, _, e⟩ | ⟨_, _, _, _, e⟩
  · rw [e]
    exact same_config_refl s
  · rw [e]
    exact same_config_trans (high_temp_guard_config _ _) h0
  · rw [e]
    exact same_config_trans (low_temp_guard_config _ _)
      (same_config_trans (high_temp_guard_config _ _) h0)
  · rw [e]
    exact same_config_trans (pump_rule_config _)
      (same_config_trans (fan_rule_config _ _ _)
        (same_config_trans (low_temp_guard_config _ _)
          (same_config_trans (high_temp_guard_config _ _) h0)))

/-- Whatever the adjustment, the menu index stored by `menu_button` is at most 9. -/
theorem clamp_adjust_idx (cur : Nat) (value : Int) : clamp_adjust cur value 0 9 ≤ 9 := by
  unfold clamp_adjust UINT8_MAX
  by_cases ha : (cur : Int) + value = 255
  · simp [ha]
  · simp only [ha, if_false]
    split
    · omega
    · split
      · omega
      · omega

theorem default_options_max : ∀ i : Fin 10, (default_options.e i).max ≤ 99 := by decide

theorem default_options_ok : ∀ i : Fin 10,
    (default_options.e i).min ≤ (default_options.e i).value
    ∧ (default_options.e i).value ≤ (default_options.e i).max := by decide

theorem options_default_ok (s : Ctx) (h : s.menu_idx ≤ 9) : config_ok (options_default s) := by
  refine ⟨fun i => ⟨rfl, rfl, (default_options_ok i).1, (default_options_ok i).2⟩, ?_⟩
  have h35 : 35 ≤ default_temp_target.value := by decide
  have h80 : default_temp_target.value ≤ 80 := by decide
  exact ⟨rfl, rfl, h35, h80, h⟩

theorem options_change_params_ok (s : Ctx) (value : Int) (hv : value ≤ 127)
    (h : config_ok s) : config_ok (options_change_params s value) := by
  unfold options_change_params
  by_cases hidx : s.menu_idx < 10
  · rw [dif_pos hidx]
    obtain ⟨hopt, hrest⟩ := h
    refine ⟨fun i => ?_, hrest⟩
    by_cases hi : i = ⟨s.menu_idx, hidx⟩
    · subst hi
      obtain ⟨h1, h2, h3, h4⟩ := hopt ⟨s.menu_idx, hidx⟩
      have hmax := default_options_max ⟨s.menu_idx, hidx⟩
      have hb := clamp_adjust_bounds (s.options.e ⟨s.menu_idx, hidx⟩).value value
        (s.options.e ⟨s.menu_idx, hidx⟩).min (s.options.e ⟨s.menu_idx, hidx⟩).max
        (by omega) (by omega) (by omega)
      simp only [Function.update_same]
      exact ⟨h1, h2, hb.1, hb.2⟩
    · simp only [Function.update_noteq hi]
      exact hopt i
  · rw [dif_neg hidx]
    exact h

theorem temp_target_adjust_ok (s : Ctx) (value : Int) (hv : value ≤ 127)
    (h : config_ok s) : config_ok (temp_target_adjust s value) := by
  obtain ⟨hopt, h1, h2, h3, h4, h5⟩ := h
  have hb := clamp_adjust_bounds s.option_temp_target.value value s.option_temp_target.min
    s.option_temp_target.max (by omega) (by omega) (by omega)
  refine ⟨hopt, h1, h2, ?_, ?_, h5⟩
  · have := hb.1
    simp only [temp_target_adjust]
    omega
  · have := hb.2
    simp only [temp_target_adjust]
    omega

set_option maxRecDepth 10000 in
theorem menu_button_ok (s : Ctx) (code : Button) (value : Int) (t : Nat)
    (h : config_ok s) : config_ok (menu_button s code value t) := by
  have key : ∀ (c : Ctx), config_ok c →
      config_ok { c with menu_idx := clamp_adjust c.menu_idx value 0 9 } := by
    intro c hc
    obtain ⟨hopt, h1, h2, h3, h4, _⟩ := hc
    exact ⟨hopt, h1, h2, h3, h4, clamp_adjust_idx _ _⟩
  unfold menu_button
  simp only
  split_ifs <;>
    first
    | exact h
    | exact key _ h
    | exact key _ (key _ h)

theorem menu_parameters_button_ok (s : Ctx) (code : Button) (value : Int) (t : Nat)
    (hv : value ≤ 127) (h : config_ok s) :
    config_ok (menu_parameters_button s code value t) := by
  unfold menu_parameters_button
  simp only
  split_ifs <;>
    first
    | exact h
    | exact options_change_params_ok _ _ hv h
    | exact options_change_params_ok _ _ hv
        (config_ok_of_same ⟨rfl, rfl, rfl⟩ (options_change_params_ok _ _ hv h))

theorem menu_change_temp_button_ok (s : Ctx) (code : Button) (value : Int) (t : Nat)
    (hv : value ≤ 127) (h : config_ok s) :
    config_ok (menu_change_temp_button s code value t) := by
  unfold menu_change_temp_button
  simp only
  split_ifs <;>
    first
    | exact h
    | exact temp_target_adjust_ok _ _ hv h
    | exact temp_target_adjust_ok _ _ hv
        (config_ok_of_same ⟨rfl, rfl, rfl⟩ (temp_target_adjust_ok _ _ hv h))

theorem home_up_down_ok (s : Ctx) (i : ButtonsIn) (h : config_ok s) :
    config_ok (home_up_down s i) :=
  menu_change_temp_button_ok _ _ _ _ (by decide)
    (menu_change_temp_button_ok _ _ _ _ (by decide) h)

set_option maxRecDepth 10000 in
theorem handle_buttons_ok (s : Ctx) (i : ButtonsIn) (h : config_ok s) :
    config_ok (handle_buttons s i) := by
  have h' : config_ok { s with last_buttons := s.buttons, buttons := i.pins } := h
  unfold handle_buttons
  simp only
  split
  · split_ifs <;>
      first
      | exact home_up_down_ok _ _ h'
      | exact home_up_down_ok _ _ (config_ok_of_same ⟨rfl, rfl, rfl⟩ h')
      | (refine config_ok_of_same ?_ h
         simp [same_config, fan_stop, leds_change, leds_off])
  · split_ifs
    · exact config_ok_of_same ⟨rfl, rfl, rfl⟩ h'
    · exact menu_button_ok _ _ _ _ (menu_button_ok _ _ _ _ (config_ok_of_same ⟨rfl, rfl, rfl⟩ h'))
  · split_ifs
    · exact config_ok_of_same ⟨rfl, rfl, rfl⟩ h'
    · exact menu_parameters_button_ok _ _ _ _ (by decide)
        (menu_parameters_button_ok _ _ _ _ (by decide) h')
  · split_ifs
    · exact config_ok_of_same ⟨rfl, rfl, rfl⟩ h'
    · exact menu_change_temp_button_ok _ _ _ _ (by decide)
        (menu_change_temp_button_ok _ _ _ _ (by decide)
          (config_ok_of_same ⟨rfl, rfl, rfl⟩ h'))
  · split_ifs
    · exact config_ok_of_same (stop_alarm_config _) h'
    · exact h'

theorem control_step_ok (s : Ctx) (t : Nat) (i : ThermoIn) (h : config_ok s) :
    config_ok (control_step s t i).1 := by
  by_cases hs : s.state = STATE_ALARM
  · rw [control_step_alarm s t i hs]
    exact h
  · unfold control_step
    simp only [hs, ne_eq, not_false_eq_true, if_true]
    apply config_ok_of_same (thermostat_config _ _)
    have hidx : s.menu_idx ≤ 9 := h.2.2.2.2.2
    split_ifs <;>
      first
      | exact h
      | exact config_ok_of_same ⟨rfl, rfl, rfl⟩ h
      | exact config_ok_of_same ⟨rfl, rfl, rfl⟩ (options_default_ok _ hidx)

theorem loop_after_buttons_ok (s : Ctx) (i : LoopIn) (h : config_ok s) :
    config_ok (loop_after_buttons s i) := by
  have h1 := config_ok_of_same (menu_timeout_config s i.t_out_menu) h
  have h2 : config_ok (poll_temp (menu_timeout s i.t_out_menu) i.temp_reset i.temp_bit
      i.t_temp) := h1
  have h3 := config_ok_of_same (alarm_cleanup_config _) h2
  have h4 := control_step_ok _ i.t_menu i.thermo h3
  unfold loop_after_buttons
  simp only
  split
  · exact h4
  · exact config_ok_of_same (same_config_of_control (leds_refresh_same _ _)) h4

theorem main_loop_iter_ok (s : Ctx) (i : LoopIn) (h : config_ok s) :
    config_ok (main_loop_iter s i) :=
  loop_after_buttons_ok _ _
    (handle_buttons_ok _ _ (config_ok_of_same (loop_probe_config _ _ _ _) h))

theorem init_ctx_ok : config_ok init_ctx :=
  options_default_ok (leds_init zero_ctx) (by decide)

theorem run_step_ok (s : Ctx) (e : Step) (h : config_ok s) : config_ok (run_step s e) := by
  cases e with
  | boot i => exact config_ok_of_same (boot_iter_config s i) h
  | enter => exact config_ok_of_same (boot_exit_config s) h
  | buttons i => exact handle_buttons_ok s i h
  | loop i => exact main_loop_iter_ok s i h

theorem run_steps_ok (steps : List Step) : ∀ s : Ctx, config_ok s →
    config_ok (run_steps s steps) := by
  induction steps with
  | nil => exact fun s h => h
  | cons e es ih => exact fun s h => ih (run_step s e) (run_step_ok s e h)

/-- Claim C10. From the start-up context, in which `options_default` has set the factory
values, after any sequence of boot-loop iterations, button polls and main-loop iterations
every one of the ten Configuration Options keeps the bounds `options_default` gave it and a
value within them, the target temperature Option keeps the bounds 35 and 80 and a value within
them, the fan work duration stays within 5..95, and the menu index stays within 0..9. -/
theorem config_invariant (steps : List Step) :
    config_ok (run_steps init_ctx steps)
    ∧ (∀ i : Fin 10,
        ((run_steps init_ctx steps).options.e i).min
          ≤ ((run_steps init_ctx steps).options.e i).value
        ∧ ((run_steps init_ctx steps).options.e i).value
          ≤ ((run_steps init_ctx steps).options.e i).max)
    ∧ 35 ≤ (run_steps init_ctx steps).option_temp_target.value
    ∧ (run_steps init_ctx steps).option_temp_target.value ≤ 80
    ∧ 5 ≤ (run_steps init_ctx steps).options.fan_work_duration.value
    ∧ (run_steps init_ctx steps).options.fan_work_duration.value ≤ 95
    ∧ (run_steps init_ctx steps).menu_idx < 10 := by
  have h := run_steps_ok steps init_ctx init_ctx_ok
  obtain ⟨hopt, _, _, h3, h4, h5⟩ := h
  have hcp := hopt CP
  have hmin : (default_options.e CP).min = 5 := by decide
  have hmax : (default_options.e CP).max = 95 := by decide
  rw [hmin, hmax] at hcp
  obtain ⟨c1, c2, c3, c4⟩ := hcp
  refine ⟨run_steps_ok steps init_ctx init_ctx_ok, fun i => ⟨(hopt i).2.2.1, (hopt i).2.2.2⟩,
    h3, h4, ?_, ?_, by omega⟩
  · unfold Options.fan_work_duration
    omega
  · unfold Options.fan_work_duration
    omega

/-! ## Sensor-fault escalation and boot gate -/

/-- Claim C11 at its failing input. From the context on entry to the main loop, with the
sensor silent and iterations at ticks 5, 6, 7 and 1008: the first and third iteration make no
probe, the second makes the first failed probe (the `u8` counter `rep` goes from 0 to 255 by
`rep -= 1`, the UI stays in Home with no error flag), and the fourth makes the second failed
probe, at which `rep >= 5` holds and the SensorFault alarm is raised: two consecutive failed
periodic probes, not five. -/
theorem sensor_fault_after_two_probes :
    loop_probe_made entry_ctx (idle_in 5 true) = false
    ∧ loop_probe_made (main_loop_iter entry_ctx (idle_in 5 true)) (idle_in 6 false) = true
    ∧ (main_loop_run entry_ctx [idle_in 5 true, idle_in 6 false]).state = STATE_HOME
    ∧ (main_loop_run entry_ctx [idle_in 5 true, idle_in 6 false]).error_flags = Error_None
    ∧ (main_loop_run entry_ctx [idle_in 5 true, idle_in 6 false]).loop_rep = 255
    ∧ loop_probe_made (main_loop_run entry_ctx [idle_in 5 true, idle_in 6 false])
        (idle_in 7 false) = false
    ∧ loop_probe_made
        (main_loop_run entry_ctx [idle_in 5 true, idle_in 6 false, idle_in 7 false])
        (idle_in 1008 false) = true
    ∧ (main_loop_run entry_ctx
        [idle_in 5 true, idle_in 6 false, idle_in 7 false, idle_in 1008 false]).state
        = STATE_ALARM
    ∧ (main_loop_run entry_ctx
        [idle_in 5 true, idle_in 6 false, idle_in 7 false, idle_in 1008 false]).error_flags
        = Error_Temp_Sensor := by
  decide

/-- With the sensor silent and less than a second between its two tick reads, the first
iteration of the boot loop arms the timer, raises no alarm and ends the loop. -/
theorem boot_iter_absent_exits (t t' : Nat) (b2 : Bool) (ht' : t' < t + 1000)
    (hw : t + 1000 < 2 ^ 32) :
    (boot_iter init_ctx ⟨false, t, b2, t'⟩).2 = false
    ∧ (boot_iter init_ctx ⟨false, t, b2, t'⟩).1.state = STATE_HOME
    ∧ (boot_iter init_ctx ⟨false, t, b2, t'⟩).1.error_flags = Error_None := by
  have h0 : init_ctx.timer_ow_alarm = ⟨false, false, 0⟩ := rfl
  have h1 : (t + 1000) % 4294967296 = t + 1000 := by omega
  have h2 : ¬ (t + 1000 = 0) := by omega
  have e : timer_expired_ext init_ctx.timer_ow_alarm (SECONDS 1) 0 0 t
      = (⟨false, false, t + 1000⟩, false) := by
    rw [h0]
    simp [timer_expired_ext, SECONDS, h1]
  have e2 : timer_expired_ext ⟨false, false, t + 1000⟩ 0 (SECONDS 1) 0 t'
      = (⟨false, false, t + 1000⟩, false) := by
    simp [timer_expired_ext, h2, ht']
  unfold boot_iter boot_body
  simp only [e, e2, if_true, Bool.false_eq_true, if_false]
  refine ⟨trivial, ?_, ?_⟩ <;> rfl

/-- Claim C12 at its failing input. The sensor does not answer the first bus reset of the boot
loop (both tick reads 5): the loop condition is false after this first iteration, so `main`
goes on to the main loop, with no probe having succeeded and no alarm raised (UI in Home, no
error flag, the timer still waiting for its first second). -/
theorem boot_loop_falls_through :
    (boot_iter init_ctx (boot_in_absent 5)).2 = false
    ∧ (boot_iter init_ctx (boot_in_absent 5)).1.state = STATE_HOME
    ∧ (boot_iter init_ctx (boot_in_absent 5)).1.error_flags = Error_None
    ∧ (boot_iter init_ctx (boot_in_absent 5)).1.boot_rep = 0
    ∧ (boot_exit (boot_iter init_ctx (boot_in_absent 5)).1).state = STATE_HOME
    ∧ Reach (boot_exit (boot_iter init_ctx (boot_in_absent 5)).1) :=
  ⟨by decide, by decide, by decide, by decide, by decide,
    Reach.enter init_ctx (boot_in_absent 5) BootReach.start (by decide)⟩

/-! ## Button handling in Home and Alarm -/

/-- The branch of `handle_buttons` taken in Home on a release edge of the Menu button when the
remembered state is Home or Alarm. -/
theorem handle_buttons_home_release (s : Ctx) (i : ButtonsIn) (hs : s.state = STATE_HOME)
    (hl : s.last_state = STATE_HOME ∨ s.last_state = STATE_ALARM)
    (h1 : s.buttons BUTTON_MENU = true) (h2 : i.pins BUTTON_MENU = false) :
    handle_buttons s i
      = if s.mode = MODE_STOP then
          fan_stop (leds_change (leds_off
            { s with last_buttons := s.buttons, buttons := i.pins,
                     timer_in_menu := timer_reset s.timer_in_menu,
                     timer_temp_alarm := timer_reset s.timer_temp_alarm,
                     mode := MODE_RASTOPKA }) Leds_Rastopka true)
        else
          fan_stop (leds_change (leds_off
            { s with last_buttons := s.buttons, buttons := i.pins,
                     timer_in_menu := timer_reset s.timer_in_menu,
                     timer_temp_alarm := timer_reset s.timer_temp_alarm,
                     mode := MODE_STOP }) Leds_Stop true) := by
  unfold handle_buttons
  simp only [hs, button_pressed, button_down, button_released, h1, h2]
  simp [hl]

/-- Claim C17. A button poll in UiState = Home with remembered state Home or Alarm that
samples a release edge of the Menu button keeps UiState = Home and toggles the mode: from
Stopped to Kindling with only the Rastopka indicator on, from Kindling or Control to Stopped
with only the Stop indicator on; in both cases the fan is off afterwards (Fan indicator off,
PWM output disabled) and the ten Options, the target temperature Option and the menu index are
unchanged. -/
theorem mode_toggle (s : Ctx) (i : ButtonsIn) (hs : s.state = STATE_HOME)
    (hl : s.last_state = STATE_HOME ∨ s.last_state = STATE_ALARM)
    (h1 : s.buttons BUTTON_MENU = true) (h2 : i.pins BUTTON_MENU = false) :
    (handle_buttons s i).state = STATE_HOME
    ∧ (handle_buttons s i).mode = (if s.mode = MODE_STOP then MODE_RASTOPKA else MODE_STOP)
    ∧ only_led (handle_buttons s i)
        (if s.mode = MODE_STOP then Leds_Rastopka else Leds_Stop)
    ∧ fan_off (handle_buttons s i)
    ∧ same_config (handle_buttons s i) s := by
  rw [handle_buttons_home_release s i hs hl h1 h2]
  by_cases hm : s.mode = MODE_STOP
  · simp only [hm, if_true]
    refine ⟨?_, ?_, ?_, ?_, ?_⟩
    · simp [fan_stop, leds_change, leds_off, hs]
    · simp [fan_stop, leds_change, leds_off]
    · intro l
      cases l <;> simp [fan_stop, leds_change, leds_off, Function.update]
    · simp [fan_off, fan_stop, leds_change, leds_off]
    · simp [same_config, fan_stop, leds_change, leds_off]
  · simp only [hm, if_false]
    refine ⟨?_, ?_, ?_, ?_, ?_⟩
    · simp [fan_stop, leds_change, leds_off, hs]
    · simp [fan_stop, leds_change, leds_off]
    · intro l
      cases l <;> simp [fan_stop, leds_change, leds_off, Function.update]
    · simp [fan_off, fan_stop, leds_change, leds_off]
    · simp [same_config, fan_stop, leds_change, leds_off]

/-- Witness of C17: at start-up (Stopped) the Menu button is pressed and released; the release
switches to Kindling. -/
theorem mode_toggle_witness :
    (handle_buttons (handle_buttons init_ctx (menu_buttons_in true 10))
      (menu_buttons_in false 20)).state = STATE_HOME
    ∧ (handle_buttons (handle_buttons init_ctx (menu_buttons_in true 10))
      (menu_buttons_in false 20)).mode = MODE_RASTOPKA
    ∧ only_led (handle_buttons (handle_buttons init_ctx (menu_buttons_in true 10))
      (menu_buttons_in false 20)) Leds_Rastopka
    ∧ fan_off (handle_buttons (handle_buttons init_ctx (menu_buttons_in true 10))
      (menu_buttons_in false 20))
    ∧ same_config (handle_buttons (handle_buttons init_ctx (menu_buttons_in true 10))
      (menu_buttons_in false 20)) (handle_buttons init_ctx (menu_buttons_in true 10)) :=
  mode_toggle (handle_buttons init_ctx (menu_buttons_in true 10)) (menu_buttons_in false 20)
    (by decide) (by decide) (by decide) (by decide)

theorem same_status_of_control {a b : Ctx} (h : same_control a b) : same_status a b :=
  ⟨h.1, h.2.1, h.2.2.1, h.2.2.2.1, h.2.2.2.2.1⟩

theorem same_status_trans {a b c : Ctx} (h1 : same_status a b) (h2 : same_status b c) :
    same_status a c :=
  ⟨h1.1.trans h2.1, h1.2.1.trans h2.2.1, h1.2.2.1.trans h2.2.2.1,
    h1.2.2.2.1.trans h2.2.2.2.1, h1.2.2.2.2.trans h2.2.2.2.2⟩

/-- What `stop_alarm` leaves: Home, the previous state remembered, no error flag, Stopped, only
the Stop indicator on. -/
theorem stop_alarm_status (s : Ctx) :
    (stop_alarm s).state = STATE_HOME ∧ (stop_alarm s).last_state = s.state
    ∧ (stop_alarm s).error_flags = Error_None ∧ (stop_alarm s).mode = MODE_STOP
    ∧ only_led (stop_alarm s) Leds_Stop := by
  refine ⟨?_, ?_, ?_, ?_, ?_⟩
  · simp [stop_alarm, leds_change, change_state]
  · simp [stop_alarm, leds_change, change_state]
  · simp [stop_alarm, leds_change, change_state]
  · simp [stop_alarm, leds_change, change_state]
  · intro l
    cases l <;> simp [stop_alarm, leds_change, change_state, Function.update]

/-- In Home the menu time-out block leaves the operating state as it is. -/
theorem menu_timeout_home (s : Ctx) (t : Nat) (h : s.state = STATE_HOME) :
    same_control (menu_timeout s t) s := by
  unfold same_control menu_timeout
  by_cases h1 : s.timer_out_menu_enabled = true <;>
    by_cases hr : (timer_expired_ext s.timer_out_menu (SECONDS 5) 0 0 t).2 = true <;>
    simp [h1, hr, h]

/-- In Home with the mode Stopped the control block raises no alarm and leaves the status as it
is (it may restore the factory configuration). -/
theorem control_step_home_stopped (s : Ctx) (t : Nat) (i : ThermoIn)
    (hs : s.state = STATE_HOME) (hm : s.mode = MODE_STOP) :
    (control_step s t i).2 = false ∧ same_status (control_step s t i).1 s := by
  have hne : s.state ≠ STATE_ALARM := by rw [hs]; decide
  have hnt : s.state ≠ STATE_MENU_TEMP_CHANGE := by rw [hs]; decide
  unfold control_step same_status
  by_cases hf : s.options.factory_settings.value = 1 <;>
    simp [hs, hf, hm, thermostat, set_pwm_duty, save_with_blank_display, options_save,
      options_default]

/-- Claim C16. A main-loop iteration that starts in UiState = Alarm and samples a release edge
of the Menu button ends with UiState = Home, the remembered previous state = Home, the error
flags empty, Mode = Stopped, the Stop indicator on and the Rastopka, Control, Alarm, Pump and
Fan indicators off. -/
theorem alarm_acknowledge (s : Ctx) (i : LoopIn) (hs : s.state = STATE_ALARM)
    (hrel : menu_release_edge s i) :
    (main_loop_iter s i).state = STATE_HOME
    ∧ (main_loop_iter s i).last_state = STATE_HOME
    ∧ (main_loop_iter s i).error_flags = Error_None
    ∧ (main_loop_iter s i).mode = MODE_STOP
    ∧ (main_loop_iter s i).leds_list Leds_Stop = true
    ∧ (main_loop_iter s i).leds_list Leds_Rastopka = false
    ∧ (main_loop_iter s i).leds_list Leds_Control = false
    ∧ (main_loop_iter s i).leds_list Leds_Alarm = false
    ∧ (main_loop_iter s i).leds_list Leds_Pump = false
    ∧ (main_loop_iter s i).leds_list Leds_Fan = false := by
  obtain ⟨p1, p2⟩ := loop_probe_alarm s i.t_ow i.reset1 i.reset2 hs
  have q0 : (loop_probe s i.t_ow i.reset1 i.reset2).state = STATE_ALARM := p1.1.trans hs
  have hrel' : s.buttons BUTTON_MENU = true ∧ i.buttons.pins BUTTON_MENU = false := hrel
  -- `handle_buttons` acknowledges the alarm
  have e1 : handle_buttons (loop_probe s i.t_ow i.reset1 i.reset2) i.buttons
      = stop_alarm { loop_probe s i.t_ow i.reset1 i.reset2 with
          last_buttons := (loop_probe s i.t_ow i.reset1 i.reset2).buttons,
          buttons := i.buttons.pins } := by
    rw [handle_buttons_alarm _ _ q0, p2, if_pos hrel']
  obtain ⟨a1, a2, _, _, _⟩ := stop_alarm_status { loop_probe s i.t_ow i.reset1 i.reset2 with
    last_buttons := (loop_probe s i.t_ow i.reset1 i.reset2).buttons,
    buttons := i.buttons.pins }
  have a2' : (handle_buttons (loop_probe s i.t_ow i.reset1 i.reset2) i.buttons).last_state
      = STATE_ALARM := by
    rw [e1, a2]
    exact q0
  have a1' : (handle_buttons (loop_probe s i.t_ow i.reset1 i.reset2) i.buttons).state
      = STATE_HOME := by
    rw [e1, a1]
  -- the time-out block and the acquisition keep Home with Alarm remembered
  have b1 := menu_timeout_home _ i.t_out_menu a1'
  have b2 := same_control_trans
    (poll_temp_same (menu_timeout (handle_buttons (loop_probe s i.t_ow i.reset1 i.reset2)
      i.buttons) i.t_out_menu) i.temp_reset i.temp_bit i.t_temp) b1
  have c1 := b2.1.trans a1'
  have c2 := b2.2.1.trans a2'
  -- the clean-up calls `stop_alarm` once more
  have e2 : alarm_cleanup (poll_temp (menu_timeout (handle_buttons
      (loop_probe s i.t_ow i.reset1 i.reset2) i.buttons) i.t_out_menu) i.temp_reset
      i.temp_bit i.t_temp)
      = stop_alarm (poll_temp (menu_timeout (handle_buttons
      (loop_probe s i.t_ow i.reset1 i.reset2) i.buttons) i.t_out_menu) i.temp_reset
      i.temp_bit i.t_temp) := by
    unfold alarm_cleanup
    rw [if_pos ⟨c1, c2⟩]
  obtain ⟨d1, d2, d3, d4, d5⟩ := stop_alarm_status (poll_temp (menu_timeout (handle_buttons
      (loop_probe s i.t_ow i.reset1 i.reset2) i.buttons) i.t_out_menu) i.temp_reset
      i.temp_bit i.t_temp)
  rw [c1] at d2
  -- the control block and the indicator refresh keep the status
  have f := control_step_home_stopped _ i.t_menu i.thermo d1 d4
  have g : same_status (main_loop_iter s i) (stop_alarm (poll_temp (menu_timeout (handle_buttons
      (loop_probe s i.t_ow i.reset1 i.reset2) i.buttons) i.t_out_menu) i.temp_reset
      i.temp_bit i.t_temp)) := by
    unfold main_loop_iter loop_after_buttons
    simp only
    rw [e2, f.1]
    simp only [Bool.false_eq_true, if_false]
    exact same_status_trans (same_status_of_control (leds_refresh_same _ _)) f.2
  obtain ⟨g1, g2, g3, g4, g5⟩ := g
  refine ⟨g1.trans d1, g2.trans d2, g4.trans d3, g3.trans d4, ?_, ?_, ?_, ?_, ?_, ?_⟩ <;>
    rw [g5, d5] <;> decide

/-- Witness of C16: in the sensor-fault alarm the Menu button is pressed in one iteration and
released in the next. -/
theorem alarm_acknowledge_witness :
    (main_loop_iter (main_loop_iter sensor_alarm_ctx (menu_in true 2000))
      (menu_in false 2100)).state = STATE_HOME
    ∧ (main_loop_iter (main_loop_iter sensor_alarm_ctx (menu_in true 2000))
      (menu_in false 2100)).last_state = STATE_HOME
    ∧ (main_loop_iter (main_loop_iter sensor_alarm_ctx (menu_in true 2000))
      (menu_in false 2100)).error_flags = Error_None
    ∧ (main_loop_iter (main_loop_iter sensor_alarm_ctx (menu_in true 2000))
      (menu_in false 2100)).mode = MODE_STOP
    ∧ (main_loop_iter (main_loop_iter sensor_alarm_ctx (menu_in true 2000))
      (menu_in false 2100)).leds_list Leds_Stop = true
    ∧ (main_loop_iter (main_loop_iter sensor_alarm_ctx (menu_in true 2000))
      (menu_in false 2100)).leds_list Leds_Alarm = false :=
  have h := alarm_acknowledge (main_loop_iter sensor_alarm_ctx (menu_in true 2000))
    (menu_in false 2100) (by decide) ⟨by decide, by decide⟩
  ⟨h.1, h.2.1, h.2.2.1, h.2.2.2.1, h.2.2.2.2.1, h.2.2.2.2.2.2.2.1⟩

/-! ## Single-step adjustment -/

theorem clamp_adjust_up (v lo hi : Nat) (h1 : lo ≤ v) (h2 : v ≤ hi) (h3 : hi ≤ 253) :
    clamp_adjust v 1 lo hi = if v < hi then v + 1 else hi := by
  unfold clamp_adjust UINT8_MAX
  have hne : ¬ ((v : Int) + 1 = 255) := by omega
  simp only [hne, if_false]
  by_cases c1 : (v : Int) + 1 ≤ (lo : Int)
  · omega
  · rw [if_neg c1]
    by_cases c2 : (v : Int) + 1 ≥ (hi : Int)
    · rw [if_pos c2]
      split_ifs <;> omega
    · rw [if_neg c2]
      have hv : v < hi := by omega
      rw [if_pos hv]
      omega

theorem clamp_adjust_down (v lo hi : Nat) (h1 : lo ≤ v) (h2 : v ≤ hi) (h3 : hi ≤ 255) :
    clamp_adjust v (-1) lo hi = if v > lo then v - 1 else lo := by
  unfold clamp_adjust UINT8_MAX
  have hne : ¬ ((v : Int) + -1 = 255) := by omega
  simp only [hne, if_false]
  by_cases c1 : (v : Int) + -1 ≤ (lo : Int)
  · rw [if_pos c1]
    split_ifs <;> omega
  · rw [if_neg c1]
    by_cases c2 : (v : Int) + -1 ≥ (hi : Int)
    · omega
    · rw [if_neg c2]
      have hv : v > lo := by omega
      rw [if_pos hv]
      omega
/-- The configuration block after `options_change_params`, Option by Option. -/
theorem options_change_params_apply (s : Ctx) (value : Int) (h : s.menu_idx < 10)
    (j : Fin 10) :
    (options_change_params s value).options.e j
      = if j.val = s.menu_idx then
          { s.options.e j with
            value := clamp_adjust (s.options.e j).value value (s.options.e j).min
              (s.options.e j).max }
        else s.options.e j := by
  unfold options_change_params
  rw [dif_pos h]
  by_cases hj : j.val = s.menu_idx
  · have hj' : j = ⟨s.menu_idx, h⟩ := Fin.ext hj
    subst hj'
    simp
  · have hj' : j ≠ ⟨s.menu_idx, h⟩ := fun e => hj (congrArg Fin.val e)
    simp [hj, Function.update_noteq hj']

theorem options_change_params_frame (s : Ctx) (value : Int) :
    (options_change_params s value).option_temp_target = s.option_temp_target
    ∧ (options_change_params s value).menu_idx = s.menu_idx
    ∧ (options_change_params s value).state = s.state
    ∧ (options_change_params s value).buttons = s.buttons
    ∧ (options_change_params s value).last_buttons = s.last_buttons := by
  unfold options_change_params
  split <;> exact ⟨rfl, rfl, rfl, rfl, rfl⟩

/-- A call of `menu_parameters_button` for a button that is not held: the configuration is
that after one `options_change_params` on a press edge and is unchanged otherwise; the UI
state and the samples are unchanged. -/
theorem menu_parameters_button_not_held (s : Ctx) (code : Button) (value : Int) (t : Nat)
    (hd : button_down s code = false) :
    (menu_parameters_button s code value t).options
        = (if button_pressed s code = true then options_change_params s value else s).options
    ∧ (menu_parameters_button s code value t).option_temp_target = s.option_temp_target
    ∧ (menu_parameters_button s code value t).menu_idx = s.menu_idx
    ∧ (menu_parameters_button s code value t).state = s.state
    ∧ (menu_parameters_button s code value t).buttons = s.buttons
    ∧ (menu_parameters_button s code value t).last_buttons = s.last_buttons := by
  have hf := options_change_params_frame
    { s with timer_out_menu := timer_reset s.timer_out_menu } value
  have ho : (options_change_params
      { s with timer_out_menu := timer_reset s.timer_out_menu } value).options
      = (options_change_params s value).options := by
    unfold options_change_params
    by_cases h : s.menu_idx < 10 <;> simp [h]
  have f1 : (options_change_params
      { s with timer_out_menu := timer_reset s.timer_out_menu } value).option_temp_target
      = s.option_temp_target := hf.1
  have f2 : (options_change_params
      { s with timer_out_menu := timer_reset s.timer_out_menu } value).menu_idx
      = s.menu_idx := hf.2.1
  have f3 : (options_change_params
      { s with timer_out_menu := timer_reset s.timer_out_menu } value).state
      = s.state := hf.2.2.1
  have f4 : (options_change_params
      { s with timer_out_menu := timer_reset s.timer_out_menu } value).buttons
      = s.buttons := hf.2.2.2.1
  have f5 : (options_change_params
      { s with timer_out_menu := timer_reset s.timer_out_menu } value).last_buttons
      = s.last_buttons := hf.2.2.2.2
  clear hf
  unfold button_down at hd
  unfold menu_parameters_button
  cases hl : s.last_buttons code <;> cases hb : s.buttons code <;>
    simp [hl, hb] at hd <;>
    simp [button_down, button_pressed, button_released, hl, hb, f1, f2, f3, f4, f5, ho]

/-- The block written by `options_change_params` depends only on the block and the index. -/
theorem options_change_params_congr (a b : Ctx) (value : Int) (h1 : a.options = b.options)
    (h2 : a.menu_idx = b.menu_idx) :
    (options_change_params a value).options = (options_change_params b value).options := by
  unfold options_change_params
  by_cases h : b.menu_idx < 10
  · have h' : a.menu_idx < 10 := by rw [h2]; exact h
    rw [dif_pos h, dif_pos h']
    simp only [h1, h2]
  · have h' : ¬ a.menu_idx < 10 := by rw [h2]; exact h
    rw [dif_neg h, dif_neg h']
    exact h1

/-- In MenuParameters without a press edge of the Menu button `handle_buttons` records the
samples and calls the handler of Up and then the handler of Down. -/
theorem handle_buttons_parameters (s : Ctx) (i : ButtonsIn)
    (hs : s.state = STATE_MENU_PARAMETERS)
    (hmenu : ¬ (s.buttons BUTTON_MENU = false ∧ i.pins BUTTON_MENU = true)) :
    handle_buttons s i
      = menu_parameters_button
          (menu_parameters_button { s with last_buttons := s.buttons, buttons := i.pins }
            BUTTON_UP 1 i.t_up)
          BUTTON_DOWN (-1) i.t_down := by
  unfold handle_buttons
  simp only [hs, button_pressed]
  cases h1 : s.buttons BUTTON_MENU <;> cases h2 : i.pins BUTTON_MENU <;>
    simp [h1, h2] at hmenu <;> simp

/-- Claim C19. In MenuParameters with every Option within its declared bounds (and the menu
index within 0..9), a button poll that samples a press edge on Up (`up = true`) or on Down
(`up = false`), with the other adjustment button up and no press edge on Menu, changes only
the value of the selected Option: to value + 1 when value < max and to max otherwise for Up,
to value - 1 when value > min and to min otherwise for Down. The bounds of that Option, all
other Options, the target temperature, the menu index and the UI state are unchanged, and the
fan work duration stays at most 95. -/
theorem single_step_adjust (s : Ctx) (i : ButtonsIn) (up : Bool)
    (hs : s.state = STATE_MENU_PARAMETERS) (hok : config_ok s)
    (hmenu : ¬ (s.buttons BUTTON_MENU = false ∧ i.pins BUTTON_MENU = true))
    (hedge : s.buttons (step_button up) = false ∧ i.pins (step_button up) = true)
    (hother : i.pins (other_button up) = false) :
    (∀ j : Fin 10,
      (handle_buttons s i).options.e j
        = if j.val = s.menu_idx then
            { s.options.e j with value := stepped_value (s.options.e j) up }
          else s.options.e j)
    ∧ (handle_buttons s i).option_temp_target = s.option_temp_target
    ∧ (handle_buttons s i).menu_idx = s.menu_idx
    ∧ (handle_buttons s i).state = STATE_MENU_PARAMETERS
    ∧ (handle_buttons s i).options.fan_work_duration.value ≤ 95 := by
  have hidx : s.menu_idx < 10 := by
    have := hok.2.2.2.2.2
    omega
  -- the value stored by one adjustment of an Option within its declared bounds
  have hval : ∀ j : Fin 10,
      clamp_adjust (s.options.e j).value (if up = true then 1 else -1) (s.options.e j).min
        (s.options.e j).max = stepped_value (s.options.e j) up := by
    intro j
    obtain ⟨_, b2, b3, b4⟩ := hok.1 j
    have b5 := default_options_max j
    cases up
    · simp only [Bool.false_eq_true, if_false, stepped_value]
      exact clamp_adjust_down _ _ _ b3 b4 (by omega)
    · simp only [if_true, stepped_value]
      exact clamp_adjust_up _ _ _ b3 b4 (by omega)
  -- the two handler calls
  have e := handle_buttons_parameters s i hs hmenu
  have key : (handle_buttons s i).options
        = (options_change_params s (if up = true then 1 else -1)).options
      ∧ (handle_buttons s i).option_temp_target = s.option_temp_target
      ∧ (handle_buttons s i).menu_idx = s.menu_idx
      ∧ (handle_buttons s i).state = s.state := by
    rw [e]
    cases up
    · -- Down is stepped, Up is up
      have hU : i.pins BUTTON_UP = false := hother
      have hD1 : s.buttons BUTTON_DOWN = false := hedge.1
      have hD2 : i.pins BUTTON_DOWN = true := hedge.2
      obtain ⟨a1, a2, a3, a4, a5, a6⟩ := menu_parameters_button_not_held
        { s with last_buttons := s.buttons, buttons := i.pins } BUTTON_UP 1 i.t_up
        (by simp [button_down, hU])
      have hp : button_pressed { s with last_buttons := s.buttons, buttons := i.pins }
          BUTTON_UP = false := by simp [button_pressed, hU]
      rw [hp] at a1
      simp only [Bool.false_eq_true, if_false] at a1
      obtain ⟨c1, c2, c3, c4, _, _⟩ := menu_parameters_button_not_held
        (menu_parameters_button { s with last_buttons := s.buttons, buttons := i.pins }
          BUTTON_UP 1 i.t_up) BUTTON_DOWN (-1) i.t_down
        (by simp [button_down, a5, a6, hD1])
      have hp2 : button_pressed (menu_parameters_button
          { s with last_buttons := s.buttons, buttons := i.pins } BUTTON_UP 1 i.t_up)
          BUTTON_DOWN = true := by simp [button_pressed, a5, a6, hD1, hD2]
      rw [hp2] at c1
      simp only [if_true] at c1
      refine ⟨?_, c2.trans a2, c3.trans a3, c4.trans a4⟩
      rw [c1]
      simp only [Bool.false_eq_true, if_false]
      exact options_change_params_congr _ _ _ a1 a3
    · -- Up is stepped, Down is up
      have hD : i.pins BUTTON_DOWN = false := hother
      have hU1 : s.buttons BUTTON_UP = false := hedge.1
      have hU2 : i.pins BUTTON_UP = true := hedge.2
      obtain ⟨a1, a2, a3, a4, a5, a6⟩ := menu_parameters_button_not_held
        { s with last_buttons := s.buttons, buttons := i.pins } BUTTON_UP 1 i.t_up
        (by simp [button_down, hU1])
      have hp : button_pressed { s with last_buttons := s.buttons, buttons := i.pins }
          BUTTON_UP = true := by simp [button_pressed, hU1, hU2]
      rw [hp] at a1
      simp only [if_true] at a1
      obtain ⟨c1, c2, c3, c4, _, _⟩ := menu_parameters_button_not_held
        (menu_parameters_button { s with last_buttons := s.buttons, buttons := i.pins }
          BUTTON_UP 1 i.t_up) BUTTON_DOWN (-1) i.t_down
        (by simp [button_down, a5, a6, hD])
      have hp2 : button_pressed (menu_parameters_button
          { s with last_buttons := s.buttons, buttons := i.pins } BUTTON_UP 1 i.t_up)
          BUTTON_DOWN = false := by simp [button_pressed, a5, a6, hD]
      rw [hp2] at c1
      simp only [Bool.false_eq_true, if_false] at c1
      refine ⟨?_, c2.trans a2, c3.trans a3, c4.trans a4⟩
      rw [c1, a1]
      simp only [if_true]
      exact options_change_params_congr _ _ _ rfl rfl
  obtain ⟨k1, k2, k3, k4⟩ := key
  have hopt : ∀ j : Fin 10,
      (handle_buttons s i).options.e j
        = if j.val = s.menu_idx then
            { s.options.e j with value := stepped_value (s.options.e j) up }
          else s.options.e j := by
    intro j
    rw [k1, options_change_params_apply s _ hidx j, hval j]
  refine ⟨hopt, k2, k3, k4.trans hs, ?_⟩
  -- the fan work duration keeps its bound 95
  have hcp := hopt CP
  have hb := hok.1 CP
  have hmax : (default_options.e CP).max = 95 := by decide
  rw [hmax] at hb
  unfold Options.fan_work_duration
  rw [hcp]
  by_cases hc : (CP : Fin 10).val = s.menu_idx
  · rw [if_pos hc]
    show stepped_value (s.options.e CP) up ≤ 95
    unfold stepped_value
    split_ifs <;> omega
  · rw [if_neg hc]
    omega

/-- Witness of C19: fan work duration selected at its maximum 95, the Up button pressed: the
value stays 95. -/
theorem single_step_adjust_witness :
    (∀ j : Fin 10,
      (handle_buttons parameters_ctx ⟨up_pins, 10, 10, 10⟩).options.e j
        = if j.val = parameters_ctx.menu_idx then
            { parameters_ctx.options.e j with
              value := stepped_value (parameters_ctx.options.e j) true }
          else parameters_ctx.options.e j)
    ∧ stepped_value (parameters_ctx.options.e CP) true = 95
    ∧ (handle_buttons parameters_ctx ⟨up_pins, 10, 10, 10⟩).state = STATE_MENU_PARAMETERS
    ∧ (handle_buttons parameters_ctx ⟨up_pins, 10, 10, 10⟩).options.fan_work_duration.value
        ≤ 95 :=
  have hok : config_ok parameters_ctx :=
    ⟨by decide, by decide, by decide, by decide, by decide, by decide⟩
  have h := single_step_adjust parameters_ctx ⟨up_pins, 10, 10, 10⟩ true (by decide) hok
    (by decide) (by decide) (by decide)
  ⟨h.1, by decide, h.2.2.2.1, h.2.2.2.2⟩

/-! ## Pump rule -/

/-- The pump rule sets the Pump indicator from the reading and touches nothing else that the
rule reads. -/
theorem pump_rule_spec (s : Ctx) :
    ((pump_rule s).leds_list Leds_Pump = true
        ↔ s.temp_ctx.temp ≥ s.options.pump_connection_temperature.value)
    ∧ (pump_rule s).temp_ctx = s.temp_ctx ∧ (pump_rule s).options = s.options
    ∧ (pump_rule s).mode = s.mode ∧ (pump_rule s).state = s.state := by
  unfold pump_rule
  by_cases h : s.temp_ctx.temp ≥ s.options.pump_connection_temperature.value
  · simp [h, leds_change]
  · simp [h, leds_change]

theorem leds_refresh_temp (s : Ctx) (t : Nat) :
    (leds_refresh s t).temp_ctx = s.temp_ctx := by
  unfold leds_refresh
  by_cases hr : (timer_expired_ext s.leds_timer 0 0 (SECONDS 1) t).2 = true
  · rw [if_pos hr]
    simp only [leds_display]
  · rw [if_neg hr]

set_option maxRecDepth 100000 in
theorem reading_85_ctx_facts :
    reading_85_ctx.state = STATE_HOME
    ∧ reading_85_ctx.mode = MODE_STOP
    ∧ reading_85_ctx.temp_ctx.temp = 85
    ∧ reading_85_ctx.options.pump_connection_temperature.value = 40
    ∧ reading_85_ctx.leds_list Leds_Pump = false := by
  decide

/-- Claim C15, as stated, fails in Mode Stopped: after three iterations with the sensor
answering 85 degrees and no button touched the iteration ends in Home with Mode = Stopped and a
reading of 85, above the PumpConnectionTemperature value 40, and the pump indicator is off. -/
theorem pump_rule_stopped_counterexample :
    reading_85_ctx.state = STATE_HOME
    ∧ reading_85_ctx.mode = MODE_STOP
    ∧ reading_85_ctx.temp_ctx.temp = 85
    ∧ reading_85_ctx.options.pump_connection_temperature.value = 40
    ∧ reading_85_ctx.leds_list Leds_Pump = false
    ∧ ¬ (reading_85_ctx.leds_list Leds_Pump = true
          ↔ reading_85_ctx.temp_ctx.temp
              ≥ reading_85_ctx.options.pump_connection_temperature.value) := by
  obtain ⟨h1, h2, h3, h4, h5⟩ := reading_85_ctx_facts
  refine ⟨h1, h2, h3, h4, h5, ?_⟩
  rw [h3, h4, h5]
  decide

/-- Claim C15, amended. After every main-loop iteration that ends outside Alarm with Mode
Kindling or Control, the pump indicator is on if and only if the current reading is at least
the PumpConnectionTemperature value. (In Mode Stopped the pump rule is not evaluated.) -/
theorem pump_rule_running (s : Ctx) (i : LoopIn)
    (hstate : (main_loop_iter s i).state ≠ STATE_ALARM)
    (hmode : (main_loop_iter s i).mode ≠ MODE_STOP) :
    ((main_loop_iter s i).leds_list Leds_Pump = true
      ↔ (main_loop_iter s i).temp_ctx.temp
          ≥ (main_loop_iter s i).options.pump_connection_temperature.value) := by
  unfold main_loop_iter loop_after_buttons at hstate hmode ⊢
  simp only at hstate hmode ⊢
  generalize alarm_cleanup (poll_temp (menu_timeout (handle_buttons
    (loop_probe s i.t_ow i.reset1 i.reset2) i.buttons) i.t_out_menu) i.temp_reset
    i.temp_bit i.t_temp) = c0 at hstate hmode ⊢
  by_cases hc0 : c0.state = STATE_ALARM
  · exfalso
    rw [control_step_alarm c0 _ _ hc0] at hstate
    simp only [Bool.false_eq_true, if_false] at hstate
    exact hstate ((leds_refresh_same c0 i.t_leds).1.trans hc0)
  · obtain ⟨c, _, e⟩ := control_step_not_alarm c0 i.t_menu i.thermo hc0
    rw [e] at hstate hmode ⊢
    rcases thermostat_cases c i.thermo with ⟨hm, e'⟩ | ⟨_, hh, e'⟩ | ⟨_, _, hl, e'⟩ |
      ⟨_, _, _, _, e'⟩
    · exfalso
      rw [e'] at hmode
      simp only [Bool.false_eq_true, if_false] at hmode
      exact hmode ((leds_refresh_same c i.t_leds).2.2.1.trans hm)
    · exfalso
      rw [e', hh] at hstate
      simp only [if_true] at hstate
      exact hstate (high_temp_guard_fired _ _ hh).1
    · exfalso
      rw [e', hl] at hstate
      simp only [if_true] at hstate
      exact hstate (low_temp_guard_fired _ _ hl).1
    · rw [e']
      simp only [Bool.false_eq_true, if_false]
      obtain ⟨p1, p2, p3, _, _⟩ := pump_rule_spec (fan_rule (low_temp_guard (high_temp_guard
        (leds_change c Leds_Stop false) i.thermo.t_temp_alarm).1 i.thermo.t_shutdown).1
        i.thermo.t_pp i.thermo.t_cp)
      have r := leds_refresh_same (pump_rule (fan_rule (low_temp_guard (high_temp_guard
        (leds_change c Leds_Stop false) i.thermo.t_temp_alarm).1 i.thermo.t_shutdown).1
        i.thermo.t_pp i.thermo.t_cp)) i.t_leds
      rw [r.2.2.2.2.1, r.2.2.2.2.2.2.2.1, leds_refresh_temp, p2, p3]
      exact p1

/-- Witness of the amended C15: the Menu button is pressed and released at start-up; the
iteration that samples the release ends in Home in Kindling with a reading of 0, below 40, and
the pump indicator off. -/
theorem pump_rule_running_witness :
    (main_loop_iter (main_loop_iter entry_ctx (menu_in true 5)) (menu_in false 6)).mode
      = MODE_RASTOPKA
    ∧ ((main_loop_iter (main_loop_iter entry_ctx (menu_in true 5))
          (menu_in false 6)).leds_list Leds_Pump = true
      ↔ (main_loop_iter (main_loop_iter entry_ctx (menu_in true 5))
          (menu_in false 6)).temp_ctx.temp
          ≥ (main_loop_iter (main_loop_iter entry_ctx (menu_in true 5))
              (menu_in false 6)).options.pump_connection_temperature.value) :=
  ⟨by decide,
    pump_rule_running (main_loop_iter entry_ctx (menu_in true 5)) (menu_in false 6)
      (by decide) (by decide)⟩

/-! ## Menu entry -/

/-- Main-loop iterations from a context at the top of the main loop lead to such contexts. -/
theorem main_loop_run_reach (is : List LoopIn) : ∀ s : Ctx, Reach s →
    Reach (main_loop_run s is) := by
  induction is with
  | nil => exact fun s h => h
  | cons i is ih => exact fun s h => ih (main_loop_iter s i) (Reach.iter s i h)

set_option maxRecDepth 100000 in
theorem stale_hold_facts :
    (main_loop_run entry_ctx (stale_hold_inputs.take 2)).state = STATE_HOME
    ∧ (main_loop_run entry_ctx (stale_hold_inputs.take 2)).timer_in_menu
        = ⟨false, false, 2006⟩
    ∧ (main_loop_run entry_ctx (stale_hold_inputs.take 3)).state = STATE_MENU_TEMP_CHANGE
    ∧ (main_loop_run entry_ctx (stale_hold_inputs.take 5)).state = STATE_MENU_TEMP_CHANGE
    ∧ (main_loop_run entry_ctx (stale_hold_inputs.take 5)).buttons BUTTON_MENU = false
    ∧ (main_loop_run entry_ctx (stale_hold_inputs.take 5)).timer_in_menu
        = ⟨false, false, 2006⟩
    ∧ (main_loop_run entry_ctx stale_hold_inputs).state = STATE_HOME
    ∧ (main_loop_run entry_ctx stale_hold_inputs).timer_in_menu = ⟨false, false, 2006⟩
    ∧ (main_loop_iter (main_loop_run entry_ctx stale_hold_inputs)
        (keys_in false true false 3001)).state = STATE_MENU
    ∧ (handle_buttons (main_loop_run entry_ctx stale_hold_inputs)
        (keys_in false true false 3001).buttons).state = STATE_MENU := by
  decide

/-- Claim C18 at its failing input. The Menu button is held in Home from tick 5 (the hold
timer is armed at tick 6 with deadline 2006); at tick 7 Up is pressed while Menu is held and
the UI leaves Home for the target-temperature edit; both buttons are up at ticks 8 and 2990,
and the hold timer is still armed; at tick 3000 Menu is pressed again and the UI returns to
Home; at the next poll, tick 3001, the Menu button is down, the stale timer fires and the UI
goes from Home to Menu, although the button was sampled up 11 ticks earlier and has been down
for one tick only. -/
theorem menu_entry_without_hold :
    (main_loop_run entry_ctx (stale_hold_inputs.take 5)).buttons BUTTON_MENU = false
    ∧ (main_loop_run entry_ctx (stale_hold_inputs.take 5)).timer_in_menu
        = ⟨false, false, 2006⟩
    ∧ (main_loop_run entry_ctx stale_hold_inputs).state = STATE_HOME
    ∧ (main_loop_iter (main_loop_run entry_ctx stale_hold_inputs)
        (keys_in false true false 3001)).state = STATE_MENU
    ∧ (handle_buttons (main_loop_run entry_ctx stale_hold_inputs)
        (keys_in false true false 3001).buttons).state = STATE_MENU
    ∧ Reach (main_loop_run entry_ctx stale_hold_inputs) := by
  obtain ⟨_, _, _, _, h5, h6, h7, _, h9, h10⟩ := stale_hold_facts
  exact ⟨h5, h6, h7, h9, h10, main_loop_run_reach _ _ entry_ctx_reach⟩

/-! ## High-temperature guard -/

/-- The guard timer after the guard. -/
theorem high_temp_guard_timer (s : Ctx) (t : Nat) :
    (high_temp_guard s t).2
        = (decide (90 < s.temp_ctx.temp)
            && (timer_expired_ext s.timer_temp_alarm (SECONDS 5) 0 0 t).2)
    ∧ (high_temp_guard s t).1.timer_temp_alarm
        = if 90 < s.temp_ctx.temp then
            if (timer_expired_ext s.timer_temp_alarm (SECONDS 5) 0 0 t).2 = true
              then ⟨false, false, 0⟩
            else (timer_expired_ext s.timer_temp_alarm (SECONDS 5) 0 0 t).1
          else if s.temp_ctx.temp < 90 then ⟨false, false, 0⟩
          else s.timer_temp_alarm := by
  unfold high_temp_guard
  by_cases h90 : 90 < s.temp_ctx.temp
  · by_cases hr : (timer_expired_ext s.timer_temp_alarm (SECONDS 5) 0 0 t).2 = true
    · simp [h90, hr, timer_reset]
    · simp [h90, hr]
  · by_cases hlt : s.temp_ctx.temp < 90 <;> simp [h90, hlt, timer_reset]

theorem sensor_alarm_shape_of_same {a b : Ctx} (h : same_control a b)
    (hb : sensor_alarm_shape b) : sensor_alarm_shape a := by
  obtain ⟨h1, _, h3, h4, h5, h6, _⟩ := h
  obtain ⟨b1, b2, b3, b4, b5⟩ := hb
  refine ⟨h1.trans b1, h4.trans b2, h3.trans b3, ?_, ?_⟩
  · unfold fan_off at b4 ⊢
    rw [h5, h6]
    exact b4
  · intro l
    rw [h5]
    exact b5 l

theorem silent_inv_of_frame {a b : Ctx} (n : Nat) (h : silent_frame a b)
    (hb : silent_inv b n) : silent_inv a n := by
  obtain ⟨hc, hbt, hbr, hlr⟩ := h
  obtain ⟨b1, b2, b3, b4, b5⟩ := hb
  have hc' := hc
  obtain ⟨c1, c2, c3, _, _, _, c7, c8, _⟩ := hc'
  refine ⟨?_, c3.trans b2, c7.trans b3, ?_, ?_⟩
  · intro x
    rw [hbt]
    exact b1 x
  · rw [c8]
    exact b4
  · rcases b5 with hs | ⟨d1, d2, d3, d4, d5⟩
    · exact Or.inl (sensor_alarm_shape_of_same hc hs)
    · right
      rw [hbr, hlr]
      exact ⟨c1.trans d1, c2.trans d2, d3, d4, d5⟩

/-- What `start_alarm` produces and what it keeps. -/
theorem start_alarm_shape (s : Ctx) :
    (start_alarm s).state = STATE_ALARM ∧ (start_alarm s).error_flags = s.error_flags
    ∧ (start_alarm s).mode = MODE_STOP ∧ fan_off (start_alarm s)
    ∧ (∀ l : Leds, (start_alarm s).leds_list l = decide (l = Leds_Stop ∨ l = Leds_Alarm))
    ∧ (start_alarm s).buttons = s.buttons
    ∧ (start_alarm s).timer_out_menu_enabled = false
    ∧ (start_alarm s).options = s.options := by
  refine ⟨?_, ?_, ?_, ?_, ?_, ?_, ?_, ?_⟩
  · simp [start_alarm, fan_stop, leds_change, leds_off, change_state]
  · simp [start_alarm, fan_stop, leds_change, leds_off, change_state]
  · simp [start_alarm, fan_stop, leds_change, leds_off, change_state]
  · simp [fan_off, start_alarm, fan_stop, leds_change, leds_off, change_state]
  · intro l
    cases l <;> simp [start_alarm, fan_stop, leds_change, leds_off, change_state,
      Function.update]
  · simp [start_alarm, fan_stop, leds_change, leds_off, change_state]
  · simp [start_alarm, fan_stop, leds_change, leds_off, change_state]
  · simp [start_alarm, fan_stop, leds_change, leds_off, change_state]

/-- The escalation with the confirming reset failed: below five the context and the counter
are kept, from five on the sensor-fault alarm is raised and the counter is zeroed. -/
theorem probe_escalate_silent (s : Ctx) (rep : Nat) :
    (rep < 5 → probe_escalate s rep false = (s, rep))
    ∧ (5 ≤ rep →
        (probe_escalate s rep false).2 = 0
        ∧ sensor_alarm_shape (probe_escalate s rep false).1
        ∧ (probe_escalate s rep false).1.buttons = s.buttons
        ∧ (probe_escalate s rep false).1.timer_out_menu_enabled = false
        ∧ (probe_escalate s rep false).1.options = s.options) := by
  constructor
  · intro h
    have : ¬ (rep ≥ 5) := by omega
    simp [probe_escalate, this]
  · intro h
    have h5 : rep ≥ 5 := h
    obtain ⟨a1, a2, a3, a4, a5, a6, a7, a8⟩ :=
      start_alarm_shape { s with error_flags := Error_Temp_Sensor }
    unfold probe_escalate
    rw [if_pos h5, if_pos rfl]
    exact ⟨rfl, ⟨a1, a2, a3, a4, a5⟩, a6, a7, a8⟩

/-- The bus-health block of the main loop with the sensor silent. -/
theorem loop_probe_silent (s : Ctx) (i : LoopIn) (n : Nat) (hinv : silent_inv s n)
    (hi : loop_silent i) :
    silent_inv (loop_probe s i.t_ow i.reset1 i.reset2) (n + loop_strike s i) := by
  obtain ⟨b1, b2, b3, b4, b5⟩ := hinv
  obtain ⟨r1, r2, _, _⟩ := hi
  rcases b5 with hs | ⟨d1, d2, d3, d4, d5⟩
  · obtain ⟨p1, p2⟩ := loop_probe_alarm s i.t_ow i.reset1 i.reset2 hs.1
    have p1' := p1
    obtain ⟨_, _, c3, _, _, _, c7, c8, _⟩ := p1'
    refine ⟨?_, c3.trans b2, c7.trans b3, ?_, Or.inl (sensor_alarm_shape_of_same p1 hs)⟩
    · intro x
      rw [p2]
      exact b1 x
    · rw [c8]
      exact b4
  · have hne : s.state ≠ STATE_ALARM := by rw [d1]; decide
    by_cases hr : (timer_expired_ext s.timer_ow_alarm 0 0 (SECONDS 1) i.t_ow).2 = true
    · have hst : loop_strike s i = 1 := by simp [loop_strike, loop_probe_made, hr, r1]
      rw [hst]
      have hfire : loop_probe s i.t_ow i.reset1 i.reset2
          = { (probe_escalate { s with timer_ow_alarm :=
                (timer_expired_ext s.timer_ow_alarm 0 0 (SECONDS 1) i.t_ow).1 }
                s.loop_rep false).1
              with loop_rep := ((probe_escalate { s with timer_ow_alarm :=
                (timer_expired_ext s.timer_ow_alarm 0 0 (SECONDS 1) i.t_ow).1 }
                s.loop_rep false).2 + 255) % 256 } := by
        unfold loop_probe
        simp only [hr, r1, r2, if_true, hne, ne_eq, not_false_eq_true, and_self]
      rw [hfire]
      by_cases h5 : s.loop_rep < 5
      · -- first failed probe: the counter wraps to 255
        have e := (probe_escalate_silent
          { s with timer_ow_alarm := (timer_expired_ext s.timer_ow_alarm 0 0 (SECONDS 1)
              i.t_ow).1 } s.loop_rep).1 h5
        rw [e]
        have h0 : s.loop_rep = 0 := by omega
        refine ⟨b1, b2, b3, b4, Or.inr ⟨d1, d2, d3, Or.inr (by simp [h0]), ?_⟩⟩
        rw [h0] at d5
        simp only [h0]
        simp at d5 ⊢
        omega
      · -- second failed probe: the alarm
        obtain ⟨e1, e2, e3, e4, e5⟩ := (probe_escalate_silent
          { s with timer_ow_alarm := (timer_expired_ext s.timer_ow_alarm 0 0 (SECONDS 1)
              i.t_ow).1 } s.loop_rep).2 (by omega)
        refine ⟨?_, e2.2.2.1, e4, ?_, Or.inl e2⟩
        · intro x
          show (probe_escalate _ s.loop_rep false).1.buttons x = false
          rw [e3]
          exact b1 x
        · show (probe_escalate _ s.loop_rep false).1.options.factory_settings.value = 0
          rw [e5]
          exact b4
    · have hst : loop_strike s i = 0 := by simp [loop_strike, loop_probe_made, hr]
      have hp : loop_probe s i.t_ow i.reset1 i.reset2
          = { s with timer_ow_alarm := (timer_expired_ext s.timer_ow_alarm 0 0 (SECONDS 1)
                i.t_ow).1 } := by
        unfold loop_probe
        simp only [hr]
        rfl
      rw [hst, hp]
      exact ⟨b1, b2, b3, b4, Or.inr ⟨d1, d2, d3, d4, d5⟩⟩

theorem menu_change_temp_button_idle (s : Ctx) (code : Button) (value : Int) (t : Nat)
    (h1 : s.buttons code = false) (h2 : s.last_buttons code = false) :
    menu_change_temp_button s code value t = s := by
  simp [menu_change_temp_button, button_pressed, button_released, button_down, h1, h2]

/-- With no button down now or at the previous poll, `handle_buttons` in Home or Alarm only
records the samples. -/
theorem handle_buttons_idle (s : Ctx) (i : ButtonsIn) (hb : ∀ b : Button, s.buttons b = false)
    (hp : ∀ b : Button, i.pins b = false) (hs : s.state = STATE_HOME ∨ s.state = STATE_ALARM) :
    handle_buttons s i = { s with last_buttons := s.buttons, buttons := i.pins } := by
  have key : ∀ c : Ctx, c.buttons = i.pins → c.last_buttons = s.buttons →
      home_up_down c i = c := by
    intro c h1 h2
    unfold home_up_down
    simp only
    rw [menu_change_temp_button_idle c BUTTON_UP 1 i.t_up (by rw [h1]; exact hp _)
        (by rw [h2]; exact hb _),
      menu_change_temp_button_idle c BUTTON_DOWN (-1) i.t_down (by rw [h1]; exact hp _)
        (by rw [h2]; exact hb _)]
  rcases hs with hs | hs
  · unfold handle_buttons
    simp only [hs, button_pressed, button_released, button_down, hb, hp]
    simp only [Bool.not_false, Bool.and_false, Bool.false_and, Bool.false_eq_true, if_false]
    exact key _ rfl rfl
  · rw [handle_buttons_alarm s i hs, if_neg]
    intro hc
    rw [hb] at hc
    exact absurd hc.1 (by decide)

theorem leds_refresh_silent (s : Ctx) (t : Nat) : silent_frame (leds_refresh s t) s := by
  unfold leds_refresh silent_frame same_control
  by_cases hr : (timer_expired_ext s.leds_timer 0 0 (SECONDS 1) t).2 = true
  · rw [if_pos hr]
    simp only [leds_display, and_self]
  · rw [if_neg hr]
    simp only [and_self]

/-- The rest of the iteration with the sensor silent and no button down. -/
theorem loop_after_buttons_silent (s : Ctx) (i : LoopIn) (n : Nat) (hinv : silent_inv s n) :
    silent_inv (loop_after_buttons s i) n := by
  have hinv' := hinv
  obtain ⟨b1, b2, b3, b4, b5⟩ := hinv'
  have e1 : menu_timeout s i.t_out_menu = s := menu_timeout_disarmed s _ b3
  have hclean : ¬ (s.state = STATE_HOME ∧ s.last_state = STATE_ALARM) := by
    rcases b5 with hs | ⟨d1, d2, _⟩
    · intro hc
      rw [hs.1] at hc
      exact absurd hc.1 (by decide)
    · intro hc
      rw [d2] at hc
      exact absurd hc.2 (by decide)
  have e2 : alarm_cleanup (poll_temp s i.temp_reset i.temp_bit i.t_temp)
      = poll_temp s i.temp_reset i.temp_bit i.t_temp := by
    unfold alarm_cleanup
    rw [if_neg]
    exact hclean
  have e3 : control_step (poll_temp s i.temp_reset i.temp_bit i.t_temp) i.t_menu i.thermo
      = (poll_temp s i.temp_reset i.temp_bit i.t_temp, false) := by
    have hm : (poll_temp s i.temp_reset i.temp_bit i.t_temp).mode = MODE_STOP := b2
    have hf : (poll_temp s i.temp_reset i.temp_bit i.t_temp).options.factory_settings.value
        ≠ 1 := by
      show s.options.factory_settings.value ≠ 1
      rw [b4]
      decide
    have hnt : (poll_temp s i.temp_reset i.temp_bit i.t_temp).state
        ≠ STATE_MENU_TEMP_CHANGE := by
      show s.state ≠ STATE_MENU_TEMP_CHANGE
      rcases b5 with hs | ⟨d1, _⟩
      · rw [hs.1]; decide
      · rw [d1]; decide
    unfold control_step
    by_cases ha : (poll_temp s i.temp_reset i.temp_bit i.t_temp).state = STATE_ALARM
    · simp [ha]
    · simp [ha, hnt, hf, thermostat, hm]
  have e4 : loop_after_buttons s i
      = leds_refresh (poll_temp s i.temp_reset i.temp_bit i.t_temp) i.t_leds := by
    unfold loop_after_buttons
    simp only [e1, e2, e3]
    rfl
  rw [e4]
  refine silent_inv_of_frame n (leds_refresh_silent _ _) ?_
  exact silent_inv_of_frame n ⟨poll_temp_same _ _ _ _, rfl, rfl, rfl⟩ hinv

/-- One main-loop iteration with the sensor silent and no button down. -/
theorem main_loop_iter_silent (s : Ctx) (i : LoopIn) (n : Nat) (hinv : silent_inv s n)
    (hi : loop_silent i) : silent_inv (main_loop_iter s i) (n + loop_strike s i) := by
  have h1 := loop_probe_silent s i n hinv hi
  have hst : (loop_probe s i.t_ow i.reset1 i.reset2).state = STATE_HOME
      ∨ (loop_probe s i.t_ow i.reset1 i.reset2).state = STATE_ALARM := by
    rcases h1.2.2.2.2 with hs | ⟨d1, _⟩
    · exact Or.inr hs.1
    · exact Or.inl d1
  have e := handle_buttons_idle (loop_probe s i.t_ow i.reset1 i.reset2) i.buttons h1.1
    hi.2.2.2 hst
  have h2 : silent_inv (handle_buttons (loop_probe s i.t_ow i.reset1 i.reset2) i.buttons)
      (n + loop_strike s i) := by
    rw [e]
    have hb : i.buttons.pins = (loop_probe s i.t_ow i.reset1 i.reset2).buttons := by
      funext b
      rw [hi.2.2.2 b, h1.1 b]
    have hf : silent_frame
        { loop_probe s i.t_ow i.reset1 i.reset2 with
          last_buttons := (loop_probe s i.t_ow i.reset1 i.reset2).buttons,
          buttons := i.buttons.pins }
        (loop_probe s i.t_ow i.reset1 i.reset2) :=
      ⟨⟨rfl, rfl, rfl, rfl, rfl, rfl, rfl, rfl, rfl, rfl⟩, hb, rfl, rfl⟩
    exact silent_inv_of_frame _ hf h1
  exact loop_after_buttons_silent _ i _ h2

theorem main_loop_run_silent (is : List LoopIn) : ∀ (s : Ctx) (n : Nat), silent_inv s n →
    (∀ i ∈ is, loop_silent i) → silent_inv (main_loop_run s is) (n + loop_strikes s is) := by
  induction is with
  | nil => exact fun s n h _ => h
  | cons i is ih =>
    intro s n h hall
    have h1 := main_loop_iter_silent s i n h (hall i (by simp))
    have h2 := ih (main_loop_iter s i) _ h1 (fun j hj => hall j (by simp [hj]))
    have e : n + loop_strikes s (i :: is)
        = n + loop_strike s i + loop_strikes (main_loop_iter s i) is := by
      simp [loop_strikes, Nat.add_assoc]
    rw [e]
    exact h2

/-- One boot iteration with the sensor silent. -/
theorem boot_iter_silent (s : Ctx) (i : BootIn) (n : Nat) (hinv : silent_inv s n)
    (hi : boot_silent i) : silent_inv (boot_iter s i).1 (n + boot_strike s i) := by
  obtain ⟨b1, b2, b3, b4, b5⟩ := hinv
  obtain ⟨r1, r2⟩ := hi
  have hbody : silent_inv (boot_body s i) (n + boot_strike s i) := by
    by_cases hr : (timer_expired_ext s.timer_ow_alarm (SECONDS 1) 0 0 i.t_alarm).2 = true
    · have hst : boot_strike s i = 1 := by simp [boot_strike, hr, r1]
      rw [hst]
      have hfire : boot_body s i
          = { (probe_escalate { s with timer_ow_alarm :=
                (timer_expired_ext s.timer_ow_alarm (SECONDS 1) 0 0 i.t_alarm).1 }
                s.boot_rep false).1
              with boot_rep := ((probe_escalate { s with timer_ow_alarm :=
                (timer_expired_ext s.timer_ow_alarm (SECONDS 1) 0 0 i.t_alarm).1 }
                s.boot_rep false).2 + 255) % 256 } := by
        unfold boot_body
        simp only [hr, r1, r2, if_true]
      rw [hfire]
      by_cases h5 : s.boot_rep < 5
      · have e := (probe_escalate_silent
          { s with timer_ow_alarm := (timer_expired_ext s.timer_ow_alarm (SECONDS 1) 0 0
              i.t_alarm).1 } s.boot_rep).1 h5
        rw [e]
        refine ⟨b1, b2, b3, b4, ?_⟩
        rcases b5 with hs | ⟨d1, d2, d3, d4, d5⟩
        · exact Or.inl hs
        · right
          have h0 : s.boot_rep = 0 := by omega
          refine ⟨d1, d2, Or.inr (by simp [h0]), d4, ?_⟩
          rw [h0] at d5
          simp only [h0]
          simp at d5 ⊢
          omega
      · obtain ⟨e1, e2, e3, e4, e5⟩ := (probe_escalate_silent
          { s with timer_ow_alarm := (timer_expired_ext s.timer_ow_alarm (SECONDS 1) 0 0
              i.t_alarm).1 } s.boot_rep).2 (by omega)
        refine ⟨?_, e2.2.2.1, e4, ?_, Or.inl e2⟩
        · intro x
          show (probe_escalate _ s.boot_rep false).1.buttons x = false
          rw [e3]
          exact b1 x
        · show (probe_escalate _ s.boot_rep false).1.options.factory_settings.value = 0
          rw [e5]
          exact b4
    · have hst : boot_strike s i = 0 := by simp [boot_strike, hr]
      have hp : boot_body s i
          = { s with timer_ow_alarm := (timer_expired_ext s.timer_ow_alarm (SECONDS 1) 0 0
                i.t_alarm).1 } := by
        unfold boot_body
        simp only [hr, r1, if_true]
        rfl
      rw [hst, hp]
      exact ⟨b1, b2, b3, b4, b5⟩
  exact silent_inv_of_frame _
    ⟨⟨rfl, rfl, rfl, rfl, rfl, rfl, rfl, rfl, rfl, rfl⟩, rfl, rfl, rfl⟩ hbody

theorem boot_loop_silent (bs : List BootIn) : ∀ (s0 s : Ctx) (n : Nat), silent_inv s0 n →
    (∀ i ∈ bs, boot_silent i) → boot_loop s0 bs = some s →
    silent_inv s (n + boot_strikes s0 bs) := by
  induction bs with
  | nil =>
    intro s0 s n _ _ h
    simp [boot_loop] at h
  | cons i is ih =>
    intro s0 s n h hall hrun
    have h1 := boot_iter_silent s0 i n h (hall i (by simp))
    have e : n + boot_strikes s0 (i :: is)
        = n + boot_strike s0 i + boot_strikes (boot_iter s0 i).1 is := by
      simp [boot_strikes, Nat.add_assoc]
    rw [e]
    unfold boot_loop at hrun
    by_cases hf : (boot_iter s0 i).2 = true
    · rw [if_pos hf] at hrun
      exact ih _ s _ h1 (fun j hj => hall j (by simp [hj])) hrun
    · rw [if_neg hf] at hrun
      cases is with
      | nil =>
        simp only [List.isEmpty_nil, if_true, Option.some.injEq] at hrun
        subst hrun
        simp only [boot_strikes, Nat.add_zero]
        exact silent_inv_of_frame _
          ⟨⟨rfl, rfl, rfl, rfl, rfl, rfl, rfl, rfl, rfl, rfl⟩, rfl, rfl, rfl⟩ h1
      | cons j js => simp at hrun

theorem init_ctx_silent : silent_inv init_ctx 0 := by
  refine ⟨fun b => rfl, rfl, rfl, by decide, Or.inr ⟨rfl, rfl, Or.inl rfl, Or.inl rfl, ?_⟩⟩
  decide

set_option maxRecDepth 100000 in
theorem silent_inputs_facts :
    boot_loop init_ctx [boot_in_absent 5] = some silent_entry_ctx
    ∧ boot_strikes init_ctx [boot_in_absent 5] = 0
    ∧ loop_strikes silent_entry_ctx silent_inputs = 6 := by
  have hf : (boot_iter init_ctx (boot_in_absent 5)).2 = false := by decide
  refine ⟨?_, ?_, ?_⟩
  · simp [boot_loop, hf, silent_entry_ctx]
  · decide
  · decide

/-- Claim C13. Boot with the sensor silent: every bus reset fails from boot on (in the boot
loop, in the bus-health block and in the acquisition) and no button is down. Whatever the tick
counter reads at the timer polls, non-decreasing or not, once six one-second probes have failed
(counted over the boot loop and the main-loop iterations `is`) the context shows the
sensor-fault alarm: UiState = Alarm, error flags equal to SensorFault, Mode = Stopped, the fan
off, the Stop and Alarm indicators on and the other four off; and it shows it after every
further run `later` of such iterations. -/
theorem silent_sensor_alarm (bs : List BootIn) (s : Ctx) (is later : List LoopIn)
    (hboot : boot_loop init_ctx bs = some s)
    (hbs : ∀ i ∈ bs, boot_silent i)
    (his : ∀ i ∈ is ++ later, loop_silent i)
    (h6 : 6 ≤ boot_strikes init_ctx bs + loop_strikes s is) :
    sensor_alarm_shape (main_loop_run s (is ++ later)) := by
  have h1 := boot_loop_silent bs init_ctx s 0 init_ctx_silent hbs hboot
  have h2 := main_loop_run_silent is s _ h1 (fun i hi => his i (List.mem_append_left _ hi))
  have h3 := main_loop_run_silent later _ _ h2
    (fun i hi => his i (List.mem_append_right _ hi))
  have e : main_loop_run s (is ++ later) = main_loop_run (main_loop_run s is) later := by
    simp [main_loop_run, List.foldl_append]
  rw [e]
  rcases h3.2.2.2.2 with hs | ⟨_, _, _, _, d5⟩
  · exact hs
  · exfalso
    have : (if (main_loop_run (main_loop_run s is) later).boot_rep = 255 then 1 else 0)
        + (if (main_loop_run (main_loop_run s is) later).loop_rep = 255 then 1 else 0)
        ≤ 2 := by
      split_ifs <;> omega
    omega

theorem silent_sensor_alarm_witness :
    sensor_alarm_shape (main_loop_run silent_entry_ctx (silent_inputs ++ [idle_in 2000 false])) :=
  silent_sensor_alarm [boot_in_absent 5] silent_entry_ctx silent_inputs [idle_in 2000 false]
    silent_inputs_facts.1
    (by
      intro i hi
      have : i = boot_in_absent 5 := by simpa using hi
      subst this
      exact ⟨rfl, rfl⟩)
    (by
      intro i hi
      simp only [silent_inputs, List.mem_append, List.mem_cons, List.mem_singleton,
        List.not_mem_nil, or_false] at hi
      rcases hi with (h | h | h | h | h | h | h | h | h | h | h | h) | h <;> subst h <;>
        exact ⟨rfl, rfl, rfl, fun _ => rfl⟩)
    (by rw [silent_inputs_facts.2.1, silent_inputs_facts.2.2])

/-! ## Control-mode fan cycle -/

/-- First poll of a reset timer: the deadline of the wait phase is set. -/
theorem timer_arm (wait period sl now : Nat) (h : now + wait < 2 ^ 32) :
    timer_expired_ext ⟨false, false, 0⟩ wait period sl now
      = (⟨false, false, now + wait⟩, false) := by
  have e : (now + wait) % 4294967296 = now + wait := Nat.mod_eq_of_lt (by omega)
  simp [timer_expired_ext, e]

/-- A poll before the deadline of the wait phase. -/
theorem timer_waiting (d wait period sl now : Nat) (hd : d ≠ 0) (h : now < d) :
    timer_expired_ext ⟨false, false, d⟩ wait period sl now = (⟨false, false, d⟩, false) := by
  simp [timer_expired_ext, hd, h]

/-- The poll that ends the wait phase opens the first period. -/
theorem timer_wait_done (d wait period sl now : Nat) (hd : d ≠ 0) (h : d ≤ now)
    (hw : now + period < 2 ^ 32) :
    timer_expired_ext ⟨false, false, d⟩ wait period sl now
      = (⟨true, false, now + period⟩, true) := by
  have e : (now + period) % 4294967296 = now + period := Nat.mod_eq_of_lt (by omega)
  have hn : ¬ now < d := by omega
  simp [timer_expired_ext, hd, hn, e]

/-- A poll inside the period. -/
theorem timer_working (d wait period sl now : Nat) (h : now ≤ d) :
    timer_expired_ext ⟨true, false, d⟩ wait period sl now = (⟨true, false, d⟩, true) := by
  simp [timer_expired_ext, h]

/-- The first poll after the period starts the sleep. -/
theorem timer_work_done (d wait period sl now : Nat) (h : d < now) (hw : now + sl < 2 ^ 32) :
    timer_expired_ext ⟨true, false, d⟩ wait period sl now
      = (⟨true, true, now + sl⟩, false) := by
  have e : (now + sl) % 4294967296 = now + sl := Nat.mod_eq_of_lt (by omega)
  have hn : ¬ now ≤ d := by omega
  simp [timer_expired_ext, hn, e]

/-- A poll inside the sleep. -/
theorem timer_sleeping (d wait period sl now : Nat) (h : now ≤ d) :
    timer_expired_ext ⟨true, true, d⟩ wait period sl now = (⟨true, true, d⟩, false) := by
  simp [timer_expired_ext, h]

/-- The first poll after the sleep opens the next period. -/
theorem timer_sleep_done (d wait period sl now : Nat) (h : d < now)
    (hw : now + period < 2 ^ 32) :
    timer_expired_ext ⟨true, true, d⟩ wait period sl now
      = (⟨true, false, now + period⟩, true) := by
  have e : (now + period) % 4294967296 = now + period := Nat.mod_eq_of_lt (by omega)
  have hn : ¬ now ≤ d := by omega
  simp [timer_expired_ext, hn, e]

theorem low_temp_guard_warm (s : Ctx) (t : Nat)
    (h : s.options.controller_shutdown_temperature.value ≤ s.temp_ctx.temp) :
    (low_temp_guard s t).2 = false := by
  unfold low_temp_guard
  have hlow : ¬ (s.options.controller_shutdown_temperature.value > s.temp_ctx.temp) := by omega
  by_cases hhigh : s.options.controller_shutdown_temperature.value < s.temp_ctx.temp <;>
    simp [hlow, hhigh]

/-- The Control branch of the fan rule: the pause timer is polled, the work timer is polled
only while the pause timer reports its period, and the fan runs exactly when both do. -/
theorem fan_rule_control (x : Ctx) (t_pp t_cp : Nat) (h35 : 35 ≤ x.temp_ctx.temp)
    (hge : x.option_temp_target.value + x.options.hysteresis.value ≤ x.temp_ctx.temp)
    (hcp : ¬ (x.timer_pp.wait_done = false ∧ x.timer_cp.wait_done = true)) :
    (fan_rule x t_pp t_cp).mode = MODE_CONTROL
    ∧ (fan_rule x t_pp t_cp).temp_ctx = x.temp_ctx
    ∧ (fan_rule x t_pp t_cp).options = x.options
    ∧ (fan_rule x t_pp t_cp).option_temp_target = x.option_temp_target
    ∧ (fan_rule x t_pp t_cp).timer_pp
        = (timer_expired_ext x.timer_pp (pause_ticks x) (pause_ticks x) (pause_ticks x) t_pp).1
    ∧ (fan_rule x t_pp t_cp).timer_cp
        = (if (timer_expired_ext x.timer_pp (pause_ticks x) (pause_ticks x) (pause_ticks x)
              t_pp).2 = true
            then (timer_expired_ext x.timer_cp 0 (work_ticks x) (work_ticks x) t_cp).1
            else x.timer_cp)
    ∧ (fan_rule x t_pp t_cp).pwm_on
        = ((timer_expired_ext x.timer_pp (pause_ticks x) (pause_ticks x) (pause_ticks x)
              t_pp).2
            && (timer_expired_ext x.timer_cp 0 (work_ticks x) (work_ticks x) t_cp).2)
    ∧ (fan_rule x t_pp t_cp).leds_list Leds_Fan
        = ((timer_expired_ext x.timer_pp (pause_ticks x) (pause_ticks x) (pause_ticks x)
              t_pp).2
            && (timer_expired_ext x.timer_cp 0 (work_ticks x) (work_ticks x) t_cp).2) := by
  have h1 : ¬ (x.temp_ctx.temp < 35) := by omega
  have h2 : x.temp_ctx.temp ≥ x.option_temp_target.value + x.options.hysteresis.value := hge
  unfold fan_rule pause_ticks work_ticks
  simp only [h1, h2, if_true, if_false]
  by_cases hp : (timer_expired_ext x.timer_pp (MINUTES x.options.fan_pause_duration.value)
      (MINUTES x.options.fan_pause_duration.value)
      (MINUTES x.options.fan_pause_duration.value) t_pp).2 = true
  · by_cases hc : (timer_expired_ext x.timer_cp 0 (SECONDS x.options.fan_work_duration.value)
        (SECONDS x.options.fan_work_duration.value) t_cp).2 = true
    · simp [leds_change, hcp, hp, hc, fan_burst, fan_start, fan_stop]
    · simp [leds_change, hcp, hp, hc, fan_burst, fan_start, fan_stop]
  · simp [leds_change, hcp, hp, fan_burst, fan_start, fan_stop]


theorem pump_rule_frame (y : Ctx) :
    (pump_rule y).mode = y.mode ∧ (pump_rule y).temp_ctx = y.temp_ctx
    ∧ (pump_rule y).options = y.options
    ∧ (pump_rule y).option_temp_target = y.option_temp_target
    ∧ (pump_rule y).timer_pp = y.timer_pp ∧ (pump_rule y).timer_cp = y.timer_cp
    ∧ (pump_rule y).pwm_on = y.pwm_on
    ∧ (pump_rule y).leds_list Leds_Fan = y.leds_list Leds_Fan := by
  unfold pump_rule
  by_cases h : y.temp_ctx.temp ≥ y.options.pump_connection_temperature.value
  · simp [h, leds_change, Function.update]
  · simp [h, leds_change, Function.update]

/-- A thermostat evaluation in the Control band: no guard fires, the band is kept, and the
cycle timers and the fan follow the Control branch of the fan rule. -/
theorem thermo_tick_control (c : Ctx) (t : Nat) (hb : control_band c)
    (hcp : ¬ (c.timer_pp.wait_done = false ∧ c.timer_cp.wait_done = true)) :
    control_band (thermo_tick c t)
    ∧ (thermo_tick c t).options = c.options
    ∧ (thermo_tick c t).timer_pp
        = (timer_expired_ext c.timer_pp (pause_ticks c) (pause_ticks c) (pause_ticks c) t).1
    ∧ (thermo_tick c t).timer_cp
        = (if (timer_expired_ext c.timer_pp (pause_ticks c) (pause_ticks c) (pause_ticks c)
              t).2 = true
            then (timer_expired_ext c.timer_cp 0 (work_ticks c) (work_ticks c) t).1
            else c.timer_cp)
    ∧ (thermo_tick c t).pwm_on
        = ((timer_expired_ext c.timer_pp (pause_ticks c) (pause_ticks c) (pause_ticks c) t).2
            && (timer_expired_ext c.timer_cp 0 (work_ticks c) (work_ticks c) t).2)
    ∧ (thermo_tick c t).leds_list Leds_Fan
        = ((timer_expired_ext c.timer_pp (pause_ticks c) (pause_ticks c) (pause_ticks c) t).2
            && (timer_expired_ext c.timer_cp 0 (work_ticks c) (work_ticks c) t).2) := by
  obtain ⟨hm, h35, hge, h90, hlow⟩ := hb
  have hquiet : (thermostat c ⟨t, t, t, t⟩).2 = false := by
    rcases thermostat_cases c ⟨t, t, t, t⟩ with
      ⟨hs, _⟩ | ⟨_, hh, _⟩ | ⟨_, hh, hl, _⟩ | ⟨_, hq, _⟩
    · exact absurd hs hm
    · exfalso
      have hg := (high_temp_guard_timer (leds_change c Leds_Stop false) t).1
      have c1 : (leds_change c Leds_Stop false).temp_ctx.temp = c.temp_ctx.temp := rfl
      have hn : ¬ (90 < c.temp_ctx.temp) := by omega
      rw [c1] at hg
      simp only [hn, decide_False, Bool.false_and] at hg
      exact absurd (hh.symm.trans hg) (by decide)
    · exfalso
      have e := high_temp_guard_quiet (leds_change c Leds_Stop false) t hh
      have hw := low_temp_guard_warm
        (high_temp_guard (leds_change c Leds_Stop false) t).1 t (by rw [e]; exact hlow)
      exact absurd (hl.symm.trans hw) (by decide)
    · exact hq
  obtain ⟨ta, tb, e⟩ := thermostat_quiet c ⟨t, t, t, t⟩ hm hquiet
  obtain ⟨p1, p2, p3, p4, p5, p6, p7, p8⟩ := pump_rule_frame (fan_rule
    { leds_change c Leds_Stop false with
      timer_temp_alarm := ta, timer_controller_shutdown_temperature := tb } t t)
  obtain ⟨f1, f2, f3, f4, f5, f6, f7, f8⟩ := fan_rule_control
    { leds_change c Leds_Stop false with
      timer_temp_alarm := ta, timer_controller_shutdown_temperature := tb } t t h35 hge hcp
  unfold thermo_tick
  rw [e]
  refine ⟨⟨?_, ?_, ?_, ?_, ?_⟩, ?_, ?_, ?_, ?_, ?_⟩
  · rw [p1, f1]; decide
  · rw [p2, f2]; exact h35
  · rw [p2, p3, p4, f2, f3, f4]; exact hge
  · rw [p2, f2]; exact h90
  · rw [p2, p3, f2, f3]; exact hlow
  · rw [p3, f3]; rfl
  · rw [p5, f5]; rfl
  · rw [p6, f6]; rfl
  · rw [p7, f7]; rfl
  · rw [p8, f8]; rfl

/-- An evaluation in the Control band at which the pause timer reports no period: the work
timer is not polled and the fan is stopped. -/
theorem thermo_tick_closed (c : Ctx) (t : Nat) (tp : Timer32) (hb : control_band c)
    (hcp : ¬ (c.timer_pp.wait_done = false ∧ c.timer_cp.wait_done = true))
    (hp : timer_expired_ext c.timer_pp (pause_ticks c) (pause_ticks c) (pause_ticks c) t
      = (tp, false)) :
    control_band (thermo_tick c t) ∧ (thermo_tick c t).options = c.options
    ∧ (thermo_tick c t).timer_pp = tp ∧ (thermo_tick c t).timer_cp = c.timer_cp
    ∧ fan_off (thermo_tick c t) := by
  obtain ⟨q1, q2, q3, q4, q5, q6⟩ := thermo_tick_control c t hb hcp
  rw [hp] at q3 q4 q5 q6
  refine ⟨q1, q2, q3, ?_, ?_, ?_⟩
  · simpa using q4
  · simpa using q6
  · simpa using q5

/-- An evaluation in the Control band at which the pause timer reports its period: the work
timer is polled and its answer drives the fan. -/
theorem thermo_tick_open (c : Ctx) (t : Nat) (tp tc : Timer32) (bc : Bool)
    (hb : control_band c)
    (hcp : ¬ (c.timer_pp.wait_done = false ∧ c.timer_cp.wait_done = true))
    (hp : timer_expired_ext c.timer_pp (pause_ticks c) (pause_ticks c) (pause_ticks c) t
      = (tp, true))
    (hc : timer_expired_ext c.timer_cp 0 (work_ticks c) (work_ticks c) t = (tc, bc)) :
    control_band (thermo_tick c t) ∧ (thermo_tick c t).options = c.options
    ∧ (thermo_tick c t).timer_pp = tp ∧ (thermo_tick c t).timer_cp = tc
    ∧ (thermo_tick c t).leds_list Leds_Fan = bc ∧ (thermo_tick c t).pwm_on = bc := by
  obtain ⟨q1, q2, q3, q4, q5, q6⟩ := thermo_tick_control c t hb hcp
  rw [hp, hc] at q4 q5 q6
  rw [hp] at q3
  refine ⟨q1, q2, q3, ?_, ?_, ?_⟩
  · simpa using q4
  · simpa using q6
  · simpa using q5

/-- The first evaluation arms the pause timer. -/
theorem cycle_inv_start (s : Ctx) (t0 : Nat) (hband : control_band s)
    (hpp : s.timer_pp = ⟨false, false, 0⟩) (hcp : s.timer_cp = ⟨false, false, 0⟩)
    (hP : 0 < pause_ticks s)
    (hwrap : t0 + 3 * pause_ticks s + work_ticks s + 2 < 2 ^ 32) :
    cycle_inv s t0 0 (thermo_tick s t0) := by
  have hc : ¬ (s.timer_pp.wait_done = false ∧ s.timer_cp.wait_done = true) := by
    rw [hcp]
    simp
  have hp : timer_expired_ext s.timer_pp (pause_ticks s) (pause_ticks s) (pause_ticks s) t0
      = (⟨false, false, t0 + pause_ticks s⟩, false) := by
    rw [hpp]
    exact timer_arm _ _ _ _ (by omega)
  obtain ⟨r1, r2, r3, r4, r5⟩ := thermo_tick_closed s t0 _ hband hc hp
  exact ⟨r1, r2, fun _ => ⟨r3, r4.trans hcp, r5⟩, fun h => absurd h (by omega),
    fun h => absurd h (by omega), fun h => absurd h (by omega)⟩

/-- One more evaluation keeps the description of the cycle. -/
theorem cycle_inv_step (s c : Ctx) (t0 n : Nat) (hP : 0 < pause_ticks s)
    (hwrap : t0 + 3 * pause_ticks s + work_ticks s + 2 < 2 ^ 32)
    (hn : n + 1 ≤ 3 * pause_ticks s + 1) (h : cycle_inv s t0 n c) :
    cycle_inv s t0 (n + 1) (thermo_tick c (t0 + (n + 1))) := by
  obtain ⟨hband, hopt, hA, hA1, hB, hC⟩ := h
  have eP : pause_ticks c = pause_ticks s := by unfold pause_ticks; rw [hopt]
  have eW : work_ticks c = work_ticks s := by unfold work_ticks; rw [hopt]
  by_cases cA : n < pause_ticks s
  · -- the pause timer is waiting
    obtain ⟨a1, a2, a3⟩ := hA cA
    have hc : ¬ (c.timer_pp.wait_done = false ∧ c.timer_cp.wait_done = true) := by
      rw [a2]
      simp
    by_cases cA1 : n + 1 < pause_ticks s
    · have hp : timer_expired_ext c.timer_pp (pause_ticks c) (pause_ticks c) (pause_ticks c)
          (t0 + (n + 1)) = (⟨false, false, t0 + pause_ticks s⟩, false) := by
        rw [a1, eP]
        exact timer_waiting _ _ _ _ _ (by omega) (by omega)
      obtain ⟨r1, r2, r3, r4, r5⟩ := thermo_tick_closed c _ _ hband hc hp
      exact ⟨r1, r2.trans hopt, fun _ => ⟨r3, r4.trans a2, r5⟩, fun h => absurd h (by omega),
        fun h => absurd h (by omega), fun h => absurd h (by omega)⟩
    · -- the wait ends: the pause timer opens its period and the work timer is armed
      have e1 : t0 + (n + 1) + pause_ticks s = t0 + 2 * pause_ticks s := by omega
      have e2 : t0 + (n + 1) + 0 = t0 + pause_ticks s := by omega
      have hp : timer_expired_ext c.timer_pp (pause_ticks c) (pause_ticks c) (pause_ticks c)
          (t0 + (n + 1)) = (⟨true, false, t0 + 2 * pause_ticks s⟩, true) := by
        rw [a1, eP, timer_wait_done _ _ _ _ _ (by omega) (by omega) (by omega), e1]
      have hw : timer_expired_ext c.timer_cp 0 (work_ticks c) (work_ticks c) (t0 + (n + 1))
          = (⟨false, false, t0 + pause_ticks s⟩, false) := by
        rw [a2, timer_arm _ _ _ _ (by omega), e2]
      obtain ⟨r1, r2, r3, r4, r5, r6⟩ := thermo_tick_open c _ _ _ _ hband hc hp hw
      exact ⟨r1, r2.trans hopt, fun h => absurd h (by omega), fun _ => ⟨r3, r4, r5, r6⟩,
        fun h => absurd h (by omega), fun h => absurd h (by omega)⟩
  · by_cases cB0 : n = pause_ticks s
    · -- the first burst starts
      obtain ⟨a1, a2, a3⟩ := hA1 cB0
      have hc : ¬ (c.timer_pp.wait_done = false ∧ c.timer_cp.wait_done = true) := by
        rw [a1]
        simp
      have e1 : t0 + (n + 1) + work_ticks s = t0 + (pause_ticks s + 1) + work_ticks s := by
        omega
      have hp : timer_expired_ext c.timer_pp (pause_ticks c) (pause_ticks c) (pause_ticks c)
          (t0 + (n + 1)) = (⟨true, false, t0 + 2 * pause_ticks s⟩, true) := by
        rw [a1, eP]
        exact timer_working _ _ _ _ _ (by omega)
      have hw : timer_expired_ext c.timer_cp 0 (work_ticks c) (work_ticks c) (t0 + (n + 1))
          = (⟨true, false, t0 + (pause_ticks s + 1) + work_ticks s⟩, true) := by
        rw [a2, eW, timer_wait_done _ _ _ _ _ (by omega) (by omega) (by omega), e1]
      obtain ⟨r1, r2, r3, r4, r5, r6⟩ := thermo_tick_open c _ _ _ _ hband hc hp hw
      refine ⟨r1, r2.trans hopt, fun h => absurd h (by omega), fun h => absurd h (by omega),
        fun _ _ => ⟨r3, pause_ticks s + 1, 0, by simp, by omega, by omega,
          fun _ => ⟨r4, r5, r6⟩, fun h => absurd h (by omega)⟩,
        fun h => absurd h (by omega)⟩
    · by_cases cB : n ≤ 2 * pause_ticks s
      · -- inside the period of the pause timer
        obtain ⟨b1, b, k, hb, hle, hlt, hon, hoff⟩ := hB (by omega) cB
        have hc : ¬ (c.timer_pp.wait_done = false ∧ c.timer_cp.wait_done = true) := by
          rw [b1]
          simp
        by_cases cB1 : n + 1 ≤ 2 * pause_ticks s
        · have hp : timer_expired_ext c.timer_pp (pause_ticks c) (pause_ticks c)
              (pause_ticks c) (t0 + (n + 1)) = (⟨true, false, t0 + 2 * pause_ticks s⟩, true) := by
            rw [b1, eP]
            exact timer_working _ _ _ _ _ (by omega)
          by_cases h1 : n ≤ b + work_ticks s
          · obtain ⟨c1, c2⟩ := hon h1
            by_cases h2 : n + 1 ≤ b + work_ticks s
            · -- the burst goes on
              have hw : timer_expired_ext c.timer_cp 0 (work_ticks c) (work_ticks c)
                  (t0 + (n + 1)) = (⟨true, false, t0 + b + work_ticks s⟩, true) := by
                rw [c1, eW]
                exact timer_working _ _ _ _ _ (by omega)
              obtain ⟨r1, r2, r3, r4, r5, r6⟩ := thermo_tick_open c _ _ _ _ hband hc hp hw
              refine ⟨r1, r2.trans hopt, fun h => absurd h (by omega),
                fun h => absurd h (by omega),
                fun _ _ => ⟨r3, b, k, hb, by omega, by omega,
                  fun _ => ⟨r4, r5, r6⟩, fun h => absurd h (by omega)⟩,
                fun h => absurd h (by omega)⟩
            · -- the burst ends: the work timer starts its sleep
              have e1 : t0 + (n + 1) + work_ticks s = t0 + b + 2 * work_ticks s + 1 := by
                omega
              have hw : timer_expired_ext c.timer_cp 0 (work_ticks c) (work_ticks c)
                  (t0 + (n + 1)) = (⟨true, true, t0 + b + 2 * work_ticks s + 1⟩, false) := by
                rw [c1, eW, timer_work_done _ _ _ _ _ (by omega) (by omega), e1]
              obtain ⟨r1, r2, r3, r4, r5, r6⟩ := thermo_tick_open c _ _ _ _ hband hc hp hw
              refine ⟨r1, r2.trans hopt, fun h => absurd h (by omega),
                fun h => absurd h (by omega),
                fun _ _ => ⟨r3, b, k, hb, by omega, by omega,
                  fun h => absurd h (by omega), fun _ => ⟨r4, r5, r6⟩⟩,
                fun h => absurd h (by omega)⟩
          · obtain ⟨c1, c2⟩ := hoff (by omega)
            by_cases h2 : n + 1 < b + (2 * work_ticks s + 2)
            · -- the rest goes on
              have hw : timer_expired_ext c.timer_cp 0 (work_ticks c) (work_ticks c)
                  (t0 + (n + 1)) = (⟨true, true, t0 + b + 2 * work_ticks s + 1⟩, false) := by
                rw [c1, eW]
                exact timer_sleeping _ _ _ _ _ (by omega)
              obtain ⟨r1, r2, r3, r4, r5, r6⟩ := thermo_tick_open c _ _ _ _ hband hc hp hw
              refine ⟨r1, r2.trans hopt, fun h => absurd h (by omega),
                fun h => absurd h (by omega),
                fun _ _ => ⟨r3, b, k, hb, by omega, by omega,
                  fun h => absurd h (by omega), fun _ => ⟨r4, r5, r6⟩⟩,
                fun h => absurd h (by omega)⟩
            · -- the rest ends: the next burst starts
              have e1 : t0 + (n + 1) + work_ticks s
                  = t0 + (b + (2 * work_ticks s + 2)) + work_ticks s := by
                omega
              have hw : timer_expired_ext c.timer_cp 0 (work_ticks c) (work_ticks c)
                  (t0 + (n + 1))
                  = (⟨true, false, t0 + (b + (2 * work_ticks s + 2)) + work_ticks s⟩,
                      true) := by
                rw [c1, eW, timer_sleep_done _ _ _ _ _ (by omega) (by omega), e1]
              obtain ⟨r1, r2, r3, r4, r5, r6⟩ := thermo_tick_open c _ _ _ _ hband hc hp hw
              have hb2 : b + (2 * work_ticks s + 2)
                  = pause_ticks s + 1 + (k + 1) * (2 * work_ticks s + 2) := by
                rw [hb]
                ring
              refine ⟨r1, r2.trans hopt, fun h => absurd h (by omega),
                fun h => absurd h (by omega),
                fun _ _ => ⟨r3, b + (2 * work_ticks s + 2), k + 1, hb2, by omega, by omega,
                  fun _ => ⟨r4, r5, r6⟩, fun h => absurd h (by omega)⟩,
                fun h => absurd h (by omega)⟩
        · -- the period of the pause timer ends: it starts its sleep
          have e1 : t0 + (n + 1) + pause_ticks s = t0 + 3 * pause_ticks s + 1 := by omega
          have hp : timer_expired_ext c.timer_pp (pause_ticks c) (pause_ticks c)
              (pause_ticks c) (t0 + (n + 1))
              = (⟨true, true, t0 + 3 * pause_ticks s + 1⟩, false) := by
            rw [b1, eP, timer_work_done _ _ _ _ _ (by omega) (by omega), e1]
          obtain ⟨r1, r2, r3, r4, r5⟩ := thermo_tick_closed c _ _ hband hc hp
          exact ⟨r1, r2.trans hopt, fun h => absurd h (by omega), fun h => absurd h (by omega),
            fun h1 h2 => absurd h2 (by omega), fun _ _ => ⟨r3, r5⟩⟩
      · -- the pause timer sleeps
        obtain ⟨a1, a2⟩ := hC (by omega) (by omega)
        have hc : ¬ (c.timer_pp.wait_done = false ∧ c.timer_cp.wait_done = true) := by
          rw [a1]
          simp
        have hp : timer_expired_ext c.timer_pp (pause_ticks c) (pause_ticks c) (pause_ticks c)
            (t0 + (n + 1)) = (⟨true, true, t0 + 3 * pause_ticks s + 1⟩, false) := by
          rw [a1, eP]
          exact timer_sleeping _ _ _ _ _ (by omega)
        obtain ⟨r1, r2, r3, r4, r5⟩ := thermo_tick_closed c _ _ hband hc hp
        exact ⟨r1, r2.trans hopt, fun h => absurd h (by omega), fun h => absurd h (by omega),
          fun h1 h2 => absurd h2 (by omega), fun _ _ => ⟨r3, r5⟩⟩

/-- The description of the cycle holds after every evaluation of the first wait, period and
sleep of the pause timer. -/
theorem thermo_ticks_cycle (s : Ctx) (t0 : Nat) (hband : control_band s)
    (hpp : s.timer_pp = ⟨false, false, 0⟩) (hcp : s.timer_cp = ⟨false, false, 0⟩)
    (hP : 0 < pause_ticks s)
    (hwrap : t0 + 3 * pause_ticks s + work_ticks s + 2 < 2 ^ 32) :
    ∀ n : Nat, n ≤ 3 * pause_ticks s + 1 → cycle_inv s t0 n (thermo_ticks s t0 (n + 1)) := by
  intro n
  induction n with
  | zero => exact fun _ => cycle_inv_start s t0 hband hpp hcp hP hwrap
  | succ n ih =>
    intro hn
    exact cycle_inv_step s _ t0 n hP hwrap hn (ih (by omega))

/-- The position inside the burst pattern as a remainder. -/
theorem burst_offset_mod (n p m b k : Nat) (hb : b = p + 1 + k * m) (hle : b ≤ n)
    (hlt : n < b + m) : (n - (p + 1)) % m = n - b := by
  have e : n - (p + 1) = (n - b) + k * m := by omega
  rw [e, Nat.add_mul_mod_self_right]
  exact Nat.mod_eq_of_lt (by omega)

/-- The fan as the description of the cycle gives it. -/
theorem cycle_inv_fan (s c : Ctx) (t0 n : Nat) (h : cycle_inv s t0 n c)
    (hn : n ≤ 3 * pause_ticks s + 1) :
    (n ≤ pause_ticks s → fan_off c)
    ∧ (pause_ticks s < n → n ≤ 2 * pause_ticks s →
        if (n - (pause_ticks s + 1)) % (2 * work_ticks s + 2) ≤ work_ticks s
        then fan_on c else fan_off c)
    ∧ (2 * pause_ticks s < n → fan_off c) := by
  obtain ⟨_, _, hA, hA1, hB, hC⟩ := h
  refine ⟨?_, ?_, ?_⟩
  · intro h1
    by_cases h2 : n < pause_ticks s
    · exact (hA h2).2.2
    · exact (hA1 (by omega)).2.2
  · intro h1 h2
    obtain ⟨_, b, k, hb, hle, hlt, hon, hoff⟩ := hB h1 h2
    rw [burst_offset_mod n (pause_ticks s) (2 * work_ticks s + 2) b k hb hle hlt]
    by_cases h3 : n ≤ b + work_ticks s
    · rw [if_pos (by omega)]
      exact (hon h3).2
    · rw [if_neg (by omega)]
      exact (hoff (by omega)).2
  · intro h1
    exact (hC h1 hn).2

theorem control_ctx_facts :
    control_band control_ctx
    ∧ control_ctx.timer_pp = ⟨false, false, 0⟩ ∧ control_ctx.timer_cp = ⟨false, false, 0⟩
    ∧ work_ticks control_ctx = 10000 ∧ pause_ticks control_ctx = 180000 := by
  refine ⟨⟨?_, ?_, ?_, ?_, ?_⟩, ?_, ?_, ?_, ?_⟩ <;> decide

/-- Claim C20, as stated, fails. Factory configuration (burst 10 s, pause 3 min, target 60,
hysteresis 3), reading held at 65, the thermostat evaluated once per tick from tick 1 with both
cycle timers reset. The fan is off after the evaluation at offset 180000, the first burst runs
from offset 180001 to offset 190001, the fan is off at offset 190002, and it is on again at
offset 200003: about 10 s after the end of the burst, not 3 minutes. Inside the period of the
pause timer the fan is on for 10 s in every 20 s. -/
theorem control_duty_counterexample :
    control_band control_ctx
    ∧ control_ctx.timer_pp = ⟨false, false, 0⟩ ∧ control_ctx.timer_cp = ⟨false, false, 0⟩
    ∧ work_ticks control_ctx = 10000 ∧ pause_ticks control_ctx = 180000
    ∧ fan_off (thermo_ticks control_ctx 1 (180000 + 1))
    ∧ fan_on (thermo_ticks control_ctx 1 (180001 + 1))
    ∧ fan_on (thermo_ticks control_ctx 1 (190001 + 1))
    ∧ fan_off (thermo_ticks control_ctx 1 (190002 + 1))
    ∧ fan_on (thermo_ticks control_ctx 1 (200003 + 1))
    ∧ 200003 - 190001 < pause_ticks control_ctx := by
  obtain ⟨f1, f2, f3, f4, f5⟩ := control_ctx_facts
  have key := thermo_ticks_cycle control_ctx 1 f1 f2 f3 (by rw [f5]; decide)
    (by rw [f4, f5]; decide)
  have g0 := (cycle_inv_fan control_ctx _ 1 180000 (key 180000 (by rw [f5]; decide))
    (by rw [f5]; decide)).1 (by rw [f5])
  have g1 := (cycle_inv_fan control_ctx _ 1 180001 (key 180001 (by rw [f5]; decide))
    (by rw [f5]; decide)).2.1 (by rw [f5]; decide) (by rw [f5]; decide)
  have g2 := (cycle_inv_fan control_ctx _ 1 190001 (key 190001 (by rw [f5]; decide))
    (by rw [f5]; decide)).2.1 (by rw [f5]; decide) (by rw [f5]; decide)
  have g3 := (cycle_inv_fan control_ctx _ 1 190002 (key 190002 (by rw [f5]; decide))
    (by rw [f5]; decide)).2.1 (by rw [f5]; decide) (by rw [f5]; decide)
  have g4 := (cycle_inv_fan control_ctx _ 1 200003 (key 200003 (by rw [f5]; decide))
    (by rw [f5]; decide)).2.1 (by rw [f5]; decide) (by rw [f5]; decide)
  rw [f4, f5] at g1 g2 g3 g4
  rw [if_pos (by decide)] at g1 g2 g4
  rw [if_neg (by decide)] at g3
  exact ⟨f1, f2, f3, f4, f5, g0, g1, g2, g3, g4, by rw [f5]; decide⟩

/-- Claim C20, amended. In the Control band (mode not Stopped, reading held at least 35, at
least target + hysteresis, at most 90 and not below the shutdown temperature), with the
thermostat evaluated once per tick from tick `t0` and both cycle timers reset on entry, with
`P = MINUTES(fanPauseMinutes) > 0` and `W = SECONDS(fanWorkSeconds)` and no wrap of the tick
counter: after the evaluation at offset `n` from the entry the fan is off while `n ≤ P` (until
the pause timer has elapsed); for `P < n ≤ 2 * P`, the period of the pause timer, the fan
alternates bursts of `W + 1` ticks on with rests of `W + 1` ticks off, starting with a burst
at offset `P + 1`; and for `2 * P < n ≤ 3 * P + 1`, the sleep of the pause timer, the fan is
off. A burst is followed by a rest of fanWorkSeconds, not of fanPauseMinutes. -/
theorem control_fan_cycle (s : Ctx) (t0 n : Nat) (hband : control_band s)
    (hpp : s.timer_pp = ⟨false, false, 0⟩) (hcp : s.timer_cp = ⟨false, false, 0⟩)
    (hP : 0 < pause_ticks s)
    (hwrap : t0 + 3 * pause_ticks s + work_ticks s + 2 < 2 ^ 32)
    (hn : n ≤ 3 * pause_ticks s + 1) :
    (n ≤ pause_ticks s → fan_off (thermo_ticks s t0 (n + 1)))
    ∧ (pause_ticks s < n → n ≤ 2 * pause_ticks s →
        if (n - (pause_ticks s + 1)) % (2 * work_ticks s + 2) ≤ work_ticks s
        then fan_on (thermo_ticks s t0 (n + 1)) else fan_off (thermo_ticks s t0 (n + 1)))
    ∧ (2 * pause_ticks s < n → fan_off (thermo_ticks s t0 (n + 1))) :=
  cycle_inv_fan s _ t0 n (thermo_ticks_cycle s t0 hband hpp hcp hP hwrap n hn) hn

/-- Witness of C20: the factory configuration at offset 200003 from the entry at tick 1, the
first tick of the second burst. -/
theorem control_fan_cycle_witness :
    (200003 ≤ pause_ticks control_ctx → fan_off (thermo_ticks control_ctx 1 (200003 + 1)))
    ∧ (pause_ticks control_ctx < 200003 → 200003 ≤ 2 * pause_ticks control_ctx →
        if (200003 - (pause_ticks control_ctx + 1)) % (2 * work_ticks control_ctx + 2)
            ≤ work_ticks control_ctx
        then fan_on (thermo_ticks control_ctx 1 (200003 + 1))
        else fan_off (thermo_ticks control_ctx 1 (200003 + 1)))
    ∧ (2 * pause_ticks control_ctx < 200003 →
        fan_off (thermo_ticks control_ctx 1 (200003 + 1))) :=
  control_fan_cycle control_ctx 1 200003 control_ctx_facts.1 control_ctx_facts.2.1
    control_ctx_facts.2.2.1 (by rw [control_ctx_facts.2.2.2.2]; decide)
    (by rw [control_ctx_facts.2.2.2.1, control_ctx_facts.2.2.2.2]; decide)
    (by rw [control_ctx_facts.2.2.2.2]; decide)

/-! ## Software timer: wraparound, bursts and sleep -/

/-- Claim C21 fails. The guard timers are polled with `wait = SECONDS(5)`, `period = 0`,
`sleep = 0`. A reset timer first polled at tick `2^32 - 1000` stores the deadline
`(2^32 - 1000 + 5000) mod 2^32 = 4000`; the poll one tick later compares the ticks themselves
(`now_ticks < self->ticks` is false for `2^32 - 999` against `4000`) and returns true, although
only one tick of the 5000 has elapsed. -/
theorem timer_wrap_early_fire :
    timer_expired_ext (timer_reset ⟨false, false, 0⟩) (SECONDS 5) 0 0 (2 ^ 32 - 1000)
      = (⟨false, false, 4000⟩, false)
    ∧ timer_expired_ext ⟨false, false, 4000⟩ (SECONDS 5) 0 0 (2 ^ 32 - 999)
      = (⟨true, false, 2 ^ 32 - 999⟩, true)
    ∧ (timer_polls (SECONDS 5) 0 0 (timer_reset ⟨false, false, 0⟩)
        [2 ^ 32 - 1000, 2 ^ 32 - 999]).2 = [false, true]
    ∧ tick_delta (2 ^ 32 - 999) (2 ^ 32 - 1000) = 1
    ∧ tick_delta (2 ^ 32 - 999) (2 ^ 32 - 1000) < SECONDS 5 := by
  refine ⟨?_, ?_, ?_, ?_, ?_⟩ <;> decide

/-- A poll that returns true leaves the timer in its period, with a deadline not before the
tick of the poll. -/
theorem timer_fire_state (tm : Timer32) (wait period sl now : Nat)
    (h : (timer_expired_ext tm wait period sl now).2 = true) :
    ∃ d, now ≤ d ∧ (timer_expired_ext tm wait period sl now).1 = ⟨true, false, d⟩ := by
  obtain ⟨w, sp, d⟩ := tm
  by_cases h3 : now ≤ (now + period) % 4294967296
  · cases w
    · by_cases h0 : d = 0
      · simp [timer_expired_ext, h0] at h
      · by_cases h1 : now < d
        · simp [timer_expired_ext, h0, h1] at h
        · cases sp
          · exact ⟨_, h3, by simp [timer_expired_ext, h0, h1, h3]⟩
          · simp [timer_expired_ext, h0, h1, h3] at h
    · by_cases h2 : now ≤ d
      · cases sp
        · exact ⟨d, h2, by simp [timer_expired_ext, h2]⟩
        · simp [timer_expired_ext, h2] at h
      · cases sp
        · simp [timer_expired_ext, h2] at h
        · exact ⟨_, h3, by simp [timer_expired_ext, h2, h3]⟩
  · cases w
    · by_cases h0 : d = 0
      · simp [timer_expired_ext, h0] at h
      · by_cases h1 : now < d
        · simp [timer_expired_ext, h0, h1] at h
        · cases sp <;> simp [timer_expired_ext, h0, h1, h3] at h
    · by_cases h2 : now ≤ d
      · cases sp
        · exact ⟨d, h2, by simp [timer_expired_ext, h2]⟩
        · simp [timer_expired_ext, h2] at h
      · cases sp <;> simp [timer_expired_ext, h2, h3] at h

/-- The poll that starts a run of fires (the timer was in its wait phase or asleep) sets the
deadline of the run to the tick of the poll plus `period`. -/
theorem timer_fire_start (tm : Timer32) (wait period sl now : Nat)
    (hstart : tm.wait_done = false ∨ tm.sleep_pending = true)
    (hsum : now + period ≤ 2 ^ 32 - 1)
    (h : (timer_expired_ext tm wait period sl now).2 = true) :
    (timer_expired_ext tm wait period sl now).1 = ⟨true, false, now + period⟩ := by
  have e : (now + period) % 4294967296 = now + period := Nat.mod_eq_of_lt (by omega)
  obtain ⟨w, sp, d⟩ := tm
  cases w
  · by_cases h0 : d = 0
    · simp [timer_expired_ext, h0] at h
    · by_cases h1 : now < d
      · simp [timer_expired_ext, h0, h1] at h
      · cases sp
        · simp [timer_expired_ext, h0, h1, e]
        · simp [timer_expired_ext, h0, h1, e] at h
  · by_cases h2 : now ≤ d
    · cases sp
      · simp at hstart
      · simp [timer_expired_ext, h2] at h
    · cases sp
      · simp at hstart
      · simp [timer_expired_ext, h2, e]

/-- Polls inside the period return true and leave the timer as it is. -/
theorem timer_polls_working (wait period sl d : Nat) (ws rest : List Nat)
    (hws : ∀ n ∈ ws, n ≤ d) :
    timer_polls wait period sl ⟨true, false, d⟩ (ws ++ rest)
      = ((timer_polls wait period sl ⟨true, false, d⟩ rest).1,
         List.replicate ws.length true
           ++ (timer_polls wait period sl ⟨true, false, d⟩ rest).2) := by
  induction ws with
  | nil => simp
  | cons n ns ih =>
    have hn : n ≤ d := hws n (List.mem_cons_self n ns)
    have ih' := ih (fun m hm => hws m (List.mem_cons_of_mem n hm))
    rw [List.cons_append, timer_polls, timer_working d wait period sl n hn]
    simp only [ih', List.length_cons, List.replicate_succ, List.cons_append]

/-- Polls inside the sleep return false and leave the timer as it is. -/
theorem timer_polls_sleeping (wait period sl d : Nat) (zs rest : List Nat)
    (hzs : ∀ n ∈ zs, n ≤ d) :
    timer_polls wait period sl ⟨true, true, d⟩ (zs ++ rest)
      = ((timer_polls wait period sl ⟨true, true, d⟩ rest).1,
         List.replicate zs.length false
           ++ (timer_polls wait period sl ⟨true, true, d⟩ rest).2) := by
  induction zs with
  | nil => simp
  | cons n ns ih =>
    have hn : n ≤ d := hzs n (List.mem_cons_self n ns)
    have ih' := ih (fun m hm => hzs m (List.mem_cons_of_mem n hm))
    rw [List.cons_append, timer_polls, timer_sleeping d wait period sl n hn]
    simp only [ih', List.length_cons, List.replicate_succ, List.cons_append]

/-- Claim C22 fails. A timer with `period = 10` and `sleep = 10`, reset and polled at ticks
1, 2 and 3: the polls at ticks 2 and 3 both return true, one tick apart. -/
theorem timer_fire_spacing_counterexample :
    (timer_polls 0 10 10 (timer_reset ⟨false, false, 0⟩) [1, 2, 3]).2 = [false, true, true]
    ∧ 3 - 2 < 10 := by
  refine ⟨?_, ?_⟩ <;> decide

/-- Claim C22, amended. The poll at tick `a` that starts a run of fires (it returns true and
the timer was in its wait phase or asleep before it) opens a window of `period` ticks: every
poll at a tick up to `a + period` returns true, however close to the previous poll, and the
first poll at a tick above `a + period` returns false and starts the sleep. `period` is the
length of the run of fires, not a distance between fires. -/
theorem timer_fire_window (tm : Timer32) (wait period sl a c : Nat) (ws : List Nat)
    (hstart : tm.wait_done = false ∨ tm.sleep_pending = true)
    (hfire : (timer_expired_ext tm wait period sl a).2 = true)
    (hsum : a + period ≤ 2 ^ 32 - 1) (hsum' : c + sl ≤ 2 ^ 32 - 1)
    (hws : ∀ n ∈ ws, n ≤ a + period) (hc : a + period < c) :
    timer_polls wait period sl tm (a :: (ws ++ [c]))
      = (⟨true, true, c + sl⟩, true :: (List.replicate ws.length true ++ [false])) := by
  have h1 := timer_fire_start tm wait period sl a hstart hsum hfire
  rw [timer_polls, h1, hfire]
  rw [timer_polls_working wait period sl (a + period) ws [c] hws]
  simp only [timer_polls, timer_work_done (a + period) wait period sl c hc (by omega)]

/-- Witness of C22: a timer armed at tick 1 with `wait = 0`, `period = 10`, `sleep = 10`; the
run of fires starts at tick 2, the polls at ticks 3 and 12 fire, the poll at tick 13 does
not. -/
theorem timer_fire_window_witness :
    timer_polls 0 10 10 ⟨false, false, 1⟩ (2 :: ([3, 12] ++ [13]))
      = (⟨true, true, 13 + 10⟩, true :: (List.replicate [3, 12].length true ++ [false])) :=
  timer_fire_window ⟨false, false, 1⟩ 0 10 10 2 13 [3, 12] (Or.inl rfl) (by decide)
    (by decide) (by decide) (by decide) (by decide)

/-- Claim C23. A timer in any state polled with fixed parameters: if the poll at tick `a`
returns true and the next poll, at tick `t`, returns false, then the poll at `t` puts the timer
to sleep with the deadline `t + sleep`; every later poll at a tick up to `t + sleep` returns
false, and the first poll at a tick above `t + sleep` returns true (no deadline sum above
`2^32 - 1`). -/
theorem timer_sleep_silence (tm : Timer32) (wait period sl a t b : Nat) (zs : List Nat)
    (hfire : (timer_expired_ext tm wait period sl a).2 = true)
    (hquiet : (timer_expired_ext (timer_expired_ext tm wait period sl a).1
      wait period sl t).2 = false)
    (hsum : t + sl ≤ 2 ^ 32 - 1) (hsum' : b + period ≤ 2 ^ 32 - 1)
    (hzs : ∀ n ∈ zs, n ≤ t + sl) (hb : t + sl < b) :
    (timer_expired_ext (timer_expired_ext tm wait period sl a).1 wait period sl t).1
      = ⟨true, true, t + sl⟩
    ∧ (timer_polls wait period sl (timer_expired_ext tm wait period sl a).1
        (t :: (zs ++ [b]))).2
      = false :: (List.replicate zs.length false ++ [true]) := by
  obtain ⟨d, hd, e⟩ := timer_fire_state tm wait period sl a hfire
  rw [e] at hquiet ⊢
  have hdt : d < t := by
    by_contra hcon
    rw [timer_working d wait period sl t (by omega)] at hquiet
    simp at hquiet
  have h1 := timer_work_done d wait period sl t hdt (by omega)
  refine ⟨by rw [h1], ?_⟩
  rw [timer_polls, h1]
  simp only
  rw [timer_polls_sleeping wait period sl (t + sl) zs [b] hzs]
  simp only [timer_polls, timer_sleep_done (t + sl) wait period sl b hb (by omega)]

/-- Witness of C23: `wait = 0`, `period = 10`, `sleep = 20`; the poll at tick 12 fires, the
poll at tick 13 does not and sets the deadline 33, the polls at ticks 14 and 33 are silent and
the poll at tick 34 fires. -/
theorem timer_sleep_silence_witness :
    (timer_expired_ext (timer_expired_ext ⟨true, false, 12⟩ 0 10 20 12).1 0 10 20 13).1
      = ⟨true, true, 13 + 20⟩
    ∧ (timer_polls 0 10 20 (timer_expired_ext ⟨true, false, 12⟩ 0 10 20 12).1
        (13 :: ([14, 33] ++ [34]))).2
      = false :: (List.replicate [14, 33].length false ++ [true]) :=
  timer_sleep_silence ⟨true, false, 12⟩ 0 10 20 12 13 34 [14, 33] (by decide) (by decide)
    (by decide) (by decide) (by decide) (by decide)

/-- One more tick of the duty cycle: the state after the poll at offset `n + 1` in terms of
the number `q` of complete cycles and the position `r` inside the current one. -/
theorem timer_tick_run_cycle (tm : Timer32) (P S t0 : Nat) (ht0 : 1 ≤ t0) (n : Nat)
    (hP : t0 + (n + 1) + P ≤ 2 ^ 32 - 1) (hS : t0 + (n + 1) + S ≤ 2 ^ 32 - 1) :
    ∃ q r, n = q * (P + S + 2) + r ∧ r < P + S + 2
      ∧ timer_tick_run 0 P S (timer_reset tm) t0 (n + 1)
        = if r ≤ P then (⟨true, false, t0 + 1 + q * (P + S + 2) + P⟩, true)
          else (⟨true, true, t0 + q * (P + S + 2) + P + 2 + S⟩, false) := by
  induction n with
  | zero =>
    refine ⟨0, 0, by simp, by omega, ?_⟩
    have h0 : timer_tick_run 0 P S (timer_reset tm) t0 0 = (⟨false, false, t0⟩, false) := by
      have := timer_arm 0 P S t0 (by omega)
      simpa [timer_tick_run, timer_reset] using this
    rw [timer_tick_run, h0]
    simp only
    rw [timer_wait_done t0 0 P S (t0 + (0 + 1)) (by omega) (by omega) (by omega)]
    simp
  | succ n ih =>
    obtain ⟨q, r, hn, hr, hrun⟩ := ih (by omega) (by omega)
    rw [timer_tick_run, hrun]
    by_cases h1 : r ≤ P
    · rw [if_pos h1]
      simp only
      by_cases h2 : r + 1 ≤ P
      · refine ⟨q, r + 1, by omega, by omega, ?_⟩
        rw [if_pos h2, timer_working _ 0 P S _ (by omega)]
      · refine ⟨q, r + 1, by omega, by omega, ?_⟩
        rw [if_neg h2, timer_work_done _ 0 P S _ (by omega) (by omega)]
        have e : t0 + (n + 1 + 1) + S = t0 + q * (P + S + 2) + P + 2 + S := by omega
        rw [e]
    · rw [if_neg h1]
      simp only
      by_cases h2 : r + 1 < P + S + 2
      · refine ⟨q, r + 1, by omega, h2, ?_⟩
        rw [if_neg (by omega), timer_sleeping _ 0 P S _ (by omega)]
      · have hq : (q + 1) * (P + S + 2) = q * (P + S + 2) + (P + S + 2) := by
          rw [Nat.add_mul, Nat.one_mul]
        refine ⟨q + 1, 0, by omega, by omega, ?_⟩
        rw [if_pos (Nat.zero_le P), timer_sleep_done _ 0 P S _ (by omega) (by omega)]
        have e : t0 + (n + 1 + 1) + P = t0 + 1 + (q + 1) * (P + S + 2) + P := by omega
        rw [e]

/-- Claim C26. A freshly reset timer polled once per tick at `t0, t0 + 1, ...` with `t0 ≥ 1`,
`wait = 0`, `period = P`, `sleep = S` (no deadline sum above `2^32 - 1`): the poll at `t0`
returns false, and the poll at offset `n + 1` returns true exactly when the remainder of `n`
modulo `P + S + 2` is at most `P`; the results from offset 1 on are runs of `P + 1` times true
followed by `S + 1` times false, and repeat with period `P + S + 2`. -/
theorem timer_duty_pattern (tm : Timer32) (P S t0 n : Nat) (ht0 : 1 ≤ t0)
    (hP : t0 + (n + 1) + P ≤ 2 ^ 32 - 1) (hS : t0 + (n + 1) + S ≤ 2 ^ 32 - 1) :
    (timer_tick_run 0 P S (timer_reset tm) t0 0).2 = false
    ∧ (timer_tick_run 0 P S (timer_reset tm) t0 (n + 1)).2 = decide (n % (P + S + 2) ≤ P) := by
  constructor
  · have := timer_arm 0 P S t0 (by omega)
    simp [timer_tick_run, timer_reset, this]
  · obtain ⟨q, r, hn, hr, hrun⟩ := timer_tick_run_cycle tm P S t0 ht0 n hP hS
    have hmod : n % (P + S + 2) = r := by
      rw [hn, Nat.add_comm, Nat.add_mul_mod_self_right]
      exact Nat.mod_eq_of_lt hr
    rw [hrun, hmod]
    by_cases h1 : r ≤ P
    · simp [h1]
    · simp [h1]

/-- Witness of C26: `P = 3`, `S = 2`, first poll at tick 1; the poll at offset 12 (tick 13)
is at position 4 of the second cycle of 7 ticks and returns false. -/
theorem timer_duty_pattern_witness :
    (timer_tick_run 0 3 2 (timer_reset ⟨true, true, 9⟩) 1 0).2 = false
    ∧ (timer_tick_run 0 3 2 (timer_reset ⟨true, true, 9⟩) 1 (11 + 1)).2
      = decide (11 % (3 + 2 + 2) ≤ 3) :=
  timer_duty_pattern ⟨true, true, 9⟩ 3 2 1 11 (by decide) (by decide) (by decide)

/-! ## 1-Wire byte framing -/

/-- The loop of `ow_send` emits the bits of the byte from bit 0 upwards. -/
theorem ow_send_loop_eq (p : Nat) : ∀ byte : Nat,
    ow_send_loop p byte = (List.range p).map (fun i => (byte >>> i) &&& 1) := by
  induction p with
  | zero => intro byte; rfl
  | succ p ih =>
    intro byte
    rw [ow_send_loop, ih, List.range_succ_eq_map, List.map_cons, List.map_map]
    congr 1
    apply List.map_congr_left
    intro i _
    simp only [Function.comp, Nat.succ_eq_add_one]
    rw [Nat.add_comm i 1, Nat.shiftRight_add]

/-- The byte assembled by `ow_read` from eight samples. -/
theorem ow_read_bools (b0 b1 b2 b3 b4 b5 b6 b7 : Bool) (bit : Nat → Bool) (k : Nat)
    (h0 : bit k = b0) (h1 : bit (k + 1) = b1) (h2 : bit (k + 1 + 1) = b2)
    (h3 : bit (k + 1 + 1 + 1) = b3) (h4 : bit (k + 1 + 1 + 1 + 1) = b4)
    (h5 : bit (k + 1 + 1 + 1 + 1 + 1) = b5) (h6 : bit (k + 1 + 1 + 1 + 1 + 1 + 1) = b6)
    (h7 : bit (k + 1 + 1 + 1 + 1 + 1 + 1 + 1) = b7) :
    ow_read bit k = b0.toNat * 2 ^ 0 + b1.toNat * 2 ^ 1 + b2.toNat * 2 ^ 2 + b3.toNat * 2 ^ 3
      + b4.toNat * 2 ^ 4 + b5.toNat * 2 ^ 5 + b6.toNat * 2 ^ 6 + b7.toNat * 2 ^ 7 := by
  simp only [ow_read, ow_read_loop, h0, h1, h2, h3, h4, h5, h6, h7]
  cases b0 <;> cases b1 <;> cases b2 <;> cases b3 <;> cases b4 <;> cases b5 <;> cases b6
    <;> cases b7 <;> rfl

/-- The byte assembled by `ow_read` is the sum of the samples weighted by `2 ^ i`. -/
theorem ow_read_sum (bit : Nat → Bool) (k : Nat) :
    ow_read bit k = ((List.range 8).map (fun i => (bit (k + i)).toNat * 2 ^ i)).sum := by
  rw [ow_read_bools _ _ _ _ _ _ _ _ bit k rfl rfl rfl rfl rfl rfl rfl rfl]
  simp [List.range_succ, Nat.add_assoc]

set_option maxRecDepth 100000 in
/-- Reading back the bits of a byte gives the byte. -/
theorem ow_read_sent_bits : ∀ x < 256, ow_read (sent_bits x) 0 = x := by decide

/-- Claim C24. For every byte `x`, `ow_send x` hands to `ow_send_bit` the eight bits
`(x >> i) & 1` in the order `i = 0, 1, ..., 7`; for every string of samples, `ow_read`
started at sample `k` returns the sum of `b_i * 2^i` over the eight samples `b_0 .. b_7` it
takes, in sampling order; and `ow_read` applied to the bits emitted by `ow_send x` returns
`x`. -/
theorem ow_byte_framing (x : Nat) (hx : x < 256) (bit : Nat → Bool) (k : Nat) :
    ow_send x = (List.range 8).map (fun i => (x >>> i) &&& 1)
    ∧ ow_read bit k = ((List.range 8).map (fun i => (bit (k + i)).toNat * 2 ^ i)).sum
    ∧ ow_read (sent_bits x) 0 = x :=
  ⟨ow_send_loop_eq 8 x, ow_read_sum bit k, ow_read_sent_bits x hx⟩

/-- Witness of C24: the byte `0xA5` and the samples `1, 0, 1, 0, 0, 1, 0, 1`. -/
theorem ow_byte_framing_witness :
    ow_send 0xA5 = (List.range 8).map (fun i => (0xA5 >>> i) &&& 1)
    ∧ ow_read (sample_bits [true, false, true, false, false, true, false, true]) 0
      = ((List.range 8).map (fun i =>
          (sample_bits [true, false, true, false, false, true, false, true]
            (0 + i)).toNat * 2 ^ i)).sum
    ∧ ow_read (sent_bits 0xA5) 0 = 0xA5 :=
  ow_byte_framing 0xA5 (by decide)
    (sample_bits [true, false, true, false, false, true, false, true]) 0

/-! ## Stopped means fan off -/

theorem fan_not_started_refl (a : Ctx) : fan_not_started a a := ⟨id, id⟩

theorem fan_not_started_trans {a b c : Ctx} (h1 : fan_not_started a b)
    (h2 : fan_not_started b c) : fan_not_started a c :=
  ⟨fun h => h1.1 (h2.1 h), fun h => h1.2 (h2.2 h)⟩

theorem fan_not_started_of_same {a b : Ctx} (h : same_control b a) : fan_not_started a b := by
  obtain ⟨_, _, _, _, h5, h6, _⟩ := h
  unfold fan_not_started
  rw [h5, h6]
  exact ⟨id, id⟩

theorem fan_not_started_of_off (a : Ctx) {b : Ctx} (h : fan_off b) : fan_not_started a b := by
  obtain ⟨h1, h2⟩ := h
  unfold fan_not_started
  rw [h1, h2]
  exact ⟨fun hc => absurd hc (by decide), fun hc => absurd hc (by decide)⟩

theorem fan_not_started_of_raised (a c : Ctx) {b : Ctx} (h : alarm_raised c b) :
    fan_not_started a b :=
  fan_not_started_of_off a h.2.2.2.1

theorem stop_inv_of_same {c s : Ctx} (hc : same_control c s) (h : stop_inv s) : stop_inv c := by
  have hl := alarm_latched_of_same hc h.1
  obtain ⟨_, h2, h3, _, h5, h6, _⟩ := hc
  obtain ⟨_, k2, k3⟩ := h
  unfold stop_inv fan_off at *
  rw [h2, h3, h5, h6]
  exact ⟨hl, k2, k3⟩

theorem ack_inv_of_same {c s : Ctx} (hc : same_control c s) (h : ack_inv s) : ack_inv c := by
  have hl := alarm_latched_of_same hc h.1
  obtain ⟨h1, h2, h3, _, h5, h6, _⟩ := hc
  obtain ⟨_, k2, k3⟩ := h
  unfold ack_inv fan_off at *
  rw [h1, h2, h3, h5, h6]
  exact ⟨hl, k2, k3⟩

theorem ack_inv_of_stop_inv {s : Ctx} (h : stop_inv s) : ack_inv s :=
  ⟨h.1, h.2.1, fun hc => absurd hc h.2.2⟩

theorem start_alarm_raised (s : Ctx) : alarm_raised s (start_alarm s) := by
  simp [alarm_raised, start_alarm, fan_off, fan_stop, leds_change, leds_off, change_state]

theorem stop_inv_of_raised {a b : Ctx} (h : alarm_raised a b) (ha : a.state ≠ STATE_ALARM) :
    stop_inv b := by
  obtain ⟨h1, h2, h3, h4, h5⟩ := h
  refine ⟨fun _ => ⟨h3, h4, h5⟩, fun _ => h4, ?_⟩
  rw [h2]
  exact ha

/-- The escalation either leaves the operating state as it is or raises the alarm and resets
the bus timer. -/
theorem probe_escalate_cases (s : Ctx) (rep : Nat) (reset2 : Bool) :
    same_control (probe_escalate s rep reset2).1 s
    ∨ (alarm_raised s (probe_escalate s rep reset2).1
        ∧ (probe_escalate s rep reset2).1.timer_ow_alarm = ⟨false, false, 0⟩) := by
  unfold probe_escalate
  by_cases h1 : rep ≥ 5
  · by_cases h2 : reset2 = false
    · right
      rw [if_pos h1, if_pos h2]
      have h := start_alarm_raised { s with error_flags := Error_Temp_Sensor }
      exact ⟨h, rfl⟩
    · left
      rw [if_pos h1, if_neg h2]
      exact same_control_refl s
  · left
    rw [if_neg h1]
    exact same_control_refl s

/-- A boot iteration either leaves the operating state as it is, or raises the alarm and then
ends the boot loop. -/
theorem boot_iter_cases (s : Ctx) (i : BootIn) :
    same_control (boot_iter s i).1 s
    ∨ (alarm_raised s (boot_iter s i).1 ∧ (boot_iter s i).2 = false) := by
  have key : ∀ (c : Ctx) (t : Timer32) (n : Nat), same_control c s →
      same_control { c with timer_ow_alarm := t, boot_rep := n } s := fun c t n hc => hc
  have key2 : ∀ (c : Ctx) (t : Timer32) (n : Nat), alarm_raised s c →
      alarm_raised s { c with timer_ow_alarm := t, boot_rep := n } := fun c t n hc => hc
  unfold boot_iter boot_body
  simp only
  by_cases h1 : i.reset1 = false
  · by_cases h2 : (timer_expired_ext s.timer_ow_alarm (SECONDS 1) 0 0 i.t_alarm).2 = true
    · rcases probe_escalate_cases
        { s with timer_ow_alarm :=
            (timer_expired_ext s.timer_ow_alarm (SECONDS 1) 0 0 i.t_alarm).1 }
        s.boot_rep i.reset2 with h | ⟨h, ht⟩
      · left
        simp only [h1, h2, if_true]
        exact key _ _ _ (key _ _ _ h)
      · right
        simp only [h1, h2, if_true]
        refine ⟨key2 _ _ _ (key2 _ _ _ h), ?_⟩
        simp only [ht]
        simp [timer_expired_ext]
    · left
      simp only [h1, h2, if_true]
      exact key _ _ _ (key _ _ _ (same_control_refl s))
  · left
    simp only [h1, if_false]
    exact key _ _ _ (key _ _ _ (same_control_refl s))

/-- The bus-health block either leaves the operating state as it is, or raises the alarm
outside the Alarm state. -/
theorem loop_probe_cases (s : Ctx) (t : Nat) (r1 r2 : Bool) :
    same_control (loop_probe s t r1 r2) s
    ∨ (s.state ≠ STATE_ALARM ∧ alarm_raised s (loop_probe s t r1 r2)) := by
  have key : ∀ (c : Ctx) (t : Timer32) (n : Nat), same_control c s →
      same_control { c with timer_ow_alarm := t, loop_rep := n } s := fun c t n hc => hc
  have key2 : ∀ (c : Ctx) (t : Timer32) (n : Nat), alarm_raised s c →
      alarm_raised s { c with timer_ow_alarm := t, loop_rep := n } := fun c t n hc => hc
  unfold loop_probe
  simp only
  by_cases h2 : (timer_expired_ext s.timer_ow_alarm 0 0 (SECONDS 1) t).2 = true
  · rw [if_pos h2]
    by_cases h1 : r1 = false ∧ s.state ≠ STATE_ALARM
    · rw [if_pos h1]
      rcases probe_escalate_cases
        { s with timer_ow_alarm := (timer_expired_ext s.timer_ow_alarm 0 0 (SECONDS 1) t).1 }
        s.loop_rep r2 with h | ⟨h, _⟩
      · left
        exact key _ _ _ (key _ _ _ h)
      · right
        exact ⟨h1.2, key2 _ _ _ (key2 _ _ _ h)⟩
    · left
      rw [if_neg h1]
      exact key _ _ _ (key _ _ _ (same_control_refl s))
  · left
    rw [if_neg h2]
    exact same_control_refl s

theorem loop_probe_stop_inv (s : Ctx) (t : Nat) (r1 r2 : Bool) (h : stop_inv s) :
    stop_inv (loop_probe s t r1 r2) := by
  rcases loop_probe_cases s t r1 r2 with hc | ⟨hs, hr⟩
  · exact stop_inv_of_same hc h
  · exact stop_inv_of_raised hr hs

theorem loop_probe_fan (s : Ctx) (t : Nat) (r1 r2 : Bool) :
    fan_not_started s (loop_probe s t r1 r2) := by
  rcases loop_probe_cases s t r1 r2 with hc | ⟨_, hr⟩
  · exact fan_not_started_of_same hc
  · exact fan_not_started_of_raised s s hr

theorem boot_iter_fan (s : Ctx) (i : BootIn) : fan_not_started s (boot_iter s i).1 := by
  rcases boot_iter_cases s i with hc | ⟨hr, _⟩
  · exact fan_not_started_of_same hc
  · exact fan_not_started_of_raised s s hr

theorem ui_quiet_refl (a : Ctx) : ui_quiet a a := ⟨rfl, rfl, rfl, fun h1 => ⟨h1, id⟩⟩

theorem ui_quiet_trans {a b c : Ctx} (h1 : ui_quiet a b) (h2 : ui_quiet b c) : ui_quiet a c := by
  obtain ⟨a1, a2, a3, a4⟩ := h1
  obtain ⟨b1, b2, b3, b4⟩ := h2
  exact ⟨b1.trans a1, b2.trans a2, b3.trans a3,
    fun x => ⟨(b4 (a4 x).1).1, fun y => (b4 (a4 x).1).2 ((a4 x).2 y)⟩⟩

theorem menu_change_temp_button_quiet (s : Ctx) (code : Button) (value : Int) (t : Nat) :
    ui_quiet s (menu_change_temp_button s code value t) := by
  unfold menu_change_temp_button ui_quiet
  simp only
  split_ifs <;> simp [change_state, temp_target_adjust] <;> intro h1 <;> simp [h1]

theorem menu_button_quiet (s : Ctx) (code : Button) (value : Int) (t : Nat) :
    ui_quiet s (menu_button s code value t) := by
  unfold menu_button ui_quiet
  simp only
  split_ifs <;> simp

theorem options_change_params_quiet (s : Ctx) (value : Int) :
    ui_quiet s (options_change_params s value) := by
  unfold options_change_params
  split
  · exact ⟨rfl, rfl, rfl, fun h1 => ⟨h1, id⟩⟩
  · exact ui_quiet_refl s

theorem menu_parameters_button_quiet (s : Ctx) (code : Button) (value : Int) (t : Nat) :
    ui_quiet s (menu_parameters_button s code value t) := by
  have key : ∀ (c : Ctx) (t1 t2 : Timer32), ui_quiet s c →
      ui_quiet s { c with timer_out_menu := t1, menu_parameters_button_timer := t2 } :=
    fun c t1 t2 hc => hc
  have step : ∀ c : Ctx, ui_quiet s c → ui_quiet s (options_change_params c value) :=
    fun c hc => ui_quiet_trans hc (options_change_params_quiet c value)
  unfold menu_parameters_button
  simp only
  split_ifs <;>
    first
    | exact ui_quiet_refl s
    | exact key _ _ _ (ui_quiet_refl s)
    | exact step _ (key _ _ _ (ui_quiet_refl s))
    | exact key _ _ _ (step _ (key _ _ _ (ui_quiet_refl s)))
    | exact step _ (key _ _ _ (step _ (key _ _ _ (ui_quiet_refl s))))

theorem home_up_down_quiet (s : Ctx) (i : ButtonsIn) : ui_quiet s (home_up_down s i) :=
  ui_quiet_trans (menu_change_temp_button_quiet s BUTTON_UP 1 i.t_up)
    (menu_change_temp_button_quiet _ BUTTON_DOWN (-1) i.t_down)

/-- Outside the Alarm state `handle_buttons` does not enter the Alarm state, does not come to
remember it, and either leaves mode, PWM enable and indicators alone or (the mode toggle)
leaves the fan off. -/
theorem handle_buttons_run (s : Ctx) (i : ButtonsIn) (hs : s.state ≠ STATE_ALARM) :
    (handle_buttons s i).state ≠ STATE_ALARM
    ∧ (s.last_state ≠ STATE_ALARM → (handle_buttons s i).last_state ≠ STATE_ALARM)
    ∧ (((handle_buttons s i).mode = s.mode ∧ (handle_buttons s i).pwm_on = s.pwm_on
          ∧ (handle_buttons s i).leds_list = s.leds_list)
        ∨ fan_off (handle_buttons s i)) := by
  have fin : ∀ c : Ctx, ui_quiet s c →
      c.state ≠ STATE_ALARM ∧ (s.last_state ≠ STATE_ALARM → c.last_state ≠ STATE_ALARM)
      ∧ ((c.mode = s.mode ∧ c.pwm_on = s.pwm_on ∧ c.leds_list = s.leds_list) ∨ fan_off c) :=
    fun c hc => ⟨(hc.2.2.2 hs).1, (hc.2.2.2 hs).2, Or.inl ⟨hc.1, hc.2.1, hc.2.2.1⟩⟩
  have q0 : ∀ c : Ctx, c.mode = s.mode → c.pwm_on = s.pwm_on → c.leds_list = s.leds_list →
      c.state ≠ STATE_ALARM → (s.last_state ≠ STATE_ALARM → c.last_state ≠ STATE_ALARM) →
      ui_quiet s c :=
    fun c h1 h2 h3 h4 h5 => ⟨h1, h2, h3, fun _ => ⟨h4, h5⟩⟩
  unfold handle_buttons
  simp only
  split
  next hst =>
    split_ifs
    · refine fin _ (ui_quiet_trans ?_ (home_up_down_quiet _ i))
      exact q0 _ rfl rfl rfl hs id
    · refine fin _ (ui_quiet_trans ?_ (home_up_down_quiet _ i))
      exact q0 _ rfl rfl rfl (by simp [change_state]) (fun _ => by simp [change_state, hs])
    · refine fin _ (ui_quiet_trans ?_ (home_up_down_quiet _ i))
      exact q0 _ rfl rfl rfl hs id
    · refine ⟨by simp [fan_stop, leds_change, leds_off, hs],
        fun hl => by simp [fan_stop, leds_change, leds_off, hl], Or.inr ?_⟩
      simp [fan_off, fan_stop, leds_change, leds_off]
    · refine ⟨by simp [fan_stop, leds_change, leds_off, hs],
        fun hl => by simp [fan_stop, leds_change, leds_off, hl], Or.inr ?_⟩
      simp [fan_off, fan_stop, leds_change, leds_off]
    · refine fin _ (ui_quiet_trans ?_ (home_up_down_quiet _ i))
      exact q0 _ rfl rfl rfl hs (fun _ => by simp)
    · refine fin _ (ui_quiet_trans ?_ (home_up_down_quiet _ i))
      exact q0 _ rfl rfl rfl hs id
    · refine fin _ (ui_quiet_trans ?_ (home_up_down_quiet _ i))
      exact q0 _ rfl rfl rfl hs id
  next hst =>
    split_ifs
    · exact fin _ (q0 _ rfl rfl rfl (by simp [change_state])
        (fun _ => by simp [change_state, hs]))
    · refine fin _ (ui_quiet_trans (ui_quiet_trans ?_
        (menu_button_quiet _ BUTTON_UP 1 i.t_up)) (menu_button_quiet _ BUTTON_DOWN (-1) i.t_down))
      exact q0 _ rfl rfl rfl hs id
  next hst =>
    split_ifs
    · exact fin _ (q0 _ rfl rfl rfl (by simp [change_state])
        (fun _ => by simp [change_state, hs]))
    · refine fin _ (ui_quiet_trans (ui_quiet_trans ?_
        (menu_parameters_button_quiet _ BUTTON_UP 1 i.t_up))
        (menu_parameters_button_quiet _ BUTTON_DOWN (-1) i.t_down))
      exact q0 _ rfl rfl rfl hs id
  next hst =>
    split_ifs
    · exact fin _ (q0 _ rfl rfl rfl
        (by simp [change_state, save_with_blank_display, options_save])
        (fun _ => by simp [change_state, save_with_blank_display, options_save, hs]))
    · refine fin _ (ui_quiet_trans (ui_quiet_trans ?_
        (menu_change_temp_button_quiet _ BUTTON_UP 1 i.t_up))
        (menu_change_temp_button_quiet _ BUTTON_DOWN (-1) i.t_down))
      exact q0 _ rfl rfl rfl hs id
  next hst =>
    exact absurd hst hs

theorem stop_alarm_facts (c : Ctx) :
    (stop_alarm c).state = STATE_HOME ∧ (stop_alarm c).last_state = c.state
    ∧ (stop_alarm c).mode = MODE_STOP ∧ (stop_alarm c).leds_list Leds_Fan = false
    ∧ (stop_alarm c).pwm_on = c.pwm_on := by
  simp [stop_alarm, leds_change, change_state]

/-- From the top of an iteration `handle_buttons` leads to the invariant that holds up to the
clean-up statement. -/
theorem handle_buttons_ack (s : Ctx) (i : ButtonsIn) (h : stop_inv s) :
    ack_inv (handle_buttons s i) := by
  obtain ⟨hl, hb, hn⟩ := h
  by_cases hs : s.state = STATE_ALARM
  · rw [handle_buttons_alarm s i hs]
    split_ifs
    · obtain ⟨f1, f2, f3, f4, f5⟩ :=
        stop_alarm_facts { s with last_buttons := s.buttons, buttons := i.pins }
      have hoff : s.pwm_on = false := (hl hs).2.1.2
      refine ⟨fun hc => ?_, fun _ => ⟨f4, f5.trans hoff⟩, fun _ => ⟨f1, f3⟩⟩
      rw [f1] at hc
      exact absurd hc (by decide)
    · exact ⟨hl, hb, fun hc => absurd hc hn⟩
  · obtain ⟨g1, g2, g3⟩ := handle_buttons_run s i hs
    refine ⟨fun hc => absurd hc g1, ?_, fun hc => absurd hc (g2 hn)⟩
    rcases g3 with ⟨m1, m2, m3⟩ | hoff
    · intro hm
      rw [m1] at hm
      unfold fan_off
      rw [m2, m3]
      exact hb hm
    · exact fun _ => hoff

/-- `handle_buttons` never switches the fan on. -/
theorem handle_buttons_fan (s : Ctx) (i : ButtonsIn) :
    fan_not_started s (handle_buttons s i) := by
  by_cases hs : s.state = STATE_ALARM
  · rw [handle_buttons_alarm s i hs]
    split_ifs
    · obtain ⟨_, _, _, f4, f5⟩ :=
        stop_alarm_facts { s with last_buttons := s.buttons, buttons := i.pins }
      unfold fan_not_started
      rw [f4, f5]
      exact ⟨id, fun hc => absurd hc (by decide)⟩
    · exact ⟨id, id⟩
  · obtain ⟨_, _, g3⟩ := handle_buttons_run s i hs
    rcases g3 with ⟨_, m2, m3⟩ | hoff
    · unfold fan_not_started
      rw [m2, m3]
      exact ⟨id, id⟩
    · exact fan_not_started_of_off s hoff

/-- What the menu time-out block can change of the operating state: it leaves mode, PWM enable
and indicators alone; the state stays or becomes Home; the remembered state stays, becomes
Home, or (only with the time-out armed) becomes the state on entry. -/
theorem menu_timeout_fields (s : Ctx) (t : Nat) :
    (menu_timeout s t).mode = s.mode ∧ (menu_timeout s t).pwm_on = s.pwm_on
    ∧ (menu_timeout s t).leds_list = s.leds_list
    ∧ ((menu_timeout s t).state = s.state ∨ (menu_timeout s t).state = STATE_HOME)
    ∧ ((menu_timeout s t).last_state = s.last_state
        ∨ (menu_timeout s t).last_state = STATE_HOME
        ∨ ((menu_timeout s t).last_state = s.state ∧ s.timer_out_menu_enabled = true)) := by
  unfold menu_timeout
  by_cases he : s.timer_out_menu_enabled = true
  · by_cases hf : (timer_expired_ext s.timer_out_menu (SECONDS 5) 0 0 t).2 = true
    · by_cases hh : s.state = STATE_HOME
      · simp [he, hf, hh]
      · by_cases hx : s.state = STATE_MENU_TEMP_CHANGE ∨ s.state = STATE_MENU_PARAMETERS
            ∨ s.state = STATE_MENU
        · simp [he, hf, hh, hx, change_state, save_with_blank_display, options_save,
            set_pwm_duty]
        · simp [he, hf, hh, hx, change_state, save_with_blank_display, options_save,
            set_pwm_duty]
    · simp [he, hf]
  · simp [he]

/-- The menu time-out block keeps the invariant and does not touch the fan. -/
theorem menu_timeout_ack (s : Ctx) (t : Nat) (h : ack_inv s) :
    ack_inv (menu_timeout s t) ∧ fan_not_started s (menu_timeout s t) := by
  have hl := menu_timeout_latched s t h.1
  obtain ⟨h1, h2, h3⟩ := h
  obtain ⟨f1, f2, f3, f4, f5⟩ := menu_timeout_fields s t
  refine ⟨⟨hl, ?_, ?_⟩, ?_⟩
  · unfold fan_off
    rw [f1, f2, f3]
    exact h2
  · intro hc
    rcases f5 with e | e | ⟨e, he⟩
    · rw [e] at hc
      obtain ⟨k1, k2⟩ := h3 hc
      refine ⟨?_, by rw [f1]; exact k2⟩
      rcases f4 with e4 | e4
      · rw [e4]; exact k1
      · exact e4
    · rw [e] at hc
      exact absurd hc (by decide)
    · rw [e] at hc
      have := (h1 hc).2.2
      rw [he] at this
      exact absurd this (by decide)
  · unfold fan_not_started
    rw [f2, f3]
    exact ⟨id, id⟩

/-- The clean-up statement restores the invariant of the top of the loop. -/
theorem alarm_cleanup_stop_inv (s : Ctx) (h : ack_inv s) : stop_inv (alarm_cleanup s) := by
  obtain ⟨h1, h2, h3⟩ := h
  unfold alarm_cleanup
  by_cases hx : s.state = STATE_HOME ∧ s.last_state = STATE_ALARM
  · rw [if_pos hx]
    obtain ⟨f1, f2, f3, f4, f5⟩ := stop_alarm_facts s
    have hoff : s.pwm_on = false := (h2 (h3 hx.2).2).2
    refine ⟨fun hc => ?_, fun _ => ⟨f4, f5.trans hoff⟩, ?_⟩
    · rw [f1] at hc
      exact absurd hc (by decide)
    · rw [f2, hx.1]
      decide
  · rw [if_neg hx]
    refine ⟨h1, h2, fun hc => hx ⟨(h3 hc).1, hc⟩⟩

/-- The clean-up statement never switches the fan on. -/
theorem alarm_cleanup_fan (s : Ctx) : fan_not_started s (alarm_cleanup s) := by
  unfold alarm_cleanup
  split_ifs
  · obtain ⟨_, _, _, f4, f5⟩ := stop_alarm_facts s
    unfold fan_not_started
    rw [f4, f5]
    exact ⟨id, fun hc => absurd hc (by decide)⟩
  · exact ⟨id, id⟩

/-- The menu time-out block never switches the fan on. -/
theorem menu_timeout_fan (s : Ctx) (t : Nat) : fan_not_started s (menu_timeout s t) := by
  obtain ⟨_, f2, f3, _⟩ := menu_timeout_fields s t
  unfold fan_not_started
  rw [f2, f3]
  exact ⟨id, id⟩

/-- The high-temperature guard either changes nothing but its timer or raises the alarm. -/
theorem high_temp_guard_cases (s : Ctx) (t : Nat) :
    ((high_temp_guard s t).2 = false ∧ same_control (high_temp_guard s t).1 s)
    ∨ ((high_temp_guard s t).2 = true ∧ alarm_raised s (high_temp_guard s t).1) := by
  by_cases hq : (high_temp_guard s t).2 = false
  · left
    refine ⟨hq, ?_⟩
    rw [high_temp_guard_quiet s t hq]
    exact same_control_refl s
  · right
    have hq' : (high_temp_guard s t).2 = true := by simpa using hq
    refine ⟨hq', ?_⟩
    unfold high_temp_guard at hq' ⊢
    by_cases h90 : s.temp_ctx.temp > 90
    · by_cases hr : (timer_expired_ext s.timer_temp_alarm (SECONDS 5) 0 0 t).2 = true
      · simp only [h90, hr, if_true]
        exact start_alarm_raised
          { s with timer_temp_alarm := (timer_expired_ext s.timer_temp_alarm (SECONDS 5) 0 0 t).1,
                   error_flags := Error_High_Temperature }
      · simp [h90, hr] at hq'
    · by_cases hlt : s.temp_ctx.temp < 90 <;> simp [h90, hlt] at hq'

/-- The shutdown-temperature guard either changes nothing but its timer or raises the
alarm. -/
theorem low_temp_guard_cases (s : Ctx) (t : Nat) :
    ((low_temp_guard s t).2 = false ∧ same_control (low_temp_guard s t).1 s)
    ∨ ((low_temp_guard s t).2 = true ∧ alarm_raised s (low_temp_guard s t).1) := by
  by_cases hq : (low_temp_guard s t).2 = false
  · left
    refine ⟨hq, ?_⟩
    rw [low_temp_guard_quiet s t hq]
    exact same_control_refl s
  · right
    have hq' : (low_temp_guard s t).2 = true := by simpa using hq
    refine ⟨hq', ?_⟩
    unfold low_temp_guard at hq' ⊢
    by_cases hlow : s.options.controller_shutdown_temperature.value > s.temp_ctx.temp
    · by_cases hr : (timer_expired_ext s.timer_controller_shutdown_temperature (MINUTES 5) 0 0
          t).2 = true
      · simp only [hlow, hr, if_true]
        exact start_alarm_raised
          { s with
            timer_controller_shutdown_temperature :=
              (timer_expired_ext s.timer_controller_shutdown_temperature (MINUTES 5) 0 0 t).1,
            error_flags := Error_Low_Temperature }
      · have hnot : ¬ (s.options.controller_shutdown_temperature.value < s.temp_ctx.temp) := by
          omega
        simp [hlow, hr, hnot] at hq'
    · by_cases hhigh : s.options.controller_shutdown_temperature.value < s.temp_ctx.temp <;>
        simp [hlow, hhigh] at hq'

theorem fan_burst_ui (s : Ctx) (t : Nat) :
    (fan_burst s t).last_state = s.last_state
    ∧ (fan_burst s t).timer_out_menu_enabled = s.timer_out_menu_enabled := by
  unfold fan_burst
  simp only
  split_ifs <;> exact ⟨rfl, rfl⟩

theorem fan_rule_ui (s : Ctx) (t_pp t_cp : Nat) :
    (fan_rule s t_pp t_cp).last_state = s.last_state
    ∧ (fan_rule s t_pp t_cp).timer_out_menu_enabled = s.timer_out_menu_enabled := by
  unfold fan_rule
  simp only
  split_ifs <;> simp [fan_burst_ui, fan_start, fan_stop, leds_change]

theorem pump_rule_ui (s : Ctx) :
    (pump_rule s).last_state = s.last_state
    ∧ (pump_rule s).timer_out_menu_enabled = s.timer_out_menu_enabled
    ∧ (pump_rule s).pwm_on = s.pwm_on
    ∧ (pump_rule s).leds_list Leds_Fan = s.leds_list Leds_Fan := by
  unfold pump_rule
  split <;> simp [leds_change, Function.update]

/-- The fan rule leaves a running mode running. -/
theorem fan_rule_running (s : Ctx) (t_pp t_cp : Nat) (h : s.mode ≠ MODE_STOP) :
    (fan_rule s t_pp t_cp).mode ≠ MODE_STOP := by
  rw [fan_rule_mode]
  split_ifs <;> first | exact h | decide

/-- The ways a thermostat evaluation ends: an alarm; nothing at all (mode Stopped); or a
running mode, with the UI state, the remembered state and the menu time-out flag as they
were. -/
theorem thermostat_run (s : Ctx) (i : ThermoIn) :
    ((thermostat s i).2 = true ∧ s.mode ≠ MODE_STOP ∧ alarm_raised s (thermostat s i).1)
    ∨ (s.mode = MODE_STOP ∧ thermostat s i = (s, false))
    ∨ ((thermostat s i).2 = false ∧ s.mode ≠ MODE_STOP
        ∧ (thermostat s i).1.mode ≠ MODE_STOP
        ∧ (thermostat s i).1.state = s.state
        ∧ (thermostat s i).1.last_state = s.last_state
        ∧ (thermostat s i).1.timer_out_menu_enabled = s.timer_out_menu_enabled) := by
  rcases thermostat_cases s i with ⟨hm, e⟩ | ⟨hm, hh, e⟩ | ⟨hm, hh, hl, e⟩ | ⟨hm, hq, _, _, _⟩
  · exact Or.inr (Or.inl ⟨hm, e⟩)
  · left
    rcases high_temp_guard_cases (leds_change s Leds_Stop false) i.t_temp_alarm with
      ⟨k, _⟩ | ⟨_, k⟩
    · rw [hh] at k
      exact absurd k (by decide)
    · rw [e]
      exact ⟨hh, hm, k⟩
  · left
    rcases high_temp_guard_cases (leds_change s Leds_Stop false) i.t_temp_alarm with
      ⟨_, k1⟩ | ⟨k1, _⟩
    · rcases low_temp_guard_cases
        (high_temp_guard (leds_change s Leds_Stop false) i.t_temp_alarm).1 i.t_shutdown with
        ⟨k, _⟩ | ⟨_, k⟩
      · rw [hl] at k
        exact absurd k (by decide)
      · rw [e]
        refine ⟨hl, hm, ?_⟩
        obtain ⟨a1, a2, a3, a4, a5⟩ := k
        refine ⟨a1, ?_, a3, a4, a5⟩
        rw [a2, k1.1]
        rfl
    · rw [hh] at k1
      exact absurd k1 (by decide)
  · right
    right
    obtain ⟨ta, tb, e⟩ := thermostat_quiet s i hm hq
    refine ⟨hq, hm, ?_, ?_, ?_, ?_⟩
    · rw [e, pump_rule_mode]
      exact fan_rule_running _ _ _ hm
    · rw [e, pump_rule_state, fan_rule_state]
      rfl
    · rw [e, (pump_rule_ui _).1, (fan_rule_ui _ _ _).1]
      rfl
    · rw [e, (pump_rule_ui _).2.1, (fan_rule_ui _ _ _).2]
      rfl

/-- A thermostat evaluation that switches the fan on is entered in a running mode, raises no
alarm and leaves the mode in Kindling or Control. -/
theorem thermostat_fan (s : Ctx) (i : ThermoIn)
    (h : ¬ fan_not_started s (thermostat s i).1) :
    s.mode ≠ MODE_STOP ∧ (thermostat s i).2 = false
    ∧ ((thermostat s i).1.mode = MODE_RASTOPKA ∨ (thermostat s i).1.mode = MODE_CONTROL) := by
  rcases thermostat_run s i with ⟨_, _, k⟩ | ⟨_, e⟩ | ⟨hq, hm, hr, _⟩
  · exact absurd (fan_not_started_of_raised s s k) h
  · rw [e] at h
    exact absurd (fan_not_started_refl s) h
  · refine ⟨hm, hq, ?_⟩
    cases hmode : (thermostat s i).1.mode
    · exact absurd hmode hr
    · exact Or.inl rfl
    · exact Or.inr rfl

/-- Outside the Alarm state the control block runs the thermostat on a context that has the
operating state of the entry context (the blink block and the factory-reset rule touch the
display flag, a timer, the configuration and the duty register only). -/
theorem control_step_entry (s : Ctx) (t : Nat) (i : ThermoIn) (h : s.state ≠ STATE_ALARM) :
    ∃ c : Ctx, (c.state = s.state ∧ c.last_state = s.last_state ∧ c.mode = s.mode
        ∧ c.leds_list = s.leds_list ∧ c.pwm_on = s.pwm_on
        ∧ c.timer_out_menu_enabled = s.timer_out_menu_enabled)
      ∧ control_step s t i = thermostat c i := by
  unfold control_step
  rw [if_pos h]
  simp only
  by_cases h1 : s.state = STATE_MENU_TEMP_CHANGE
  · have h2 : ¬ (s.state = STATE_HOME ∧ s.options.factory_settings.value = 1) := by
      intro hc
      rw [hc.1] at h1
      exact absurd h1 (by decide)
    by_cases h3 : (timer_expired_ext s.timer_menu 0 0 250 t).2 = true
    · rw [if_pos h1, if_pos h3]
      simp only
      rw [if_neg h2]
      refine ⟨_, ?_, rfl⟩
      exact ⟨rfl, rfl, rfl, rfl, rfl, rfl⟩
    · rw [if_pos h1, if_neg h3]
      simp only
      rw [if_neg h2]
      refine ⟨_, ?_, rfl⟩
      exact ⟨rfl, rfl, rfl, rfl, rfl, rfl⟩
  · by_cases h2 : s.state = STATE_HOME ∧ s.options.factory_settings.value = 1
    · rw [if_neg h1]
      rw [if_pos h2]
      refine ⟨_, ?_, rfl⟩
      exact ⟨rfl, rfl, rfl, rfl, rfl, rfl⟩
    · rw [if_neg h1]
      rw [if_neg h2]
      refine ⟨_, ?_, rfl⟩
      exact ⟨rfl, rfl, rfl, rfl, rfl, rfl⟩

/-- The control block keeps the invariant of the top of the loop. -/
theorem control_step_stop_inv (s : Ctx) (t : Nat) (i : ThermoIn) (h : stop_inv s) :
    stop_inv (control_step s t i).1 := by
  by_cases hs : s.state = STATE_ALARM
  · rw [control_step_alarm s t i hs]
    exact h
  · obtain ⟨c, ⟨c1, c2, c3, c4, c5, c6⟩, e⟩ := control_step_entry s t i hs
    obtain ⟨_, hb, hn⟩ := h
    have hcs : c.state ≠ STATE_ALARM := by rw [c1]; exact hs
    rw [e]
    rcases thermostat_run c i with ⟨_, _, k⟩ | ⟨hm, e2⟩ | ⟨_, _, r1, r2, r3, _⟩
    · exact stop_inv_of_raised k hcs
    · rw [e2]
      refine ⟨fun hc => absurd hc hcs, fun _ => ?_, by rw [c2]; exact hn⟩
      unfold fan_off
      rw [c4, c5]
      exact hb (c3 ▸ hm)
    · refine ⟨fun hc => ?_, fun hc => absurd hc r1, by rw [r3, c2]; exact hn⟩
      rw [r2] at hc
      exact absurd hc hcs

/-- If the control block switches the fan on, it does so outside the Alarm state, without
raising an alarm, and leaves the mode in Kindling or Control. -/
theorem control_step_fan (s : Ctx) (t : Nat) (i : ThermoIn)
    (h : ¬ fan_not_started s (control_step s t i).1) :
    s.state ≠ STATE_ALARM ∧ s.mode ≠ MODE_STOP ∧ (control_step s t i).2 = false
    ∧ ((control_step s t i).1.mode = MODE_RASTOPKA
        ∨ (control_step s t i).1.mode = MODE_CONTROL) := by
  by_cases hs : s.state = STATE_ALARM
  · rw [control_step_alarm s t i hs] at h
    exact absurd (fan_not_started_refl s) h
  · obtain ⟨c, ⟨_, _, c3, c4, c5, _⟩, e⟩ := control_step_entry s t i hs
    rw [e] at h ⊢
    have h' : ¬ fan_not_started c (thermostat c i).1 := by
      unfold fan_not_started at h ⊢
      rw [c4, c5]
      exact h
    obtain ⟨k1, k2, k3⟩ := thermostat_fan c i h'
    exact ⟨hs, c3 ▸ k1, k2, k3⟩

/-- One main-loop iteration keeps the invariant of the top of the loop. -/
theorem main_loop_iter_stop_inv (s : Ctx) (i : LoopIn) (h : stop_inv s) :
    stop_inv (main_loop_iter s i) := by
  have h1 := loop_probe_stop_inv s i.t_ow i.reset1 i.reset2 h
  have h2 := handle_buttons_ack _ i.buttons h1
  have h3 := (menu_timeout_ack _ i.t_out_menu h2).1
  have h4 := ack_inv_of_same (poll_temp_same _ i.temp_reset i.temp_bit i.t_temp) h3
  have h5 := alarm_cleanup_stop_inv _ h4
  have h6 := control_step_stop_inv _ i.t_menu i.thermo h5
  unfold main_loop_iter loop_after_buttons
  simp only
  split
  · exact h6
  · exact stop_inv_of_same (leds_refresh_same _ _) h6

/-- An iteration that switches the fan on leaves the mode in Kindling or Control. -/
theorem main_loop_iter_fan (s : Ctx) (i : LoopIn)
    (h : ¬ fan_not_started s (main_loop_iter s i)) :
    (main_loop_iter s i).mode = MODE_RASTOPKA ∨ (main_loop_iter s i).mode = MODE_CONTROL := by
  have f1 := loop_probe_fan s i.t_ow i.reset1 i.reset2
  have f2 := handle_buttons_fan (loop_probe s i.t_ow i.reset1 i.reset2) i.buttons
  have f3 := menu_timeout_fan
    (handle_buttons (loop_probe s i.t_ow i.reset1 i.reset2) i.buttons) i.t_out_menu
  have f4 := fan_not_started_of_same (poll_temp_same
    (menu_timeout (handle_buttons (loop_probe s i.t_ow i.reset1 i.reset2) i.buttons)
      i.t_out_menu) i.temp_reset i.temp_bit i.t_temp)
  have f5 := alarm_cleanup_fan (poll_temp
    (menu_timeout (handle_buttons (loop_probe s i.t_ow i.reset1 i.reset2) i.buttons)
      i.t_out_menu) i.temp_reset i.temp_bit i.t_temp)
  have pre := fan_not_started_trans (fan_not_started_trans (fan_not_started_trans
    (fan_not_started_trans f1 f2) f3) f4) f5
  unfold main_loop_iter loop_after_buttons at h ⊢
  simp only at h ⊢
  by_cases hk : fan_not_started
      (alarm_cleanup (poll_temp
        (menu_timeout (handle_buttons (loop_probe s i.t_ow i.reset1 i.reset2) i.buttons)
          i.t_out_menu) i.temp_reset i.temp_bit i.t_temp))
      (control_step (alarm_cleanup (poll_temp
        (menu_timeout (handle_buttons (loop_probe s i.t_ow i.reset1 i.reset2) i.buttons)
          i.t_out_menu) i.temp_reset i.temp_bit i.t_temp)) i.t_menu i.thermo).1
  · exfalso
    apply h
    split
    · exact fan_not_started_trans pre hk
    · exact fan_not_started_trans (fan_not_started_trans pre hk)
        (fan_not_started_of_same (leds_refresh_same _ _))
  · obtain ⟨_, _, k3, k4⟩ := control_step_fan _ _ _ hk
    rw [if_neg (by rw [k3]; decide)]
    rw [(leds_refresh_same _ i.t_leds).2.2.1]
    exact k4

/-- The boot loop runs in the Home state with the invariant of the top of the loops. -/
theorem boot_reach_stop_inv (s : Ctx) (h : BootReach s) :
    stop_inv s ∧ s.state ≠ STATE_ALARM := by
  induction h with
  | start =>
    refine ⟨⟨init_ctx_latched, fun _ => ⟨by decide, by decide⟩, by decide⟩, by decide⟩
  | again s i _ hflag ih =>
    rcases boot_iter_cases s i with hc | ⟨_, hf⟩
    · refine ⟨stop_inv_of_same hc ih.1, ?_⟩
      rw [hc.1]
      exact ih.2
    · rw [hflag] at hf
      exact absurd hf (by decide)

/-- Every context at the top of the main loop satisfies the invariant. -/
theorem reach_stop_inv (s : Ctx) (h : Reach s) : stop_inv s := by
  induction h with
  | enter s i hb _ =>
    obtain ⟨h1, h2⟩ := boot_reach_stop_inv s hb
    have key : ∀ (c : Ctx) (t : Timer32), stop_inv c →
        stop_inv { c with timer_ow_alarm := t } := fun c t hc => hc
    rcases boot_iter_cases s i with hc | ⟨hr, _⟩
    · exact key _ _ (stop_inv_of_same hc h1)
    · exact key _ _ (stop_inv_of_raised hr h2)
  | iter s i _ ih => exact main_loop_iter_stop_inv s i ih

/-- Claim C25. At the top of every main-loop iteration, that is at the end of boot and at the
end of every iteration, whatever the button samples, readings, probe results and ticks were:
the Alarm state implies mode Stopped, and mode Stopped implies that the fan is off (Fan
indicator off and PWM output disabled). The fan is switched on by the thermostat only: an
iteration that enables the PWM output or sets the Fan indicator leaves the mode in Kindling or
Control; a thermostat evaluation that does so (from any context `c`) is entered in a running
mode, raises no alarm and leaves the mode in Kindling or Control; and the boot iteration, the
bus-health block, `handle_buttons`, the menu time-out block, the temperature poll, the alarm
clean-up and the indicator refresh never do so. -/
theorem stopped_means_fan_off (s c : Ctx) (i : LoopIn) (b : BootIn) (hreach : Reach s) :
    (s.state = STATE_ALARM → s.mode = MODE_STOP)
    ∧ (s.mode = MODE_STOP → fan_off s)
    ∧ (¬ fan_not_started s (main_loop_iter s i) →
        (main_loop_iter s i).mode = MODE_RASTOPKA ∨ (main_loop_iter s i).mode = MODE_CONTROL)
    ∧ (¬ fan_not_started c (thermostat c i.thermo).1 →
        c.mode ≠ MODE_STOP ∧ (thermostat c i.thermo).2 = false
        ∧ ((thermostat c i.thermo).1.mode = MODE_RASTOPKA
            ∨ (thermostat c i.thermo).1.mode = MODE_CONTROL))
    ∧ fan_not_started c (boot_iter c b).1
    ∧ fan_not_started c (boot_exit c)
    ∧ fan_not_started c (loop_probe c i.t_ow i.reset1 i.reset2)
    ∧ fan_not_started c (handle_buttons c i.buttons)
    ∧ fan_not_started c (menu_timeout c i.t_out_menu)
    ∧ fan_not_started c (poll_temp c i.temp_reset i.temp_bit i.t_temp)
    ∧ fan_not_started c (alarm_cleanup c)
    ∧ fan_not_started c (leds_refresh c i.t_leds) := by
  obtain ⟨hl, hb, _⟩ := reach_stop_inv s hreach
  exact ⟨fun hs => (hl hs).1, hb, main_loop_iter_fan s i, thermostat_fan c i.thermo,
    boot_iter_fan c b, ⟨id, id⟩, loop_probe_fan c _ _ _, handle_buttons_fan c _,
    menu_timeout_fan c _, ⟨id, id⟩, alarm_cleanup_fan c,
    fan_not_started_of_same (leds_refresh_same c _)⟩

/-- Witness of C25: the context in the Alarm state reached after the second failed probe, an
idle iteration at tick 2000, and for the blocks a context in Control mode with the fan off
and a reading of 30 degrees, on which the thermostat switches the fan on. -/
theorem stopped_means_fan_off_witness :
    Reach sensor_alarm_ctx
    ∧ (sensor_alarm_ctx.state = STATE_ALARM → sensor_alarm_ctx.mode = MODE_STOP)
    ∧ (sensor_alarm_ctx.mode = MODE_STOP → fan_off sensor_alarm_ctx)
    ∧ (¬ fan_not_started sensor_alarm_ctx (main_loop_iter sensor_alarm_ctx (idle_in 2000 false)) →
        (main_loop_iter sensor_alarm_ctx (idle_in 2000 false)).mode = MODE_RASTOPKA
        ∨ (main_loop_iter sensor_alarm_ctx (idle_in 2000 false)).mode = MODE_CONTROL)
    ∧ (¬ fan_not_started low_band_ctx (thermostat low_band_ctx (idle_in 2000 false).thermo).1 →
        low_band_ctx.mode ≠ MODE_STOP
        ∧ (thermostat low_band_ctx (idle_in 2000 false).thermo).2 = false
        ∧ ((thermostat low_band_ctx (idle_in 2000 false).thermo).1.mode = MODE_RASTOPKA
            ∨ (thermostat low_band_ctx (idle_in 2000 false).thermo).1.mode = MODE_CONTROL))
    ∧ fan_not_started low_band_ctx (boot_iter low_band_ctx boot_in_present).1
    ∧ fan_not_started low_band_ctx (boot_exit low_band_ctx)
    ∧ fan_not_started low_band_ctx
        (loop_probe low_band_ctx (idle_in 2000 false).t_ow (idle_in 2000 false).reset1
          (idle_in 2000 false).reset2)
    ∧ fan_not_started low_band_ctx (handle_buttons low_band_ctx (idle_in 2000 false).buttons)
    ∧ fan_not_started low_band_ctx (menu_timeout low_band_ctx (idle_in 2000 false).t_out_menu)
    ∧ fan_not_started low_band_ctx
        (poll_temp low_band_ctx (idle_in 2000 false).temp_reset (idle_in 2000 false).temp_bit
          (idle_in 2000 false).t_temp)
    ∧ fan_not_started low_band_ctx (alarm_cleanup low_band_ctx)
    ∧ fan_not_started low_band_ctx (leds_refresh low_band_ctx (idle_in 2000 false).t_leds) :=
  ⟨sensor_alarm_ctx_reach,
    stopped_means_fan_off sensor_alarm_ctx low_band_ctx (idle_in 2000 false) boot_in_present
      sensor_alarm_ctx_reach⟩

/-! ## Revised statements: clamping away from the sum 255, wait phase without wrap -/

/-- Claim C21, amended. A freshly reset timer first polled at tick `t0`, with the deadline sum
`t0 + wait` at most `2^32 - 1`: the first poll and every later poll at a `u32` tick `now` with
`(now - t0) mod 2^32 < wait` return false. (With the sum in range such a tick lies in
`[t0, t0 + wait)`; the comparison made is `now < t0 + wait` on the ticks themselves.) -/
theorem timer_wait_no_wrap (tm : Timer32) (wait period sl t0 : Nat) (ps : List Nat)
    (hsum : t0 + wait ≤ 2 ^ 32 - 1)
    (hps : ∀ n ∈ ps, n < 2 ^ 32 ∧ tick_delta n t0 < wait) :
    (timer_polls wait period sl (timer_reset tm) (t0 :: ps)).2
      = List.replicate (ps.length + 1) false := by
  have hfirst : timer_expired_ext (timer_reset tm) wait period sl t0
      = (⟨false, false, t0 + wait⟩, false) := by
    have h0 : (t0 + wait) % 4294967296 = t0 + wait := by omega
    simp [timer_expired_ext, timer_reset, h0]
  have hlt : ∀ n ∈ ps, n < t0 + wait := by
    intro n hn
    obtain ⟨h1, h2⟩ := hps n hn
    unfold tick_delta at h2
    omega
  rw [timer_polls, hfirst]
  simp only [List.replicate_succ]
  congr 1
  cases ps with
  | nil => rfl
  | cons p rest =>
    have hp := hlt p (List.mem_cons_self p rest)
    have hd : t0 + wait ≠ 0 := by omega
    have key := timer_polls_waiting wait period sl (t0 + wait) hd (p :: rest) [] hlt
    rw [List.append_nil] at key
    rw [key]
    simp [timer_polls]

/-- Witness of C21: `wait = 5000`, first poll at tick 7, later polls at ticks 7, 500 and
5006. -/
theorem timer_wait_no_wrap_witness :
    (∀ n ∈ [7, 500, 5006], n < 2 ^ 32 ∧ tick_delta n 7 < 5000)
    ∧ (timer_polls 5000 0 0 (timer_reset ⟨true, true, 5⟩) (7 :: [7, 500, 5006])).2
      = List.replicate ([7, 500, 5006].length + 1) false :=
  ⟨by decide, timer_wait_no_wrap ⟨true, true, 5⟩ 5000 0 0 7 [7, 500, 5006] (by decide)
    (by decide)⟩

end Boiler
